import Mathlib

/-!
Verification development for the metadata-driven playlist clustering and
profile-synthesis pipeline of the `spotify-analytics` repository
(`backend/advanced_clustering.py` and `backend/enhanced_clustering.py`).

The Python source is shallowly embedded in Lean:

* Python floats become `ℚ`.  Every arithmetic operation of the pipeline
  (weighted interpolation, means, medians, percentiles with linear
  interpolation, clamping) is exact on `ℚ`, so the embedded values agree
  with the ideal real-valued semantics of the source.
* Python dicts keyed by strings become association lists or records.
* `numpy`'s global pseudo-random state is modelled explicitly: a `Rng`
  value carries an infinite stream of "uniform [0,1] samples" and a read
  position.  `np.random.seed s` is modelled by `np_seed s`, which replaces
  the state by a stream that is a pure function of `s` (a concrete
  integer-mixing stand-in for the Mersenne Twister; which concrete values
  the seeded stream takes is irrelevant to every claim, only that it is a
  pure function of the seed and produces values in `[0,1]`).
* `hashlib.md5`-derived jitter seeds are modelled by a concrete string
  hash reduced mod 10000, again a pure function of the same input as in
  the source.
* Calls into external numerical libraries (HDBSCAN fits, Gaussian-mixture
  fits, KMeans fits, silhouette scores, UMAP embeddings) are inputs of the
  embedded functions: the surrounding decision logic — which is what the
  claims are about — is embedded faithfully, and theorems quantify over
  the library results (or instantiate them with concrete, realizable
  outputs).
-/

/-! ## Rational helpers -/

/-- Linear interpolation toward a target, `advanced_clustering._weighted_adjust`:
`(1 - weight) * current + weight * target`. -/
def weighted_adjust (current target weight : ℚ) : ℚ :=
  (1 - weight) * current + weight * target

/-- Python `min` on two rationals. -/
def pymin (a b : ℚ) : ℚ := if b ≤ a then b else a

/-- Python `max` on two rationals. -/
def pymax (a b : ℚ) : ℚ := if a ≤ b then b else a

/-- Mean of a list (`np.mean` / `sum(l)/len(l)`); call sites guard against
the empty list exactly as the source does. -/
def q_mean (l : List ℚ) : ℚ := l.sum / (l.length : ℚ)

/-- Insertion step for sorting rationals. -/
def q_insert (x : ℚ) : List ℚ → List ℚ
  | [] => [x]
  | y :: ys => if x ≤ y then x :: y :: ys else y :: q_insert x ys

/-- Ascending sort of rationals (models `np.sort` on values). -/
def q_sort (l : List ℚ) : List ℚ := l.foldr q_insert []

/-- Largest element of a list with a default (call sites guard nonempty). -/
def q_max_list (l : List ℚ) : ℚ :=
  match l with
  | [] => 0
  | x :: xs => xs.foldl pymax x

/-- Smallest element of a list with a default (call sites guard nonempty). -/
def q_min_list (l : List ℚ) : ℚ :=
  match l with
  | [] => 0
  | x :: xs => xs.foldl pymin x

/-- `np.percentile` with the default linear-interpolation method:
position `q/100 * (n-1)` into the sorted data, linearly interpolating
between the two neighbouring order statistics. -/
def np_percentile (l : List ℚ) (q : ℚ) : ℚ :=
  let s := q_sort l
  let n := s.length
  if n = 0 then 0 else
    let pos : ℚ := q / 100 * ((n : ℚ) - 1)
    let lo : ℕ := (Rat.floor pos).toNat
    let a := s.getD lo 0
    let b := s.getD (lo + 1) a
    a + (pos - (lo : ℚ)) * (b - a)

/-! ## String helpers (Python `in`, `.lower()`, tokenization) -/

/-- Boolean list-prefix test on characters. -/
def chars_is_pre : List Char → List Char → Bool
  | [], _ => true
  | _ :: _, [] => false
  | a :: as, b :: bs => a == b && chars_is_pre as bs

/-- Boolean substring (contiguous) test on character lists. -/
def chars_infix (needle : List Char) : List Char → Bool
  | [] => needle.isEmpty
  | c :: tl => chars_is_pre needle (c :: tl) || chars_infix needle tl

/-- Python `needle in hay` on a lower-cased character list. -/
def str_in (hay : List Char) (needle : String) : Bool :=
  chars_infix needle.data hay

/-- Python `any(term in hay for term in terms)`. -/
def any_in (hay : List Char) (terms : List String) : Bool :=
  terms.any (fun t => str_in hay t)

/-- Python `s.lower()` as a character list. -/
def py_lower (s : String) : List Char := s.data.map Char.toLower

/-- Membership of a string in a literal list (Python `x in [..]`). -/
def mem_str (s : String) (l : List String) : Bool := l.any (fun t => t == s)

/-- Word characters for `re.findall(r'\w+', text)`. -/
def is_word_char (c : Char) : Bool :=
  c.isAlpha || c.isDigit || c == '_'

/-- Tokenizer state machine for `re.findall(r'\w+', text)`: splits a
character list into maximal runs of word characters. -/
def word_tokens_aux : List Char → List Char → List (List Char)
  | [], acc => if acc.isEmpty then [] else [acc.reverse]
  | c :: rest, acc =>
    if is_word_char c then word_tokens_aux rest (c :: acc)
    else if acc.isEmpty then word_tokens_aux rest []
    else acc.reverse :: word_tokens_aux rest []

/-- `re.findall(r'\w+', text)` over a character list. -/
def word_tokens (cs : List Char) : List (List Char) := word_tokens_aux cs []

/-- Character-list membership in a string vocabulary list. -/
def tok_mem (t : List Char) (l : List String) : Bool :=
  l.any (fun s => s.data == t)

/-! ## Random-state model -/

/-- Explicit model of `numpy`'s global random state: an infinite stream of
"uniform [0,1] samples" plus the current read position. -/
structure Rng where
  stream : ℕ → ℚ
  pos : ℕ

/-- Draw the next raw sample in `[0,1]`. -/
def Rng.next (r : Rng) : ℚ × Rng := (r.stream r.pos, ⟨r.stream, r.pos + 1⟩)

/-- `np.random.uniform(lo, hi)`: an affine image of the next raw sample. -/
def np_uniform (lo hi : ℚ) (r : Rng) : ℚ × Rng :=
  let p := r.next
  (lo + (hi - lo) * p.1, p.2)

/-- `np.random.random()`: the next raw sample in `[0,1]`. -/
def np_random (r : Rng) : ℚ × Rng := r.next

/-- Deterministic seeded stream: stand-in for the Mersenne Twister.  The
only properties used are that it is a pure function of the seed and yields
values in `[0,1]`. -/
def mt_stream (seed : ℕ) : ℕ → ℚ := fun i =>
  ((((seed + 1) * 2654435761 + i * 40503) % 1000003 : ℕ) : ℚ) / 1000003

/-- `np.random.seed(seed)`: reset the global state to a function of the seed. -/
def np_seed (seed : ℕ) : Rng := ⟨mt_stream seed, 0⟩

theorem mt_stream_nonneg (seed i : ℕ) : 0 ≤ mt_stream seed i := by
  unfold mt_stream
  positivity

theorem mt_stream_le_one (seed i : ℕ) : mt_stream seed i ≤ 1 := by
  unfold mt_stream
  rw [div_le_one (by norm_num)]
  have h : (((seed + 1) * 2654435761 + i * 40503) % 1000003 : ℕ) < 1000003 :=
    Nat.mod_lt _ (by norm_num)
  calc ((((seed + 1) * 2654435761 + i * 40503) % 1000003 : ℕ) : ℚ)
      ≤ ((1000003 : ℕ) : ℚ) := by exact_mod_cast h.le
    _ = 1000003 := by norm_num

/-- Stand-in for `int(hashlib.md5(s.encode()).hexdigest(), 16) % 10000`:
a concrete string hash reduced mod 10000 — like the source, a pure
function of the input string. -/
def str_hash_seed (s : List Char) : ℕ :=
  (s.foldl (fun a c => a * 131 + c.toNat) 7) % 10000

/-! ## Data model

`TrackInfo` is the `track_info` record built by the feature builders;
`ArtistInfo` is one entry of the artist lookup (`self.artist_data`), with
`Option` fields where the source reads the corresponding key through
`.get(key, default)`. -/

structure ArtistInfo where
  name : String
  genres : List String
  popularity : Option ℚ
  followers : Option ℚ
deriving DecidableEq

/-- The artist lookup: association list from artist id to artist data. -/
def ArtistData := List (String × ArtistInfo)

/-- Dict lookup (`artist_id in self.artist_data` / `self.artist_data[artist_id]`). -/
def artist_lookup (d : ArtistData) (k : String) : Option ArtistInfo :=
  match d with
  | [] => none
  | (a, v) :: tl => if a == k then some v else artist_lookup tl k

structure TrackInfo where
  id : String
  name : String
  artists : List String
  primary_artist : String
  artist_id : Option String
  album : String
  popularity : ℚ
  added_at : Option String
  release_date : String
  image_url : Option String
  explicit : Bool
  duration_ms : ℚ
deriving DecidableEq

/-- Eight-field synthesized audio profile. -/
structure AudioProfile where
  danceability : ℚ
  energy : ℚ
  acousticness : ℚ
  instrumentalness : ℚ
  valence : ℚ
  speechiness : ℚ
  liveness : ℚ
  tempo : ℚ
deriving DecidableEq

/-- Context themes extracted from the playlist name/description.  The
advanced extractor fills all five categories; the enhanced extractor has
no `decade` category (it is absent from its themes dict). -/
structure ContextThemes where
  mood : List String
  genre : List String
  activity : List String
  time : List String
  decade : List String
deriving DecidableEq

/-- `int(release_date[:4])` guarded by `len(release_date) >= 4`: parses the
first four characters as a base-10 integer (release dates are ISO-prefixed,
so the digits-only reading of Python `int` applies). -/
def parse_year (s : String) : Option ℚ :=
  let cs := s.data
  if cs.length ≥ 4 then
    let four := cs.take 4
    if four.all Char.isDigit then
      some ((four.foldl (fun a c => a * 10 + (c.toNat - 48)) 0 : ℕ) : ℚ)
    else none
  else none

/-- Years collected from a cluster's tracks (the
`if track.get('release_date') and len(...) >= 4: try int(...)` loop). -/
def collect_years (tracks : List TrackInfo) : List ℚ :=
  tracks.filterMap (fun t => parse_year t.release_date)

/-! ## Context Extractor (`advanced_clustering.extract_playlist_context`) -/

def adv_stop_words : List String :=
  ["the", "a", "an", "and", "or", "but", "is", "are", "to", "for", "in",
   "on", "by", "with", "of", "this"]

def adv_mood_vocab : List String :=
  ["happy", "sad", "chill", "relax", "energetic", "calm", "focus", "study",
   "party", "upbeat", "melancholy", "mellow", "peaceful", "aggressive",
   "angry", "emotional", "dark", "light", "dreamy", "intense", "nostalgic",
   "uplifting", "somber", "reflective", "contemplative", "cheerful",
   "gloomy", "atmospheric", "vibrant"]

def adv_genre_vocab : List String :=
  ["rock", "pop", "hip", "hop", "rap", "jazz", "classical", "electronic",
   "dance", "metal", "country", "folk", "indie", "soul", "funk", "blues",
   "r&b", "reggae", "disco", "punk", "grunge", "techno", "house",
   "ambient", "trap", "edm", "alternative", "lo-fi", "instrumental",
   "vocal", "acoustic", "experimental"]

def adv_activity_vocab : List String :=
  ["workout", "run", "gym", "sleep", "drive", "commute", "work", "coding",
   "reading", "cooking", "cleaning", "gaming", "meditation", "yoga",
   "walking", "hiking", "biking", "swimming", "dinner", "party",
   "concentration", "relaxation", "travel", "road", "trip", "background",
   "focus", "productivity", "motivation", "inspiration", "dancing",
   "exercising", "cardio", "strength"]

def adv_time_vocab : List String :=
  ["morning", "night", "evening", "weekend", "summer", "winter", "spring",
   "fall", "autumn", "holiday", "christmas", "halloween", "new", "year",
   "season", "daily", "weekly", "monthly", "yearly", "dawn", "dusk",
   "afternoon", "midnight", "sunrise", "sunset"]

def adv_decade_vocab : List String :=
  ["50s", "60s", "70s", "80s", "90s", "00s", "10s", "20s", "fifties",
   "sixties", "seventies", "eighties", "nineties", "aughts", "tens",
   "twenties", "retro", "vintage", "classic", "modern", "contemporary",
   "oldies", "throwback"]

/-- Tokens of the combined, lower-cased name+description with stop words
removed. -/
def adv_tokens (playlist_name playlist_description : String) : List (List Char) :=
  let combined := py_lower playlist_name ++ [' '] ++ py_lower playlist_description
  (word_tokens combined).filter (fun t => !(tok_mem t adv_stop_words))

/-- Bigrams (`' '.join(tokens[i:i+2])`) of the token list. -/
def tok_bigrams : List (List Char) → List (List Char)
  | a :: b :: rest => (a ++ [' '] ++ b) :: tok_bigrams (b :: rest)
  | _ => []

/-- `advanced_clustering.AdvancedPlaylistAnalysis.extract_playlist_context`:
unigram matches against the five vocabularies, then (when there are at
least two tokens) bigram matches appended in the same way. -/
def adv_extract_playlist_context (playlist_name playlist_description : String) :
    ContextThemes :=
  let tokens := adv_tokens playlist_name playlist_description
  let pick := fun (vocab : List String) =>
    (tokens.filter (fun t => tok_mem t vocab)).map List.asString
  let base : ContextThemes :=
    { mood := pick adv_mood_vocab
      genre := pick adv_genre_vocab
      activity := pick adv_activity_vocab
      time := pick adv_time_vocab
      decade := pick adv_decade_vocab }
  if tokens.length > 1 then
    let bigrams := tok_bigrams tokens
    let pick2 := fun (vocab : List String) =>
      (bigrams.filter (fun t => tok_mem t vocab)).map List.asString
    { mood := base.mood ++ pick2 adv_mood_vocab
      genre := base.genre ++ pick2 adv_genre_vocab
      activity := base.activity ++ pick2 adv_activity_vocab
      time := base.time ++ pick2 adv_time_vocab
      decade := base.decade ++ pick2 adv_decade_vocab }
  else base

/-! ## Context Extractor (`enhanced_clustering.extract_playlist_context`) -/

def enh_stop_words : List String :=
  ["the", "a", "an", "and", "or", "but", "is", "are", "to", "for", "in",
   "on", "by", "with"]

def enh_mood_vocab : List String :=
  ["happy", "sad", "chill", "relax", "energetic", "calm", "focus", "study",
   "party", "upbeat", "melancholy"]

def enh_genre_vocab : List String :=
  ["rock", "pop", "hip", "hop", "rap", "jazz", "classical", "electronic",
   "dance", "metal", "country", "folk", "indie"]

def enh_activity_vocab : List String :=
  ["workout", "run", "gym", "sleep", "drive", "commute", "work", "coding",
   "reading"]

def enh_time_vocab : List String :=
  ["morning", "night", "evening", "weekend", "summer", "winter", "spring",
   "fall"]

/-- `enhanced_clustering.EnhancedPlaylistAnalysis.extract_playlist_context`:
unigram matches only; the themes dict has no `decade` category, modelled
as an always-empty list. -/
def enh_extract_playlist_context (playlist_name playlist_description : String) :
    ContextThemes :=
  let combined := py_lower playlist_name ++ [' '] ++ py_lower playlist_description
  let tokens := (word_tokens combined).filter (fun t => !(tok_mem t enh_stop_words))
  let pick := fun (vocab : List String) =>
    (tokens.filter (fun t => tok_mem t vocab)).map List.asString
  { mood := pick enh_mood_vocab
    genre := pick enh_genre_vocab
    activity := pick enh_activity_vocab
    time := pick enh_time_vocab
    decade := [] }

/-! ## Claim C8: context extraction on "Late Night Study Session" -/

/-- C8 (counterexample): on playlist name "Late Night Study Session" with
empty description, the `activity` list does NOT contain "study" — in both
extractors "study" belongs to the `mood` vocabulary, and the `activity`
vocabularies do not list it — so the claim as stated is false. -/
theorem c8_activity_does_not_contain_study :
    (adv_extract_playlist_context "Late Night Study Session" "").activity = [] ∧
    (enh_extract_playlist_context "Late Night Study Session" "").activity = [] := by
  constructor <;> decide

/-- C8 (amended): on playlist name "Late Night Study Session" with empty
description, the advanced Context Extractor returns `mood = ["study"]`
(not `activity`), `time = ["night"]`, and empty `genre`, `activity` and
`decade` lists; the enhanced extractor agrees on all its categories. -/
theorem c8_context_extraction_amended :
    adv_extract_playlist_context "Late Night Study Session" ""
      = { mood := ["study"], genre := [], activity := [],
          time := ["night"], decade := [] } ∧
    enh_extract_playlist_context "Late Night Study Session" ""
      = { mood := ["study"], genre := [], activity := [],
          time := ["night"], decade := [] } := by
  constructor <;> decide

/-! ## Profile Synthesizer (`advanced_clustering`), data collection -/

/-- `advanced_clustering._get_base_audio_profile`. -/
def base_audio_profile : AudioProfile :=
  { danceability := 50/100, energy := 50/100, acousticness := 50/100,
    instrumentalness := 20/100, valence := 50/100, speechiness := 10/100,
    liveness := 20/100, tempo := 115 }

/-- One `Counter` increment (`genre_counts[genre] += 1`), preserving
first-occurrence key order. -/
def counter_add : List (String × ℕ) → String → List (String × ℕ)
  | [], k => [(k, 1)]
  | (a, c) :: tl, k =>
    if a == k then (a, c + 1) :: tl else (a, c) :: counter_add tl k

/-- `advanced_clustering._extract_genre_distribution`: counts of each genre
tag over the cluster's tracks via the primary artist's lookup entry (an
absent or falsy artist id, or a missing lookup entry, contributes
nothing). -/
def extract_genre_distribution (d : ArtistData) (tracks : List TrackInfo) :
    List (String × ℕ) :=
  tracks.foldl (fun acc t =>
    match t.artist_id with
    | none => acc
    | some aid =>
      if aid == "" then acc
      else
        match artist_lookup d aid with
        | none => acc
        | some a => a.genres.foldl counter_add acc) []

/-- `max(0.01, min(0.99, x))`: the final clamp of the non-tempo fields. -/
def clamp01 (x : ℚ) : ℚ := pymax (1/100) (pymin (99/100) x)

/-! ## Profile Synthesizer, genre adjustments
(`advanced_clustering._apply_genre_adjustments`), one small definition per
genre family, dispatched by the same substring tests and in the same order
as the source's if/elif chain. -/

def rock_adjust (p : AudioProfile) (gl : List Char) (w : ℚ) : AudioProfile :=
  let p1 := { p with energy := weighted_adjust p.energy (75/100) (w * (60/100)) }
  let p2 := { p1 with acousticness := weighted_adjust p1.acousticness (30/100) (w * (50/100)) }
  let p3 := { p2 with liveness := weighted_adjust p2.liveness (50/100) (w * (40/100)) }
  if str_in gl "metal" then
    let p4 := { p3 with energy := weighted_adjust p3.energy (90/100) (w * (80/100)) }
    { p4 with valence := weighted_adjust p4.valence (40/100) (w * (50/100)) }
  else if str_in gl "indie" then
    let p4 := { p3 with acousticness := weighted_adjust p3.acousticness (50/100) (w * (50/100)) }
    { p4 with instrumentalness := weighted_adjust p4.instrumentalness (30/100) (w * (40/100)) }
  else p3

def classical_adjust (p : AudioProfile) (w : ℚ) : AudioProfile :=
  let p1 := { p with acousticness := weighted_adjust p.acousticness (90/100) (w * (80/100)) }
  let p2 := { p1 with energy := weighted_adjust p1.energy (30/100) (w * (60/100)) }
  let p3 := { p2 with instrumentalness := weighted_adjust p2.instrumentalness (90/100) (w * (80/100)) }
  { p3 with speechiness := weighted_adjust p3.speechiness (3/100) (w * (90/100)) }

def electronic_adjust (p : AudioProfile) (gl : List Char) (w : ℚ) : AudioProfile :=
  let p1 := { p with danceability := weighted_adjust p.danceability (80/100) (w * (70/100)) }
  let p2 := { p1 with energy := weighted_adjust p1.energy (85/100) (w * (60/100)) }
  let p3 := { p2 with acousticness := weighted_adjust p2.acousticness (10/100) (w * (80/100)) }
  if str_in gl "ambient" then
    let p4 := { p3 with energy := weighted_adjust p3.energy (30/100) (w * (70/100)) }
    { p4 with instrumentalness := weighted_adjust p4.instrumentalness (80/100) (w * (70/100)) }
  else if str_in gl "techno" || str_in gl "house" then
    { p3 with danceability := weighted_adjust p3.danceability (90/100) (w * (80/100)) }
  else p3

def hip_hop_adjust (p : AudioProfile) (gl : List Char) (w : ℚ) : AudioProfile :=
  let p1 := { p with speechiness := weighted_adjust p.speechiness (60/100) (w * (70/100)) }
  let p2 := { p1 with danceability := weighted_adjust p1.danceability (75/100) (w * (60/100)) }
  let p3 := { p2 with acousticness := weighted_adjust p2.acousticness (15/100) (w * (70/100)) }
  let p4 :=
    if str_in gl "trap" then
      { p3 with energy := weighted_adjust p3.energy (70/100) (w * (60/100)) }
    else p3
  if str_in gl "gangsta" || str_in gl "hardcore" then
    { p4 with valence := weighted_adjust p4.valence (40/100) (w * (50/100)) }
  else p4

def jazz_adjust (p : AudioProfile) (w : ℚ) : AudioProfile :=
  let p1 := { p with instrumentalness := weighted_adjust p.instrumentalness (70/100) (w * (60/100)) }
  let p2 := { p1 with acousticness := weighted_adjust p1.acousticness (80/100) (w * (60/100)) }
  { p2 with energy := weighted_adjust p2.energy (40/100) (w * (50/100)) }

def folk_adjust (p : AudioProfile) (w : ℚ) : AudioProfile :=
  let p1 := { p with acousticness := weighted_adjust p.acousticness (85/100) (w * (80/100)) }
  let p2 := { p1 with energy := weighted_adjust p1.energy (35/100) (w * (60/100)) }
  let p3 := { p2 with instrumentalness := weighted_adjust p2.instrumentalness (20/100) (w * (50/100)) }
  { p3 with speechiness := weighted_adjust p3.speechiness (40/100) (w * (50/100)) }

def pop_adjust (p : AudioProfile) (w : ℚ) : AudioProfile :=
  let p1 := { p with danceability := weighted_adjust p.danceability (70/100) (w * (60/100)) }
  let p2 := { p1 with valence := weighted_adjust p1.valence (65/100) (w * (50/100)) }
  let p3 := { p2 with energy := weighted_adjust p2.energy (70/100) (w * (50/100)) }
  { p3 with speechiness := weighted_adjust p3.speechiness (40/100) (w * (50/100)) }

def soul_adjust (p : AudioProfile) (gl : List Char) (w : ℚ) : AudioProfile :=
  let p1 := { p with danceability := weighted_adjust p.danceability (70/100) (w * (60/100)) }
  let p2 := { p1 with speechiness := weighted_adjust p1.speechiness (30/100) (w * (50/100)) }
  let p3 := { p2 with valence := weighted_adjust p2.valence (60/100) (w * (50/100)) }
  if str_in gl "funk" then
    let p4 := { p3 with energy := weighted_adjust p3.energy (75/100) (w * (70/100)) }
    { p4 with valence := weighted_adjust p4.valence (80/100) (w * (60/100)) }
  else p3

def country_adjust (p : AudioProfile) (w : ℚ) : AudioProfile :=
  let p1 := { p with acousticness := weighted_adjust p.acousticness (70/100) (w * (60/100)) }
  let p2 := { p1 with valence := weighted_adjust p1.valence (60/100) (w * (50/100)) }
  let p3 := { p2 with energy := weighted_adjust p2.energy (50/100) (w * (50/100)) }
  { p3 with instrumentalness := weighted_adjust p3.instrumentalness (20/100) (w * (60/100)) }

def latin_adjust (p : AudioProfile) (w : ℚ) : AudioProfile :=
  let p1 := { p with danceability := weighted_adjust p.danceability (80/100) (w * (70/100)) }
  let p2 := { p1 with energy := weighted_adjust p1.energy (75/100) (w * (60/100)) }
  let p3 := { p2 with valence := weighted_adjust p2.valence (75/100) (w * (60/100)) }
  { p3 with speechiness := weighted_adjust p3.speechiness (50/100) (w * (50/100)) }

def apply_genre_adjustments (p : AudioProfile) (gl : List Char) (w : ℚ) :
    AudioProfile :=
  if str_in gl "rock" then rock_adjust p gl w
  else if any_in gl ["classical", "piano", "orchestra", "composer"] then
    classical_adjust p w
  else if any_in gl ["electronic", "techno", "house", "edm", "dance"] then
    electronic_adjust p gl w
  else if any_in gl ["hip hop", "hip-hop", "rap", "trap"] then
    hip_hop_adjust p gl w
  else if str_in gl "jazz" then jazz_adjust p w
  else if any_in gl ["folk", "acoustic", "singer-songwriter"] then
    folk_adjust p w
  else if str_in gl "pop" then pop_adjust p w
  else if any_in gl ["r&b", "soul", "funk"] then soul_adjust p gl w
  else if str_in gl "country" then country_adjust p w
  else if any_in gl ["latin", "salsa", "reggaeton"] then latin_adjust p w
  else p

/-! ## Profile Synthesizer, popularity / era / explicit / duration stages -/

/-- The percentile-based popularity stage of
`generate_adaptive_audio_profile` (source lines 708-727). -/
def adjust_by_popularity (p : AudioProfile) (popularities : List ℚ) :
    AudioProfile :=
  if popularities.isEmpty then p
  else
    let p25 := np_percentile popularities 25
    let p50 := np_percentile popularities 50
    let p75 := np_percentile popularities 75
    let avg := q_mean popularities
    let pf := (avg - 50) / 50
    if p75 < avg then
      let p1 := { p with danceability := weighted_adjust p.danceability (70/100) (|pf| * (70/100)) }
      let p2 := { p1 with energy := weighted_adjust p1.energy (70/100) (|pf| * (60/100)) }
      { p2 with valence := weighted_adjust p2.valence (70/100) (|pf| * (50/100)) }
    else if p50 < avg then
      let p1 := { p with danceability := weighted_adjust p.danceability (65/100) (|pf| * (50/100)) }
      let p2 := { p1 with energy := weighted_adjust p1.energy (65/100) (|pf| * (40/100)) }
      { p2 with valence := weighted_adjust p2.valence (65/100) (|pf| * (30/100)) }
    else if avg < p25 then
      let p1 := { p with danceability := weighted_adjust p.danceability (40/100) (|pf| * (30/100)) }
      let p2 := { p1 with instrumentalness := weighted_adjust p1.instrumentalness (40/100) (|pf| * (50/100)) }
      { p2 with acousticness := weighted_adjust p2.acousticness (60/100) (|pf| * (40/100)) }
    else p

/-- Smoothing of one non-tempo field when the year span exceeds 20
(`_adjust_by_era`, final loop). -/
def smooth_field (x : ℚ) : ℚ :=
  if x < 30/100 then pymax x (30/100)
  else if 70/100 < x then pymin x (70/100)
  else x

/-- The era-band branch of `_adjust_by_era` (keyed by the mean year). -/
def era_shift (p : AudioProfile) (avg : ℚ) : AudioProfile :=
  if 2010 ≤ avg then
        let a1 := { p with acousticness := weighted_adjust p.acousticness (30/100) (50/100) }
        let a2 := { a1 with danceability := weighted_adjust a1.danceability (70/100) (50/100) }
        if 2015 ≤ avg then
          let a3 := { a2 with speechiness := weighted_adjust a2.speechiness (40/100) (50/100) }
          { a3 with energy := weighted_adjust a3.energy (65/100) (50/100) }
        else a2
      else if 2000 ≤ avg then
        let a1 := { p with danceability := weighted_adjust p.danceability (65/100) (40/100) }
        let a2 := { a1 with energy := weighted_adjust a1.energy (70/100) (40/100) }
        { a2 with acousticness := weighted_adjust a2.acousticness (35/100) (40/100) }
      else if 1990 ≤ avg then
        let a1 := { p with energy := weighted_adjust p.energy (75/100) (40/100) }
        let a2 := { a1 with danceability := weighted_adjust a1.danceability (60/100) (40/100) }
        { a2 with valence := weighted_adjust a2.valence (55/100) (30/100) }
      else if 1980 ≤ avg then
        let a1 := { p with energy := weighted_adjust p.energy (80/100) (50/100) }
        let a2 := { a1 with danceability := weighted_adjust a1.danceability (70/100) (50/100) }
        let a3 := { a2 with valence := weighted_adjust a2.valence (70/100) (40/100) }
        { a3 with acousticness := weighted_adjust a3.acousticness (25/100) (50/100) }
      else if 1970 ≤ avg then
        let a1 := { p with energy := weighted_adjust p.energy (70/100) (40/100) }
        let a2 := { a1 with liveness := weighted_adjust a1.liveness (50/100) (40/100) }
        { a2 with valence := weighted_adjust a2.valence (65/100) (30/100) }
      else if 1960 ≤ avg then
        let a1 := { p with acousticness := weighted_adjust p.acousticness (50/100) (40/100) }
        let a2 := { a1 with energy := weighted_adjust a1.energy (60/100) (40/100) }
        { a2 with valence := weighted_adjust a2.valence (70/100) (40/100) }
      else
        let a1 := { p with acousticness := weighted_adjust p.acousticness (70/100) (60/100) }
        let a2 := { a1 with energy := weighted_adjust a1.energy (40/100) (50/100) }
        let a3 := { a2 with instrumentalness := weighted_adjust a2.instrumentalness (40/100) (40/100) }
        { a3 with liveness := weighted_adjust a3.liveness (60/100) (40/100) }

/-- The year-diversity smoothing pass of `_adjust_by_era` applied to the
seven non-tempo fields (dict iteration order). -/
def smooth_profile (p : AudioProfile) : AudioProfile :=
  { danceability := smooth_field p.danceability
    energy := smooth_field p.energy
    acousticness := smooth_field p.acousticness
    instrumentalness := smooth_field p.instrumentalness
    valence := smooth_field p.valence
    speechiness := smooth_field p.speechiness
    liveness := smooth_field p.liveness
    tempo := p.tempo }

/-- `advanced_clustering._adjust_by_era`: the era-band shift followed by
the smoothing pass when the year span exceeds 20. -/
def adjust_by_era (p : AudioProfile) (years : List ℚ) : AudioProfile :=
  if years.isEmpty then p
  else
    let p1 := era_shift p (q_mean years)
    if 20 < q_max_list years - q_min_list years then smooth_profile p1 else p1

/-- The explicit-content stage of `generate_adaptive_audio_profile`
(source lines 733-742). -/
def adjust_by_explicit (p : AudioProfile) (explicit_count total : ℕ) :
    AudioProfile :=
  if total = 0 then p
  else
    let ep := (explicit_count : ℚ) / (total : ℚ)
    if 10/100 < ep then
      let boost := pymin (30/100) (ep * (50/100))
      let p1 := { p with speechiness := pymin (90/100) (p.speechiness + boost) }
      { p1 with acousticness := pymax (10/100) (p1.acousticness - boost * (50/100)) }
    else p

/-- The duration stage of `generate_adaptive_audio_profile`
(source lines 744-756). -/
def adjust_by_duration (p : AudioProfile) (durations : List ℚ) :
    AudioProfile :=
  if durations.isEmpty then p
  else
    let avg := q_mean durations / 60000
    if avg < 2 then
      let p1 := { p with energy := pymin (95/100) (p.energy + 10/100) }
      { p1 with danceability := pymin (90/100) (p1.danceability + 10/100) }
    else if 5 < avg then
      let p1 := { p with energy := pymax (5/100) (p.energy - 10/100) }
      { p1 with instrumentalness := pymin (90/100) (p1.instrumentalness + 15/100) }
    else p

/-! ## Profile Synthesizer, context-theme stage
(`advanced_clustering._adjust_profile_by_context`) -/

/-- One iteration of the mood loop (base weight 0.5). -/
def ctx_mood_step (p : AudioProfile) (mood : String) : AudioProfile :=
  let w : ℚ := 50/100
  if mem_str mood ["chill", "relax", "relaxing", "calm", "peaceful"] then
    let p1 := { p with energy := weighted_adjust p.energy (25/100) w }
    let p2 := { p1 with tempo := weighted_adjust p1.tempo 85 (w * (50/100)) }
    let p3 := { p2 with acousticness := weighted_adjust p2.acousticness (70/100) (w * (70/100)) }
    { p3 with valence := weighted_adjust p3.valence (50/100) (w * (50/100)) }
  else if mem_str mood ["energetic", "party", "upbeat", "vibrant", "hype"] then
    let p1 := { p with energy := weighted_adjust p.energy (85/100) w }
    let p2 := { p1 with tempo := weighted_adjust p1.tempo 125 (w * (50/100)) }
    let p3 := { p2 with danceability := weighted_adjust p2.danceability (80/100) (w * (70/100)) }
    { p3 with valence := weighted_adjust p3.valence (75/100) (w * (60/100)) }
  else if mem_str mood ["focus", "study", "concentration", "work", "productivity"] then
    let p1 := { p with instrumentalness := weighted_adjust p.instrumentalness (60/100) (w * (70/100)) }
    let p2 := { p1 with energy := weighted_adjust p1.energy (40/100) (w * (60/100)) }
    { p2 with speechiness := weighted_adjust p2.speechiness (10/100) (w * (80/100)) }
  else if mem_str mood ["sad", "melancholy", "emotional", "somber"] then
    let p1 := { p with valence := weighted_adjust p.valence (25/100) (w * (80/100)) }
    let p2 := { p1 with tempo := weighted_adjust p1.tempo 90 (w * (50/100)) }
    { p2 with acousticness := weighted_adjust p2.acousticness (60/100) (w * (50/100)) }
  else if mem_str mood ["happy", "joy", "cheerful", "uplifting"] then
    let p1 := { p with valence := weighted_adjust p.valence (80/100) (w * (80/100)) }
    { p1 with energy := weighted_adjust p1.energy (70/100) (w * (60/100)) }
  else if mem_str mood ["dreamy", "atmospheric", "ambient"] then
    let p1 := { p with instrumentalness := weighted_adjust p.instrumentalness (70/100) (w * (70/100)) }
    let p2 := { p1 with acousticness := weighted_adjust p1.acousticness (60/100) (w * (60/100)) }
    { p2 with energy := weighted_adjust p2.energy (30/100) (w * (70/100)) }
  else if mem_str mood ["dark", "intense", "aggressive", "angry"] then
    let p1 := { p with valence := weighted_adjust p.valence (20/100) (w * (70/100)) }
    let p2 := { p1 with energy := weighted_adjust p1.energy (80/100) (w * (70/100)) }
    { p2 with acousticness := weighted_adjust p2.acousticness (20/100) (w * (60/100)) }
  else p

/-- One iteration of the activity loop (base weight 0.5). -/
def ctx_activity_step (p : AudioProfile) (activity : String) : AudioProfile :=
  let w : ℚ := 50/100
  if mem_str activity ["workout", "run", "gym", "exercise", "cardio"] then
    let p1 := { p with energy := weighted_adjust p.energy (90/100) (w * (80/100)) }
    let p2 := { p1 with tempo := weighted_adjust p1.tempo 130 (w * (70/100)) }
    let p3 := { p2 with valence := weighted_adjust p2.valence (70/100) (w * (60/100)) }
    { p3 with danceability := weighted_adjust p3.danceability (80/100) (w * (60/100)) }
  else if mem_str activity ["sleep", "relax", "meditation", "yoga"] then
    let p1 := { p with energy := weighted_adjust p.energy (10/100) (w * (90/100)) }
    let p2 := { p1 with tempo := weighted_adjust p1.tempo 70 (w * (80/100)) }
    let p3 := { p2 with acousticness := weighted_adjust p2.acousticness (80/100) (w * (70/100)) }
    { p3 with instrumentalness := weighted_adjust p3.instrumentalness (70/100) (w * (70/100)) }
  else if mem_str activity ["dance", "party", "club"] then
    let p1 := { p with danceability := weighted_adjust p.danceability (90/100) (w * (90/100)) }
    let p2 := { p1 with energy := weighted_adjust p1.energy (85/100) (w * (80/100)) }
    { p2 with tempo := weighted_adjust p2.tempo 120 (w * (60/100)) }
  else if mem_str activity ["drive", "road", "trip", "travel"] then
    let p1 := { p with energy := weighted_adjust p.energy (70/100) (w * (60/100)) }
    { p1 with valence := weighted_adjust p1.valence (65/100) (w * (50/100)) }
  else if mem_str activity ["coding", "reading", "study", "work"] then
    let p1 := { p with instrumentalness := weighted_adjust p.instrumentalness (70/100) (w * (70/100)) }
    { p1 with speechiness := weighted_adjust p1.speechiness (10/100) (w * (80/100)) }
  else p

/-- One iteration of the decade loop (base weight 0.4). -/
def ctx_decade_step (p : AudioProfile) (decade : String) : AudioProfile :=
  let w : ℚ := 40/100
  if mem_str decade ["50s", "fifties", "retro", "vintage", "oldies"] then
    let p1 := { p with acousticness := weighted_adjust p.acousticness (75/100) w }
    let p2 := { p1 with valence := weighted_adjust p1.valence (60/100) w }
    { p2 with tempo := weighted_adjust p2.tempo 95 (w * (50/100)) }
  else if mem_str decade ["60s", "sixties"] then
    let p1 := { p with valence := weighted_adjust p.valence (65/100) w }
    let p2 := { p1 with acousticness := weighted_adjust p1.acousticness (60/100) w }
    { p2 with tempo := weighted_adjust p2.tempo 105 (w * (50/100)) }
  else if mem_str decade ["70s", "seventies"] then
    let p1 := { p with valence := weighted_adjust p.valence (70/100) w }
    let p2 := { p1 with energy := weighted_adjust p1.energy (65/100) w }
    { p2 with tempo := weighted_adjust p2.tempo 110 (w * (50/100)) }
  else if mem_str decade ["80s", "eighties"] then
    let p1 := { p with energy := weighted_adjust p.energy (75/100) w }
    let p2 := { p1 with valence := weighted_adjust p1.valence (70/100) w }
    let p3 := { p2 with acousticness := weighted_adjust p2.acousticness (30/100) w }
    { p3 with tempo := weighted_adjust p3.tempo 115 (w * (50/100)) }
  else if mem_str decade ["90s", "nineties"] then
    let p1 := { p with energy := weighted_adjust p.energy (70/100) w }
    let p2 := { p1 with danceability := weighted_adjust p1.danceability (65/100) w }
    { p2 with tempo := weighted_adjust p2.tempo 105 (w * (50/100)) }
  else if mem_str decade ["00s", "aughts", "2000s"] then
    let p1 := { p with energy := weighted_adjust p.energy (65/100) w }
    let p2 := { p1 with danceability := weighted_adjust p1.danceability (70/100) w }
    { p2 with tempo := weighted_adjust p2.tempo 110 (w * (50/100)) }
  else if mem_str decade ["10s", "tens", "2010s"] then
    let p1 := { p with energy := weighted_adjust p.energy (70/100) w }
    let p2 := { p1 with speechiness := weighted_adjust p1.speechiness (40/100) w }
    let p3 := { p2 with acousticness := weighted_adjust p2.acousticness (40/100) w }
    { p3 with tempo := weighted_adjust p3.tempo 105 (w * (50/100)) }
  else if mem_str decade ["20s", "twenties", "2020s", "modern"] then
    let p1 := { p with speechiness := weighted_adjust p.speechiness (45/100) w }
    let p2 := { p1 with danceability := weighted_adjust p1.danceability (70/100) w }
    { p2 with tempo := weighted_adjust p2.tempo 100 (w * (50/100)) }
  else p

/-- `advanced_clustering._adjust_profile_by_context`: the mood, activity
and decade loops in source order. -/
def adjust_profile_by_context (p : AudioProfile) (ctx : ContextThemes) :
    AudioProfile :=
  let p1 := ctx.mood.foldl ctx_mood_step p
  let p2 := ctx.activity.foldl ctx_activity_step p1
  ctx.decade.foldl ctx_decade_step p2

/-! ## Profile Synthesizer, tempo stage (`advanced_clustering._adjust_tempo`) -/

/-- Tempo influence contributed by one genre-distribution entry
(target BPM, weight `min(0.8, count/10)`), or none for unmatched genres. -/
def genre_tempo_influence (genre : String) (count : ℕ) : Option (ℚ × ℚ) :=
  let gl := py_lower genre
  let w := pymin (80/100) ((count : ℚ) / 10)
  if any_in gl ["edm", "dance", "techno", "house", "trance"] then some (128, w)
  else if any_in gl ["hip hop", "hip-hop", "rap", "trap"] then some (95, w)
  else if str_in gl "rock" then
    if str_in gl "metal" || str_in gl "hard" then some (140, w)
    else if str_in gl "punk" then some (160, w)
    else some (120, w)
  else if str_in gl "jazz" then some (110, w)
  else if any_in gl ["classical", "piano", "symphony"] then some (85, w)
  else if any_in gl ["folk", "acoustic", "indie"] then some (100, w)
  else if any_in gl ["soul", "r&b", "funk"] then some (105, w)
  else if str_in gl "pop" then some (115, w)
  else none

/-- Era tempo influence (weight 0.5) keyed by the mean release year. -/
def era_tempo_influence (years : List ℚ) : List (ℚ × ℚ) :=
  if years.isEmpty then []
  else
    let avg := q_mean years
    let yw : ℚ := 50/100
    if 2010 ≤ avg then [(105, yw)]
    else if 2000 ≤ avg then [(110, yw)]
    else if 1990 ≤ avg then [(115, yw)]
    else if 1980 ≤ avg then [(120, yw)]
    else if 1970 ≤ avg then [(110, yw)]
    else if 1960 ≤ avg then [(105, yw)]
    else [(90, yw)]

/-- The energy/danceability tempo estimate of `_adjust_tempo`
(`(energy*140 + danceability*130) / (energy + danceability)`, guarded
against a zero denominator). -/
def energy_dance_tempo (p : AudioProfile) : ℚ :=
  let ed_raw := p.energy * 140 + p.danceability * 130
  if 0 < p.energy + p.danceability then ed_raw / (p.energy + p.danceability)
  else ed_raw / 1

/-- The `tempo_influences` list of `_adjust_tempo`: genre influences, then
the era influence, then the always-present energy/danceability influence
with weight 0.6. -/
def tempo_influences (p : AudioProfile) (years : List ℚ)
    (gd : List (String × ℕ)) : List (ℚ × ℚ) :=
  (gd.filterMap (fun gc => genre_tempo_influence gc.1 gc.2))
    ++ era_tempo_influence years ++ [(energy_dance_tempo p, 60/100)]

/-- The weighted-average base tempo of `_adjust_tempo` (default 115 when
there are no influences or no positive total weight), plus the
valence-correlated offset. -/
def base_tempo_value (p : AudioProfile) (years : List ℚ)
    (gd : List (String × ℕ)) : ℚ :=
  let influences := tempo_influences p years gd
  let weighted_sum := (influences.map (fun i => i.1 * i.2)).sum
  let total_weight := (influences.map (fun i => i.2)).sum
  let bt : ℚ :=
    if influences.isEmpty then 115
    else if 0 < total_weight then weighted_sum / total_weight else 115
  bt + (p.valence - 50/100) * 10

/-- `advanced_clustering._adjust_tempo`: weighted average of genre, era and
energy/danceability influences, a valence-correlated offset, a clamp to
`[60, 180]`, and then a `uniform(-3, 3)` draw from the (not yet reseeded)
global random state. -/
def adjust_tempo (p : AudioProfile) (years : List ℚ)
    (gd : List (String × ℕ)) (r : Rng) : AudioProfile × Rng :=
  let final_tempo := pymin 180 (pymax 60 (base_tempo_value p years gd))
  let d := np_uniform (-3) 3 r
  ({ p with tempo := final_tempo + d.1 }, d.2)

/-! ## Profile Synthesizer, seeded jitter and main function -/

/-- Lexicographic comparison of character lists by code point
(Python string `<=`). -/
def lex_le : List Char → List Char → Bool
  | [], _ => true
  | _ :: _, [] => false
  | x :: xs, y :: ys =>
    if x.toNat < y.toNat then true
    else if y.toNat < x.toNat then false
    else lex_le xs ys

/-- Insertion step for sorting strings. -/
def str_insert (x : List Char) : List (List Char) → List (List Char)
  | [] => [x]
  | y :: ys => if lex_le x y then x :: y :: ys else y :: str_insert x ys

/-- `sorted(list_of_strings)`. -/
def sort_strs (l : List (List Char)) : List (List Char) := l.foldr str_insert []

/-- `''.join(sorted([t.get('id', '') for t in cluster_tracks]))`. -/
def sorted_ids (tracks : List TrackInfo) : List Char :=
  (sort_strs (tracks.map (fun t => t.id.data))).flatten

/-- The final jitter loop of `generate_adaptive_audio_profile`: one
`uniform(-0.03, 0.03)` draw per non-tempo field (dict insertion order),
each clamped to `[0.01, 0.99]`, then one `uniform(-3, 3)` draw added to
tempo with no clamp. -/
def apply_jitter (p : AudioProfile) (r : Rng) : AudioProfile × Rng :=
  let d1 := np_uniform (-3/100) (3/100) r
  let p := { p with danceability := clamp01 (p.danceability + d1.1) }
  let d2 := np_uniform (-3/100) (3/100) d1.2
  let p := { p with energy := clamp01 (p.energy + d2.1) }
  let d3 := np_uniform (-3/100) (3/100) d2.2
  let p := { p with acousticness := clamp01 (p.acousticness + d3.1) }
  let d4 := np_uniform (-3/100) (3/100) d3.2
  let p := { p with instrumentalness := clamp01 (p.instrumentalness + d4.1) }
  let d5 := np_uniform (-3/100) (3/100) d4.2
  let p := { p with valence := clamp01 (p.valence + d5.1) }
  let d6 := np_uniform (-3/100) (3/100) d5.2
  let p := { p with speechiness := clamp01 (p.speechiness + d6.1) }
  let d7 := np_uniform (-3/100) (3/100) d6.2
  let p := { p with liveness := clamp01 (p.liveness + d7.1) }
  let d8 := np_uniform (-3) 3 d7.2
  ({ p with tempo := p.tempo + d8.1 }, d8.2)

/-- `advanced_clustering.AdvancedPlaylistAnalysis.generate_adaptive_audio_profile`.

Inputs: the artist lookup, the extracted context themes
(`self.context_themes`), the cluster's track records, the genre
distribution (the source recomputes it when it is empty/None), and the
global random state.  Returns the profile and the updated global random
state.  Note the order of the two random effects, exactly as in the
source: `_adjust_tempo` draws from the incoming state, and only then is
the state reseeded from the hash of the sorted track-identifier
concatenation before the final jitter pass. -/
def used_genre_distribution (artist_data : ArtistData)
    (cluster_tracks : List TrackInfo) (genre_distribution : List (String × ℕ)) :
    List (String × ℕ) :=
  if genre_distribution.isEmpty
  then extract_genre_distribution artist_data cluster_tracks
  else genre_distribution

/-- The deterministic stages of `generate_adaptive_audio_profile` up to
(but not including) `_adjust_tempo`: genre, popularity, era, explicit,
duration and context adjustments, in source order.  The source's
`if years:` guard before `_adjust_by_era` is absorbed into
`adjust_by_era`'s own empty-years guard (`if not years: return profile`),
which returns the profile unchanged on an empty year list. -/
def pre_tempo_profile (artist_data : ArtistData) (ctx : ContextThemes)
    (cluster_tracks : List TrackInfo) (genre_distribution : List (String × ℕ)) :
    AudioProfile :=
  adjust_profile_by_context
    (adjust_by_duration
      (adjust_by_explicit
        (adjust_by_era
          (adjust_by_popularity
            ((used_genre_distribution artist_data cluster_tracks
                genre_distribution).foldl
              (fun p gc => apply_genre_adjustments p (py_lower gc.1)
                ((gc.2 : ℚ) / (cluster_tracks.length : ℚ)))
              base_audio_profile)
            (cluster_tracks.map (fun t => t.popularity)))
          (collect_years cluster_tracks))
        ((cluster_tracks.filter (fun t => t.explicit)).length)
        cluster_tracks.length)
      (cluster_tracks.map (fun t => t.duration_ms)))
    ctx

def generate_adaptive_audio_profile (artist_data : ArtistData)
    (ctx : ContextThemes) (cluster_tracks : List TrackInfo)
    (genre_distribution : List (String × ℕ)) (r : Rng) : AudioProfile × Rng :=
  if cluster_tracks.isEmpty then (base_audio_profile, r)
  else
    let profile := pre_tempo_profile artist_data ctx cluster_tracks genre_distribution
    let pt := adjust_tempo profile (collect_years cluster_tracks)
      (used_genre_distribution artist_data cluster_tracks genre_distribution) r
    let seed := str_hash_seed (sorted_ids cluster_tracks)
    apply_jitter pt.1 (np_seed seed)

/-! ## Claim C1: determinism of the Profile Synthesizer -/

/-- The seven non-tempo fields of a profile, bundled. -/
def non_tempo_fields (p : AudioProfile) : ℚ × ℚ × ℚ × ℚ × ℚ × ℚ × ℚ :=
  (p.danceability, p.energy, p.acousticness, p.instrumentalness,
   p.valence, p.speechiness, p.liveness)

/-- The seven non-tempo output fields do not depend on the incoming global
random state: their jitter draws all come after the `np.random.seed` call,
whose seed is a pure function of the sorted track identifiers. -/
theorem non_tempo_independent_of_rng (artist_data : ArtistData)
    (ctx : ContextThemes) (tracks : List TrackInfo)
    (gd : List (String × ℕ)) (r₁ r₂ : Rng) :
    non_tempo_fields (generate_adaptive_audio_profile artist_data ctx tracks gd r₁).1
      = non_tempo_fields (generate_adaptive_audio_profile artist_data ctx tracks gd r₂).1 := by
  unfold generate_adaptive_audio_profile
  split
  · rfl
  · rfl

/-- Concrete single-track cluster used to exhibit the tempo divergence. -/
def c1_track : TrackInfo :=
  { id := "a", name := "x", artists := ["A"], primary_artist := "A",
    artist_id := none, album := "al", popularity := 50, added_at := none,
    release_date := "", image_url := none, explicit := false, duration_ms := 0 }

/-- Empty context themes (no keyword matched). -/
def empty_ctx : ContextThemes :=
  { mood := [], genre := [], activity := [], time := [], decade := [] }

/-- First invocation, from a concrete global random state. -/
def c1_run1 : AudioProfile × Rng :=
  generate_adaptive_audio_profile [] empty_ctx [c1_track] [] ⟨fun _ => 1/2, 0⟩

/-- Second invocation on the identical inputs, continuing from the global
random state left behind by the first invocation — exactly what two
successive calls in one process do. -/
def c1_run2 : AudioProfile × Rng :=
  generate_adaptive_audio_profile [] empty_ctx [c1_track] [] c1_run1.2

/-- C1: two invocations of the Profile Synthesizer on the identical
single-track cluster (same track identifiers, same artist lookup, same
context themes) agree on the seven non-tempo fields but return DIFFERENT
tempo values: `_adjust_tempo` adds a `uniform(-3, 3)` draw from the global
random state before `np.random.seed` is called, so the tempo field is not
a pure function of the inputs and the output profile is not bit-identical
across repeated calls.  This contradicts the claim (and the source's own
"keep consistency for same input" comment). -/
theorem c1_tempo_nondeterministic_across_invocations :
    non_tempo_fields c1_run1.1 = non_tempo_fields c1_run2.1 ∧
    c1_run1.1.tempo ≠ c1_run2.1.tempo := by
  constructor
  · exact non_tempo_independent_of_rng [] empty_ctx [c1_track] [] _ _
  · with_unfolding_all decide

/-! ## Claim C6: basic bound lemmas -/

theorem pymin_eq_min (a b : ℚ) : pymin a b = min a b := by
  unfold pymin
  split
  · exact (min_eq_right (by assumption)).symm
  · exact (min_eq_left (le_of_not_le (by assumption))).symm

theorem pymax_eq_max (a b : ℚ) : pymax a b = max a b := by
  unfold pymax
  split
  · exact (max_eq_right (by assumption)).symm
  · exact (max_eq_left (le_of_not_le (by assumption))).symm

theorem clamp01_mem (x : ℚ) : 1/100 ≤ clamp01 x ∧ clamp01 x ≤ 99/100 := by
  unfold clamp01
  rw [pymax_eq_max, pymin_eq_min]
  constructor
  · exact le_max_left _ _
  · exact max_le (by norm_num) (min_le_left _ _)

theorem wadj_lb {x t w : ℚ} (hx : 1/20 ≤ x) (ht : 1/20 ≤ t)
    (hw0 : 0 ≤ w) (hw1 : w ≤ 1) : 1/20 ≤ weighted_adjust x t w := by
  unfold weighted_adjust
  nlinarith

theorem wadj_ub {x t w : ℚ} (hx : x ≤ 1) (ht : t ≤ 1)
    (hw0 : 0 ≤ w) (hw1 : w ≤ 1) : weighted_adjust x t w ≤ 1 := by
  unfold weighted_adjust
  nlinarith

theorem mulc_le_one {w c : ℚ} (hw0 : 0 ≤ w) (hw1 : w ≤ 1)
    (hc0 : 0 ≤ c) (hc1 : c ≤ 1) : w * c ≤ 1 := by
  nlinarith

theorem pymin_lb {a x : ℚ} (ha : 1/20 ≤ a) (hx : 1/20 ≤ x) :
    1/20 ≤ pymin a x := by
  rw [pymin_eq_min]
  exact le_min ha hx

theorem pymin_ub_left {a x : ℚ} (ha : a ≤ 1) : pymin a x ≤ 1 := by
  rw [pymin_eq_min]
  exact le_trans (min_le_left _ _) ha

theorem pymax_lb_left {a x : ℚ} (ha : 1/20 ≤ a) : 1/20 ≤ pymax a x := by
  rw [pymax_eq_max]
  exact le_trans ha (le_max_left _ _)

theorem pymax_ub {a x : ℚ} (ha : a ≤ 1) (hx : x ≤ 1) : pymax a x ≤ 1 := by
  rw [pymax_eq_max]
  exact max_le ha hx

/-- Bounds maintained for the three fields that feed the tempo
computation: danceability, energy and valence stay in `[1/20, 1]` through
every pre-tempo stage. -/
def core_bounds (p : AudioProfile) : Prop :=
  1/20 ≤ p.danceability ∧ p.danceability ≤ 1 ∧
  1/20 ≤ p.energy ∧ p.energy ≤ 1 ∧
  1/20 ≤ p.valence ∧ p.valence ≤ 1

theorem base_core_bounds : core_bounds base_audio_profile := by
  unfold core_bounds base_audio_profile
  norm_num

theorem foldl_core_bounds {α : Type} (f : AudioProfile → α → AudioProfile)
    (l : List α) (hf : ∀ p a, a ∈ l → core_bounds p → core_bounds (f p a)) :
    ∀ p, core_bounds p → core_bounds (l.foldl f p) := by
  induction l with
  | nil => intro p hp; simpa using hp
  | cons a tl ih =>
    intro p hp
    simp only [List.foldl_cons]
    exact ih (fun q b hb hq => hf q b (List.mem_cons_of_mem _ hb) hq) _
      (hf p a (List.mem_cons_self _ _) hp)

theorem wadj_lb_c {x t w c : ℚ} (hx : 1/20 ≤ x) (ht : 1/20 ≤ t)
    (hw0 : 0 ≤ w) (hw1 : w ≤ 1) (hc0 : 0 ≤ c) (hc1 : c ≤ 1) :
    1/20 ≤ weighted_adjust x t (w * c) :=
  wadj_lb hx ht (mul_nonneg hw0 hc0) (mulc_le_one hw0 hw1 hc0 hc1)

theorem wadj_ub_c {x t w c : ℚ} (hx : x ≤ 1) (ht : t ≤ 1)
    (hw0 : 0 ≤ w) (hw1 : w ≤ 1) (hc0 : 0 ≤ c) (hc1 : c ≤ 1) :
    weighted_adjust x t (w * c) ≤ 1 :=
  wadj_ub hx ht (mul_nonneg hw0 hc0) (mulc_le_one hw0 hw1 hc0 hc1)

set_option maxHeartbeats 1000000 in
theorem rock_adjust_core {p : AudioProfile} {gl : List Char} {w : ℚ}
    (hw0 : 0 ≤ w) (hw1 : w ≤ 1) (hp : core_bounds p) :
    core_bounds (rock_adjust p gl w) := by
  obtain ⟨h1, h2, h3, h4, h5, h6⟩ := hp
  unfold rock_adjust
  split_ifs
  all_goals refine ⟨?_, ?_, ?_, ?_, ?_, ?_⟩
  all_goals dsimp only
  all_goals
    repeat'
      first
        | assumption
        | apply wadj_lb_c
        | apply wadj_ub_c
        | norm_num

set_option maxHeartbeats 1000000 in
theorem classical_adjust_core {p : AudioProfile} {w : ℚ}
    (hw0 : 0 ≤ w) (hw1 : w ≤ 1) (hp : core_bounds p) :
    core_bounds (classical_adjust p w) := by
  obtain ⟨h1, h2, h3, h4, h5, h6⟩ := hp
  unfold classical_adjust
  refine ⟨?_, ?_, ?_, ?_, ?_, ?_⟩
  all_goals dsimp only
  all_goals
    repeat'
      first
        | assumption
        | apply wadj_lb_c
        | apply wadj_ub_c
        | norm_num

set_option maxHeartbeats 1000000 in
theorem electronic_adjust_core {p : AudioProfile} {gl : List Char} {w : ℚ}
    (hw0 : 0 ≤ w) (hw1 : w ≤ 1) (hp : core_bounds p) :
    core_bounds (electronic_adjust p gl w) := by
  obtain ⟨h1, h2, h3, h4, h5, h6⟩ := hp
  unfold electronic_adjust
  split_ifs
  all_goals refine ⟨?_, ?_, ?_, ?_, ?_, ?_⟩
  all_goals dsimp only
  all_goals
    repeat'
      first
        | assumption
        | apply wadj_lb_c
        | apply wadj_ub_c
        | norm_num

set_option maxHeartbeats 1000000 in
theorem hip_hop_adjust_core {p : AudioProfile} {gl : List Char} {w : ℚ}
    (hw0 : 0 ≤ w) (hw1 : w ≤ 1) (hp : core_bounds p) :
    core_bounds (hip_hop_adjust p gl w) := by
  obtain ⟨h1, h2, h3, h4, h5, h6⟩ := hp
  unfold hip_hop_adjust
  split_ifs
  all_goals refine ⟨?_, ?_, ?_, ?_, ?_, ?_⟩
  all_goals dsimp only
  all_goals
    repeat'
      first
        | assumption
        | apply wadj_lb_c
        | apply wadj_ub_c
        | norm_num

set_option maxHeartbeats 1000000 in
theorem jazz_adjust_core {p : AudioProfile} {w : ℚ}
    (hw0 : 0 ≤ w) (hw1 : w ≤ 1) (hp : core_bounds p) :
    core_bounds (jazz_adjust p w) := by
  obtain ⟨h1, h2, h3, h4, h5, h6⟩ := hp
  unfold jazz_adjust
  refine ⟨?_, ?_, ?_, ?_, ?_, ?_⟩
  all_goals dsimp only
  all_goals
    repeat'
      first
        | assumption
        | apply wadj_lb_c
        | apply wadj_ub_c
        | norm_num

set_option maxHeartbeats 1000000 in
theorem folk_adjust_core {p : AudioProfile} {w : ℚ}
    (hw0 : 0 ≤ w) (hw1 : w ≤ 1) (hp : core_bounds p) :
    core_bounds (folk_adjust p w) := by
  obtain ⟨h1, h2, h3, h4, h5, h6⟩ := hp
  unfold folk_adjust
  refine ⟨?_, ?_, ?_, ?_, ?_, ?_⟩
  all_goals dsimp only
  all_goals
    repeat'
      first
        | assumption
        | apply wadj_lb_c
        | apply wadj_ub_c
        | norm_num

set_option maxHeartbeats 1000000 in
theorem pop_adjust_core {p : AudioProfile} {w : ℚ}
    (hw0 : 0 ≤ w) (hw1 : w ≤ 1) (hp : core_bounds p) :
    core_bounds (pop_adjust p w) := by
  obtain ⟨h1, h2, h3, h4, h5, h6⟩ := hp
  unfold pop_adjust
  refine ⟨?_, ?_, ?_, ?_, ?_, ?_⟩
  all_goals dsimp only
  all_goals
    repeat'
      first
        | assumption
        | apply wadj_lb_c
        | apply wadj_ub_c
        | norm_num

set_option maxHeartbeats 1000000 in
theorem soul_adjust_core {p : AudioProfile} {gl : List Char} {w : ℚ}
    (hw0 : 0 ≤ w) (hw1 : w ≤ 1) (hp : core_bounds p) :
    core_bounds (soul_adjust p gl w) := by
  obtain ⟨h1, h2, h3, h4, h5, h6⟩ := hp
  unfold soul_adjust
  split_ifs
  all_goals refine ⟨?_, ?_, ?_, ?_, ?_, ?_⟩
  all_goals dsimp only
  all_goals
    repeat'
      first
        | assumption
        | apply wadj_lb_c
        | apply wadj_ub_c
        | norm_num

set_option maxHeartbeats 1000000 in
theorem country_adjust_core {p : AudioProfile} {w : ℚ}
    (hw0 : 0 ≤ w) (hw1 : w ≤ 1) (hp : core_bounds p) :
    core_bounds (country_adjust p w) := by
  obtain ⟨h1, h2, h3, h4, h5, h6⟩ := hp
  unfold country_adjust
  refine ⟨?_, ?_, ?_, ?_, ?_, ?_⟩
  all_goals dsimp only
  all_goals
    repeat'
      first
        | assumption
        | apply wadj_lb_c
        | apply wadj_ub_c
        | norm_num

set_option maxHeartbeats 1000000 in
theorem latin_adjust_core {p : AudioProfile} {w : ℚ}
    (hw0 : 0 ≤ w) (hw1 : w ≤ 1) (hp : core_bounds p) :
    core_bounds (latin_adjust p w) := by
  obtain ⟨h1, h2, h3, h4, h5, h6⟩ := hp
  unfold latin_adjust
  refine ⟨?_, ?_, ?_, ?_, ?_, ?_⟩
  all_goals dsimp only
  all_goals
    repeat'
      first
        | assumption
        | apply wadj_lb_c
        | apply wadj_ub_c
        | norm_num

set_option maxHeartbeats 2000000 in
theorem apply_genre_adjustments_core {p : AudioProfile} {gl : List Char} {w : ℚ}
    (hw0 : 0 ≤ w) (hw1 : w ≤ 1) (hp : core_bounds p) :
    core_bounds (apply_genre_adjustments p gl w) := by
  unfold apply_genre_adjustments
  split_ifs
  · exact rock_adjust_core hw0 hw1 hp
  · exact classical_adjust_core hw0 hw1 hp
  · exact electronic_adjust_core hw0 hw1 hp
  · exact hip_hop_adjust_core hw0 hw1 hp
  · exact jazz_adjust_core hw0 hw1 hp
  · exact folk_adjust_core hw0 hw1 hp
  · exact pop_adjust_core hw0 hw1 hp
  · exact soul_adjust_core hw0 hw1 hp
  · exact country_adjust_core hw0 hw1 hp
  · exact latin_adjust_core hw0 hw1 hp
  · exact hp

theorem q_sum_nonneg {l : List ℚ} (h : ∀ x ∈ l, 0 ≤ x) : 0 ≤ l.sum := by
  induction l with
  | nil => simp
  | cons a tl ih =>
    simp only [List.sum_cons]
    have ha := h a (List.mem_cons_self _ _)
    have htl := ih (fun x hx => h x (List.mem_cons_of_mem _ hx))
    linarith

theorem q_sum_le_card {l : List ℚ} (h : ∀ x ∈ l, x ≤ 100) :
    l.sum ≤ 100 * (l.length : ℚ) := by
  induction l with
  | nil => simp
  | cons a tl ih =>
    simp only [List.sum_cons, List.length_cons]
    have ha := h a (List.mem_cons_self _ _)
    have htl := ih (fun x hx => h x (List.mem_cons_of_mem _ hx))
    push_cast
    linarith

theorem q_mean_bounds {l : List ℚ} (hne : l ≠ [])
    (h : ∀ x ∈ l, 0 ≤ x ∧ x ≤ 100) : 0 ≤ q_mean l ∧ q_mean l ≤ 100 := by
  have hl : 0 < (l.length : ℚ) := by
    have := List.length_pos.mpr hne
    exact_mod_cast this
  unfold q_mean
  constructor
  · exact div_nonneg (q_sum_nonneg (fun x hx => (h x hx).1)) hl.le
  · rw [div_le_iff hl]
    have := q_sum_le_card (fun x hx => (h x hx).2)
    linarith

set_option maxHeartbeats 2000000 in
theorem adjust_by_popularity_core {p : AudioProfile} {pops : List ℚ}
    (hpop : ∀ x ∈ pops, 0 ≤ x ∧ x ≤ 100) (hp : core_bounds p) :
    core_bounds (adjust_by_popularity p pops) := by
  obtain ⟨h1, h2, h3, h4, h5, h6⟩ := hp
  unfold adjust_by_popularity
  by_cases hemp : pops.isEmpty
  · rw [if_pos hemp]
    exact ⟨h1, h2, h3, h4, h5, h6⟩
  · rw [if_neg hemp]
    have hne : pops ≠ [] := by simpa [List.isEmpty_iff] using hemp
    obtain ⟨hm0, hm1⟩ := q_mean_bounds hne hpop
    have hpf0 : 0 ≤ |(q_mean pops - 50) / 50| := abs_nonneg _
    have hpf1 : |(q_mean pops - 50) / 50| ≤ 1 := by
      rw [abs_le]
      constructor
      · rw [le_div_iff (by norm_num : (0:ℚ) < 50)]
        linarith
      · rw [div_le_one (by norm_num : (0:ℚ) < 50)]
        linarith
    dsimp only
    split_ifs
    all_goals refine ⟨?_, ?_, ?_, ?_, ?_, ?_⟩
    all_goals dsimp only
    all_goals
      repeat'
        first
          | assumption
          | apply wadj_lb_c
          | apply wadj_ub_c
          | norm_num

set_option maxHeartbeats 2000000 in
theorem era_shift_core {p : AudioProfile} {avg : ℚ} (hp : core_bounds p) :
    core_bounds (era_shift p avg) := by
  obtain ⟨h1, h2, h3, h4, h5, h6⟩ := hp
  unfold era_shift
  split_ifs
  all_goals refine ⟨?_, ?_, ?_, ?_, ?_, ?_⟩
  all_goals dsimp only
  all_goals
    repeat'
      first
        | assumption
        | apply wadj_lb
        | apply wadj_ub
        | norm_num

theorem smooth_field_lb {x : ℚ} (hx : 1/20 ≤ x) : 1/20 ≤ smooth_field x := by
  unfold smooth_field
  split_ifs
  · exact pymax_lb_left hx
  · rw [pymin_eq_min]
    exact le_min hx (by norm_num)
  · exact hx

theorem smooth_field_ub {x : ℚ} (hx : x ≤ 1) : smooth_field x ≤ 1 := by
  unfold smooth_field
  split_ifs
  · exact pymax_ub hx (by norm_num)
  · exact pymin_ub_left hx
  · exact hx

theorem smooth_profile_core {p : AudioProfile} (hp : core_bounds p) :
    core_bounds (smooth_profile p) := by
  obtain ⟨h1, h2, h3, h4, h5, h6⟩ := hp
  exact ⟨smooth_field_lb h1, smooth_field_ub h2, smooth_field_lb h3,
    smooth_field_ub h4, smooth_field_lb h5, smooth_field_ub h6⟩

theorem adjust_by_era_core {p : AudioProfile} {years : List ℚ}
    (hp : core_bounds p) : core_bounds (adjust_by_era p years) := by
  unfold adjust_by_era
  split_ifs
  · exact hp
  · exact smooth_profile_core (era_shift_core hp)
  · exact era_shift_core hp

theorem adjust_by_explicit_core {p : AudioProfile} {ec total : ℕ}
    (hp : core_bounds p) : core_bounds (adjust_by_explicit p ec total) := by
  obtain ⟨h1, h2, h3, h4, h5, h6⟩ := hp
  unfold adjust_by_explicit
  dsimp only
  split_ifs
  all_goals exact ⟨h1, h2, h3, h4, h5, h6⟩

theorem adjust_by_duration_core {p : AudioProfile} {ds : List ℚ}
    (hp : core_bounds p) : core_bounds (adjust_by_duration p ds) := by
  obtain ⟨h1, h2, h3, h4, h5, h6⟩ := hp
  unfold adjust_by_duration
  dsimp only
  split_ifs
  · exact ⟨h1, h2, h3, h4, h5, h6⟩
  · refine ⟨?_, ?_, ?_, ?_, h5, h6⟩
    · exact pymin_lb (by norm_num) (by linarith)
    · exact pymin_ub_left (by norm_num)
    · exact pymin_lb (by norm_num) (by linarith)
    · exact pymin_ub_left (by norm_num)
  · refine ⟨h1, h2, ?_, ?_, h5, h6⟩
    · exact pymax_lb_left (by norm_num)
    · exact pymax_ub (by norm_num) (by linarith)
  · exact ⟨h1, h2, h3, h4, h5, h6⟩

set_option maxHeartbeats 2000000 in
theorem ctx_mood_step_core {p : AudioProfile} {mood : String}
    (hp : core_bounds p) : core_bounds (ctx_mood_step p mood) := by
  obtain ⟨h1, h2, h3, h4, h5, h6⟩ := hp
  unfold ctx_mood_step
  dsimp only
  split_ifs
  all_goals refine ⟨?_, ?_, ?_, ?_, ?_, ?_⟩
  all_goals
    first
      | exact h1 | exact h2 | exact h3 | exact h4 | exact h5 | exact h6
      | exact wadj_lb (by assumption) (by norm_num) (by norm_num) (by norm_num)
      | exact wadj_ub (by assumption) (by norm_num) (by norm_num) (by norm_num)

set_option maxHeartbeats 2000000 in
theorem ctx_activity_step_core {p : AudioProfile} {activity : String}
    (hp : core_bounds p) : core_bounds (ctx_activity_step p activity) := by
  obtain ⟨h1, h2, h3, h4, h5, h6⟩ := hp
  unfold ctx_activity_step
  dsimp only
  split_ifs
  all_goals refine ⟨?_, ?_, ?_, ?_, ?_, ?_⟩
  all_goals
    first
      | exact h1 | exact h2 | exact h3 | exact h4 | exact h5 | exact h6
      | exact wadj_lb (by assumption) (by norm_num) (by norm_num) (by norm_num)
      | exact wadj_ub (by assumption) (by norm_num) (by norm_num) (by norm_num)

set_option maxHeartbeats 3000000 in
theorem ctx_decade_step_core {p : AudioProfile} {decade : String}
    (hp : core_bounds p) : core_bounds (ctx_decade_step p decade) := by
  obtain ⟨h1, h2, h3, h4, h5, h6⟩ := hp
  unfold ctx_decade_step
  dsimp only
  split_ifs
  all_goals refine ⟨?_, ?_, ?_, ?_, ?_, ?_⟩
  all_goals
    first
      | exact h1 | exact h2 | exact h3 | exact h4 | exact h5 | exact h6
      | exact wadj_lb (by assumption) (by norm_num) (by norm_num) (by norm_num)
      | exact wadj_ub (by assumption) (by norm_num) (by norm_num) (by norm_num)

theorem adjust_profile_by_context_core {p : AudioProfile} {ctx : ContextThemes}
    (hp : core_bounds p) : core_bounds (adjust_profile_by_context p ctx) := by
  unfold adjust_profile_by_context
  exact foldl_core_bounds _ _ (fun q a _ hq => ctx_decade_step_core hq) _
    (foldl_core_bounds _ _ (fun q a _ hq => ctx_activity_step_core hq) _
      (foldl_core_bounds _ _ (fun q a _ hq => ctx_mood_step_core hq) _ hp))

set_option maxHeartbeats 1000000 in
theorem pre_tempo_profile_core (artist_data : ArtistData) (ctx : ContextThemes)
    (tracks : List TrackInfo) (gd : List (String × ℕ))
    (htr : tracks ≠ [])
    (hpop : ∀ t ∈ tracks, 0 ≤ t.popularity ∧ t.popularity ≤ 100)
    (hgd : ∀ e ∈ used_genre_distribution artist_data tracks gd,
      (e.2 : ℚ) ≤ (tracks.length : ℚ)) :
    core_bounds (pre_tempo_profile artist_data ctx tracks gd) := by
  have hlen : 0 < ((tracks.length : ℕ) : ℚ) := by
    have := List.length_pos.mpr htr
    exact_mod_cast this
  have hfold : core_bounds
      ((used_genre_distribution artist_data tracks gd).foldl
        (fun p gc => apply_genre_adjustments p (py_lower gc.1)
          ((gc.2 : ℚ) / (tracks.length : ℚ)))
        base_audio_profile) := by
    apply foldl_core_bounds
    · intro q e he hq
      apply apply_genre_adjustments_core _ _ hq
      · exact div_nonneg (by positivity) hlen.le
      · rw [div_le_one hlen]
        exact hgd e he
    · exact base_core_bounds
  have hpops : ∀ x ∈ tracks.map (fun t => t.popularity), 0 ≤ x ∧ x ≤ 100 := by
    intro x hx
    rcases List.mem_map.mp hx with ⟨t, ht, rfl⟩
    exact hpop t ht
  exact adjust_profile_by_context_core
    (adjust_by_duration_core
      (adjust_by_explicit_core
        (adjust_by_era_core (adjust_by_popularity_core hpops hfold))))

/-! ## Claim C6: tempo-stage and jitter bounds -/

theorem np_uniform_val (lo hi : ℚ) (r : Rng) :
    (np_uniform lo hi r).1 = lo + (hi - lo) * r.stream r.pos := rfl

theorem genre_tempo_influence_mem {g : String} {c : ℕ} {tw : ℚ × ℚ}
    (h : genre_tempo_influence g c = some tw) :
    85 ≤ tw.1 ∧ tw.1 ≤ 160 ∧ 0 ≤ tw.2 := by
  have hw : 0 ≤ pymin (80/100) ((c : ℚ) / 10) := by
    rw [pymin_eq_min]
    exact le_min (by norm_num) (by positivity)
  unfold genre_tempo_influence at h
  dsimp only at h
  split_ifs at h
  all_goals
    first
      | exact Option.noConfusion h
      | (injection h with hh
         rw [← hh]
         exact ⟨by norm_num, by norm_num, hw⟩)

theorem era_tempo_influence_mem {years : List ℚ} {tw : ℚ × ℚ}
    (h : tw ∈ era_tempo_influence years) :
    85 ≤ tw.1 ∧ tw.1 ≤ 160 ∧ 0 ≤ tw.2 := by
  unfold era_tempo_influence at h
  dsimp only at h
  split_ifs at h
  · exact absurd h (List.not_mem_nil _)
  all_goals
    rw [List.mem_singleton] at h
    subst h
    exact ⟨by norm_num, by norm_num, by norm_num⟩

theorem energy_dance_tempo_bounds {p : AudioProfile} (hp : core_bounds p) :
    130 ≤ energy_dance_tempo p ∧ energy_dance_tempo p ≤ 140 := by
  obtain ⟨h1, h2, h3, h4, h5, h6⟩ := hp
  unfold energy_dance_tempo
  have hpos : 0 < p.energy + p.danceability := by linarith
  dsimp only
  rw [if_pos hpos]
  constructor
  · rw [le_div_iff hpos]
    nlinarith
  · rw [div_le_iff hpos]
    nlinarith

theorem tempo_influences_mem {p : AudioProfile} {years : List ℚ}
    {gd : List (String × ℕ)} (hp : core_bounds p) :
    ∀ x ∈ tempo_influences p years gd, 85 ≤ x.1 ∧ x.1 ≤ 160 ∧ 0 ≤ x.2 := by
  intro x hx
  unfold tempo_influences at hx
  rcases List.mem_append.mp hx with hx1 | hx2
  · rcases List.mem_append.mp hx1 with hxg | hxe
    · rcases List.mem_filterMap.mp hxg with ⟨gc, _, he⟩
      exact genre_tempo_influence_mem he
    · exact era_tempo_influence_mem hxe
  · rw [List.mem_singleton] at hx2
    subst hx2
    obtain ⟨he1, he2⟩ := energy_dance_tempo_bounds hp
    refine ⟨?_, ?_, ?_⟩ <;> dsimp only
    · linarith
    · linarith
    · norm_num

theorem influences_sum_bounds (l : List (ℚ × ℚ))
    (h : ∀ x ∈ l, 85 ≤ x.1 ∧ x.1 ≤ 160 ∧ 0 ≤ x.2) :
    85 * (l.map (fun i => i.2)).sum ≤ (l.map (fun i => i.1 * i.2)).sum ∧
    (l.map (fun i => i.1 * i.2)).sum ≤ 160 * (l.map (fun i => i.2)).sum ∧
    0 ≤ (l.map (fun i => i.2)).sum := by
  induction l with
  | nil => simp
  | cons a tl ih =>
    obtain ⟨ha1, ha2, ha3⟩ := h a (List.mem_cons_self _ _)
    obtain ⟨ih1, ih2, ih3⟩ := ih (fun x hx => h x (List.mem_cons_of_mem _ hx))
    simp only [List.map_cons, List.sum_cons]
    refine ⟨?_, ?_, ?_⟩ <;> nlinarith

theorem tempo_influences_weight_pos {p : AudioProfile} {years : List ℚ}
    {gd : List (String × ℕ)} (hp : core_bounds p) :
    3/5 ≤ ((tempo_influences p years gd).map (fun i => i.2)).sum := by
  have hmem := @tempo_influences_mem p years gd hp
  unfold tempo_influences at hmem ⊢
  rw [List.map_append, List.map_append, List.sum_append, List.sum_append]
  have h1 : 0 ≤ ((List.filterMap (fun gc => genre_tempo_influence gc.1 gc.2) gd).map
      (fun i => i.2)).sum := by
    apply List.sum_nonneg
    intro x hx
    rcases List.mem_map.mp hx with ⟨y, hy, rfl⟩
    rcases List.mem_filterMap.mp hy with ⟨gc, _, he⟩
    exact (genre_tempo_influence_mem he).2.2
  have h2 : 0 ≤ ((era_tempo_influence years).map (fun i => i.2)).sum := by
    apply List.sum_nonneg
    intro x hx
    rcases List.mem_map.mp hx with ⟨y, hy, rfl⟩
    exact (era_tempo_influence_mem hy).2.2
  simp only [List.map_cons, List.map_nil, List.sum_cons, List.sum_nil]
  linarith

theorem tempo_influences_ne_nil {p : AudioProfile} {years : List ℚ}
    {gd : List (String × ℕ)} :
    (tempo_influences p years gd).isEmpty = false := by
  unfold tempo_influences
  simp [List.isEmpty_iff]

theorem base_tempo_value_bounds {p : AudioProfile} {years : List ℚ}
    {gd : List (String × ℕ)} (hp : core_bounds p) :
    161/2 ≤ base_tempo_value p years gd ∧ base_tempo_value p years gd ≤ 165 := by
  have hmem := @tempo_influences_mem p years gd hp
  obtain ⟨hs1, hs2, hs3⟩ := influences_sum_bounds _ hmem
  have hwpos : 0 < ((tempo_influences p years gd).map (fun i => i.2)).sum := by
    have := @tempo_influences_weight_pos p years gd hp
    linarith
  have hv0 := hp.2.2.2.2.1
  have hv1 := hp.2.2.2.2.2
  unfold base_tempo_value
  dsimp only
  rw [tempo_influences_ne_nil, if_neg (by simp), if_pos hwpos]
  have havg1 : 85 ≤ ((tempo_influences p years gd).map (fun i => i.1 * i.2)).sum /
      ((tempo_influences p years gd).map (fun i => i.2)).sum := by
    rw [le_div_iff hwpos]
    linarith
  have havg2 : ((tempo_influences p years gd).map (fun i => i.1 * i.2)).sum /
      ((tempo_influences p years gd).map (fun i => i.2)).sum ≤ 160 := by
    rw [div_le_iff hwpos]
    linarith
  constructor <;> nlinarith

theorem adjust_tempo_bounds {p : AudioProfile} {years : List ℚ}
    {gd : List (String × ℕ)} {r : Rng}
    (hp : core_bounds p) (hr : ∀ i, 0 ≤ r.stream i ∧ r.stream i ≤ 1) :
    155/2 ≤ (adjust_tempo p years gd r).1.tempo ∧
      (adjust_tempo p years gd r).1.tempo ≤ 168 := by
  obtain ⟨hb1, hb2⟩ := @base_tempo_value_bounds p years gd hp
  have hclamp : pymin 180 (pymax 60 (base_tempo_value p years gd))
      = base_tempo_value p years gd := by
    rw [pymax_eq_max, max_eq_right (by linarith), pymin_eq_min,
      min_eq_right (by linarith)]
  obtain ⟨hu0, hu1⟩ := hr r.pos
  unfold adjust_tempo
  dsimp only
  rw [np_uniform_val, hclamp]
  constructor <;> nlinarith

theorem adjust_tempo_non_tempo {p : AudioProfile} {years : List ℚ}
    {gd : List (String × ℕ)} {r : Rng} :
    core_bounds p → core_bounds (adjust_tempo p years gd r).1 := by
  intro hp
  obtain ⟨h1, h2, h3, h4, h5, h6⟩ := hp
  exact ⟨h1, h2, h3, h4, h5, h6⟩

theorem apply_jitter_bounds (p : AudioProfile) (r : Rng)
    (hr : ∀ i, 0 ≤ r.stream i ∧ r.stream i ≤ 1) :
    (1/100 ≤ (apply_jitter p r).1.danceability ∧ (apply_jitter p r).1.danceability ≤ 99/100) ∧
    (1/100 ≤ (apply_jitter p r).1.energy ∧ (apply_jitter p r).1.energy ≤ 99/100) ∧
    (1/100 ≤ (apply_jitter p r).1.acousticness ∧ (apply_jitter p r).1.acousticness ≤ 99/100) ∧
    (1/100 ≤ (apply_jitter p r).1.instrumentalness ∧ (apply_jitter p r).1.instrumentalness ≤ 99/100) ∧
    (1/100 ≤ (apply_jitter p r).1.valence ∧ (apply_jitter p r).1.valence ≤ 99/100) ∧
    (1/100 ≤ (apply_jitter p r).1.speechiness ∧ (apply_jitter p r).1.speechiness ≤ 99/100) ∧
    (1/100 ≤ (apply_jitter p r).1.liveness ∧ (apply_jitter p r).1.liveness ≤ 99/100) ∧
    (p.tempo - 3 ≤ (apply_jitter p r).1.tempo ∧ (apply_jitter p r).1.tempo ≤ p.tempo + 3) := by
  obtain ⟨hu0, hu1⟩ := hr (r.pos + 1 + 1 + 1 + 1 + 1 + 1 + 1)
  unfold apply_jitter np_uniform Rng.next
  dsimp only
  refine ⟨clamp01_mem _, clamp01_mem _, clamp01_mem _, clamp01_mem _,
    clamp01_mem _, clamp01_mem _, clamp01_mem _, ?_, ?_⟩ <;> nlinarith

/-- The eight field ranges stated by the spec: non-tempo fields in
`[0.01, 0.99]`, tempo in `[57, 183]`. -/
def profile_in_spec_ranges (p : AudioProfile) : Prop :=
  (1/100 ≤ p.danceability ∧ p.danceability ≤ 99/100) ∧
  (1/100 ≤ p.energy ∧ p.energy ≤ 99/100) ∧
  (1/100 ≤ p.acousticness ∧ p.acousticness ≤ 99/100) ∧
  (1/100 ≤ p.instrumentalness ∧ p.instrumentalness ≤ 99/100) ∧
  (1/100 ≤ p.valence ∧ p.valence ≤ 99/100) ∧
  (1/100 ≤ p.speechiness ∧ p.speechiness ≤ 99/100) ∧
  (1/100 ≤ p.liveness ∧ p.liveness ≤ 99/100) ∧
  (57 ≤ p.tempo ∧ p.tempo ≤ 183)

/-- C6: after profile synthesis (including the final jitter pass), each of
the seven non-tempo fields lies in `[0.01, 0.99]` and the tempo field lies
in `[57, 183]`, for every nonempty cluster track list (with track
popularities in the API range `[0, 100]`), every genre distribution whose
per-genre counts do not exceed the cluster size, and every incoming global
random state producing samples in `[0, 1]`.  (The tempo bound holds with
room to spare: the weighted-average base tempo always lands in
`[80.5, 165]`, so the `[60, 180]` clamp never binds and even the two
`uniform(-3, 3)` jitters — one in `_adjust_tempo`, one in the final jitter
loop — keep tempo inside `[74.5, 171] ⊆ [57, 183]`.) -/
theorem c6_profile_field_ranges (artist_data : ArtistData)
    (ctx : ContextThemes) (tracks : List TrackInfo)
    (gd : List (String × ℕ)) (r : Rng)
    (htr : tracks ≠ [])
    (hpop : ∀ t ∈ tracks, 0 ≤ t.popularity ∧ t.popularity ≤ 100)
    (hgd : ∀ e ∈ used_genre_distribution artist_data tracks gd,
      (e.2 : ℚ) ≤ (tracks.length : ℚ))
    (hr : ∀ i, 0 ≤ r.stream i ∧ r.stream i ≤ 1) :
    profile_in_spec_ranges
      (generate_adaptive_audio_profile artist_data ctx tracks gd r).1 := by
  have hne : ¬ (tracks.isEmpty = true) := by
    simpa [List.isEmpty_iff] using htr
  have hcore := pre_tempo_profile_core artist_data ctx tracks gd htr hpop hgd
  have htempo := @adjust_tempo_bounds
    (pre_tempo_profile artist_data ctx tracks gd) (collect_years tracks)
    (used_genre_distribution artist_data tracks gd) r hcore hr
  have hseed : ∀ i, 0 ≤ (np_seed (str_hash_seed (sorted_ids tracks))).stream i ∧
      (np_seed (str_hash_seed (sorted_ids tracks))).stream i ≤ 1 :=
    fun i => ⟨mt_stream_nonneg _ _, mt_stream_le_one _ _⟩
  have hj := apply_jitter_bounds
    (adjust_tempo (pre_tempo_profile artist_data ctx tracks gd)
      (collect_years tracks)
      (used_genre_distribution artist_data tracks gd) r).1
    (np_seed (str_hash_seed (sorted_ids tracks))) hseed
  unfold generate_adaptive_audio_profile
  rw [if_neg hne]
  obtain ⟨hj1, hj2, hj3, hj4, hj5, hj6, hj7, hj8a, hj8b⟩ := hj
  exact ⟨hj1, hj2, hj3, hj4, hj5, hj6, hj7,
    ⟨by linarith [htempo.1], by linarith [htempo.2]⟩⟩

/-- C6 (witness): the field-range theorem applied to a concrete
single-track cluster with empty context, empty artist lookup and a
constant-half incoming random stream. -/
theorem c6_profile_field_ranges_witness :
    profile_in_spec_ranges
      (generate_adaptive_audio_profile [] empty_ctx [c1_track] []
        ⟨fun _ => 1/2, 0⟩).1 := by
  apply c6_profile_field_ranges
  · exact List.cons_ne_nil _ _
  · intro t ht
    rw [List.mem_singleton] at ht
    subst ht
    constructor <;> norm_num [c1_track]
  · intro e he
    have h0 : used_genre_distribution [] [c1_track] [] = [] := by
      with_unfolding_all rfl
    rw [h0] at he
    exact absurd he (List.not_mem_nil _)
  · intro i
    exact ⟨by norm_num, by norm_num⟩

/-! ## C3: guaranteed balanced clustering (enhanced_clustering.py 1210-1304) -/

/-- Insertion step of the stable index sort modelling `np.argsort`. -/
def idx_insert (key : ℕ → ℚ) (x : ℕ) : List ℕ → List ℕ
  | [] => [x]
  | y :: ys => if key x < key y then x :: y :: ys else y :: idx_insert key x ys

/-- `np.argsort` over an index list (stable; tie order does not affect any
property proved here). -/
def argsort_by (key : ℕ → ℚ) (l : List ℕ) : List ℕ :=
  l.foldr (idx_insert key) []

theorem idx_insert_perm (key : ℕ → ℚ) (x : ℕ) (l : List ℕ) :
    List.Perm (idx_insert key x l) (x :: l) := by
  induction l with
  | nil => simp [idx_insert]
  | cons y ys ih =>
    unfold idx_insert
    split
    · exact List.Perm.refl _
    · exact List.Perm.trans (List.Perm.cons y ih) (List.Perm.swap x y ys)

theorem argsort_by_perm (key : ℕ → ℚ) (l : List ℕ) :
    List.Perm (argsort_by key l) l := by
  induction l with
  | nil => exact List.Perm.refl _
  | cons x xs ih =>
    unfold argsort_by at ih ⊢
    simp only [List.foldr_cons]
    exact List.Perm.trans (idx_insert_perm key x _) (List.Perm.cons x ih)

/-- `cluster_sizes[c] += 1`. -/
def bump (sizes : List ℕ) (c : ℕ) : List ℕ := sizes.set c (sizes.getD c 0 + 1)

/-- First centroid in preference order that still has room
(`np.argmin` followed by the argsort scan collapses to this `find?`,
since the argmin is the head of the argsort). -/
def pick_centroid (targets sizes : List ℕ) (prefs : List ℕ) : Option ℕ :=
  prefs.find? (fun c => decide (sizes.getD c 0 < targets.getD c 0))

/-- One point of the first assignment pass of
`guaranteed_balanced_clustering`. -/
def gb_step (targets : List ℕ) (cdist : ℕ → ℕ → ℚ) (k : ℕ)
    (σ : List ℤ × List ℕ) (idx : ℕ) : List ℤ × List ℕ :=
  match pick_centroid targets σ.2 (argsort_by (fun j => cdist idx j) (List.range k)) with
  | some c => (σ.1.set idx (c : ℤ), bump σ.2 c)
  | none => σ

/-- Target cluster sizes: `size // k + 1` for the first `size % k`
clusters, `size // k` for the rest. -/
def gb_targets (n k : ℕ) : List ℕ :=
  (List.range k).map (fun i => if i < n % k then n / k + 1 else n / k)

/-- `np.argmin` over the sizes array (first index of the minimum). -/
def argmin_idx (l : List ℕ) : ℕ :=
  (l.foldl (fun (st : ℕ × ℕ × ℕ) v =>
    if v < st.2.1 then (st.2.2, v, st.2.2 + 1) else (st.1, st.2.1, st.2.2 + 1))
    (0, l.getD 0 0, 0)).1

/-- The source's safety net for unassigned points (`if -1 in labels`):
assign each leftover point to the first cluster with room, else to the
globally smallest cluster. -/
def fill_pass (targets : List ℕ) (k : ℕ) (σ : List ℤ × List ℕ) :
    List ℤ × List ℕ :=
  (List.range σ.1.length).foldl (fun st idx =>
    if st.1.getD idx 0 = -1 then
      match (List.range k).find?
          (fun j => decide (st.2.getD j 0 < targets.getD j 0)) with
      | some j => (st.1.set idx (j : ℤ), bump st.2 j)
      | none => (st.1.set idx ((argmin_idx st.2 : ℕ) : ℤ),
                 bump st.2 (argmin_idx st.2))
    else st) σ

/-- `np.max(counts)` for the balance computation of the small branch. -/
def max_label_count (labels : List ℕ) : ℕ :=
  (labels.map (fun v => labels.count v)).foldl Nat.max 0

/-- The small-input branch of `guaranteed_balanced_clustering`: ten KMeans
restarts (the library fit is the oracle argument), keeping the labels with
the strictly best balance; `None` when every restart has balance 0. -/
def small_balanced_kmeans (kmeans_oracle : ℕ → ℕ → List ℕ) (k : ℕ) :
    Option (List ℕ) :=
  ((List.range 10).foldl (fun (best : ℚ × Option (List ℕ)) seed =>
    let labels := kmeans_oracle seed (Nat.max 2 k)
    let bal : ℚ := 1 - (max_label_count labels : ℚ) / (labels.length : ℚ)
    if best.1 < bal then (bal, some labels) else best) (0, none)).2

/-- `enhanced_clustering.EnhancedPlaylistAnalysis.guaranteed_balanced_clustering`.

`kmeans_oracle seed k'` stands for
`KMeans(n_clusters=k', random_state=seed).fit_predict(X)` and
`cdist i j` for the squared distance of scaled point `i` to fitted
centroid `j` (the code compares and sorts Euclidean distances, and
squaring is strictly monotone, so squared distances give the same argmin
and argsort orders).  `n` is the number of rows of `X`. -/
def guaranteed_balanced_clustering (kmeans_oracle : ℕ → ℕ → List ℕ)
    (cdist : ℕ → ℕ → ℚ) (n k : ℕ) : Option (List ℤ) :=
  if n < 20 ∨ k ≤ 1 then
    Option.map (List.map (fun x : ℕ => (x : ℤ))) (small_balanced_kmeans kmeans_oracle k)
  else
    let targets := gb_targets n k
    let order := argsort_by
      (fun i => q_min_list ((List.range k).map (fun j => cdist i j)))
      (List.range n)
    let fp := order.foldl (gb_step targets cdist k)
      (List.replicate n (-1), List.replicate k 0)
    some (fill_pass targets k fp).1

/-- The balance predicate of the claim: every cluster size is
`⌊n/k⌋` or `⌈n/k⌉`. -/
def cluster_sizes_balanced (labels : List ℤ) (n k : ℕ) : Prop :=
  ∀ v ∈ labels, labels.count v = n / k ∨ labels.count v = (n + k - 1) / k

/-! ### List auxiliary lemmas -/

theorem sum_set_add {l : List ℕ} {i : ℕ} (h : i < l.length) (v : ℕ) :
    (l.set i v).sum + l.getD i 0 = l.sum + v := by
  induction l generalizing i with
  | nil => simp at h
  | cons a tl ih =>
    cases i with
    | zero =>
      simp only [List.set, List.sum_cons, List.getD_cons_zero]
      omega
    | succ j =>
      have hj : j < tl.length := by simpa using h
      have hh := ih hj
      simp only [List.set, List.sum_cons, List.getD_cons_succ]
      omega

theorem count_set_add {l : List ℤ} {i : ℕ} (h : i < l.length) (v w : ℤ) :
    (l.set i v).count w + (if l.getD i 0 = w then 1 else 0)
      = l.count w + (if v = w then 1 else 0) := by
  induction l generalizing i with
  | nil => simp at h
  | cons a tl ih =>
    cases i with
    | zero =>
      simp only [List.set, List.count_cons, List.getD_cons_zero]
      by_cases hv : v = w <;> by_cases ha : a = w <;>
        simp [hv, ha]
    | succ j =>
      have hj : j < tl.length := by simpa using h
      have hh := ih hj
      simp only [List.set, List.count_cons, List.getD_cons_succ, beq_iff_eq]
      simp only [List.getD_eq_getElem?_getD] at hh ⊢
      by_cases ha : a = w <;> simp [ha] <;> omega

theorem getD_set_self {l : List ℤ} {i : ℕ} (h : i < l.length) (v : ℤ) :
    (l.set i v).getD i 0 = v := by
  rw [List.getD_eq_getElem?_getD, List.getElem?_set_self h]
  rfl

theorem getD_set_ne {l : List ℤ} {i j : ℕ} (h : i ≠ j) (v : ℤ) :
    (l.set i v).getD j 0 = l.getD j 0 := by
  rw [List.getD_eq_getElem?_getD, List.getElem?_set_ne h]
  rw [List.getD_eq_getElem?_getD]

theorem getD_set_self_nat {l : List ℕ} {i : ℕ} (h : i < l.length) (v : ℕ) :
    (l.set i v).getD i 0 = v := by
  rw [List.getD_eq_getElem?_getD, List.getElem?_set_self h]
  rfl

theorem getD_set_ne_nat {l : List ℕ} {i j : ℕ} (h : i ≠ j) (v : ℕ) :
    (l.set i v).getD j 0 = l.getD j 0 := by
  rw [List.getD_eq_getElem?_getD, List.getElem?_set_ne h]
  rw [List.getD_eq_getElem?_getD]

theorem sum_le_of_pointwise {a b : List ℕ} (hlen : a.length = b.length)
    (h : ∀ j, a.getD j 0 ≤ b.getD j 0) : a.sum ≤ b.sum := by
  induction a generalizing b with
  | nil => cases b with
    | nil => simp
    | cons _ _ => simp at hlen
  | cons x xs ih =>
    cases b with
    | nil => simp at hlen
    | cons y ys =>
      have hx := h 0
      simp only [List.getD_cons_zero] at hx
      have hxs := ih (by simpa using hlen) (fun j => by
        have := h (j + 1)
        simpa using this)
      simp only [List.sum_cons]
      omega

theorem pointwise_eq_of_sum_eq {a b : List ℕ} (hlen : a.length = b.length)
    (h : ∀ j, a.getD j 0 ≤ b.getD j 0) (hsum : a.sum = b.sum) :
    ∀ j, a.getD j 0 = b.getD j 0 := by
  induction a generalizing b with
  | nil => cases b with
    | nil => intro j; rfl
    | cons _ _ => simp at hlen
  | cons x xs ih =>
    cases b with
    | nil => simp at hlen
    | cons y ys =>
      have hx := h 0
      simp only [List.getD_cons_zero] at hx
      have hxs : xs.sum ≤ ys.sum :=
        sum_le_of_pointwise (by simpa using hlen) (fun j => by
          have := h (j + 1)
          simpa using this)
      simp only [List.sum_cons] at hsum
      have hx2 : x = y := by omega
      have hsum2 : xs.sum = ys.sum := by omega
      intro j
      cases j with
      | zero =>
        simp only [List.getD_cons_zero]
        omega
      | succ j =>
        have := ih (by simpa using hlen) (fun j => by
          have := h (j + 1)
          simpa using this) hsum2 j
        simpa using this

theorem exists_room_of_sum_lt {sizes targets : List ℕ}
    (hlen : sizes.length = targets.length)
    (hsum : sizes.sum < targets.sum) :
    ∃ j < targets.length, sizes.getD j 0 < targets.getD j 0 := by
  by_contra hc
  push_neg at hc
  have : targets.sum ≤ sizes.sum := by
    apply sum_le_of_pointwise hlen.symm
    intro j
    by_cases hj : j < targets.length
    · exact hc j hj
    · have : targets.getD j 0 = 0 := by
        rw [List.getD_eq_getElem?_getD, List.getElem?_eq_none (by omega)]
        rfl
      omega
  omega

theorem gb_targets_sum {n k : ℕ} (hk : 0 < k) : (gb_targets n k).sum = n := by
  unfold gb_targets
  have haux : ∀ (m t r : ℕ), r ≤ m →
      (((List.range m).map (fun i => if i < r then t + 1 else t)).sum)
        = m * t + r := by
    intro m
    induction m with
    | zero => intro t r hr; interval_cases r; simp
    | succ m ih =>
      intro t r hr
      rw [List.range_succ, List.map_append, List.sum_append]
      by_cases hrm : r ≤ m
      · have hm : ¬ (m < r) := by omega
        rw [ih t r hrm]
        simp only [List.map_cons, List.map_nil, List.sum_cons, List.sum_nil,
          hm, if_false]
        ring
      · have hr1 : r = m + 1 := by omega
        subst hr1
        have heq : ((List.range m).map (fun i => if i < m + 1 then t + 1 else t))
            = (List.range m).map (fun i => if i < m then t + 1 else t) := by
          apply List.map_congr_left
          intro i hi
          have him : i < m := List.mem_range.mp hi
          simp [him, Nat.lt_succ_of_lt him]
        rw [heq, ih t m le_rfl]
        have hm : m < m + 1 := Nat.lt_succ_self m
        simp only [List.map_cons, List.map_nil, List.sum_cons, List.sum_nil,
          hm, if_true]
        ring
  rw [haux k (n / k) (n % k) (Nat.le_of_lt (Nat.mod_lt _ hk))]
  exact Nat.div_add_mod n k

theorem gb_targets_length {n k : ℕ} : (gb_targets n k).length = k := by
  unfold gb_targets
  simp

theorem gb_targets_getD {n k j : ℕ} (hj : j < k) :
    (gb_targets n k).getD j 0 = if j < n % k then n / k + 1 else n / k := by
  unfold gb_targets
  rw [List.getD_eq_getElem?_getD, List.getElem?_map]
  rw [List.getElem?_range hj]
  rfl

/-! ### First-pass invariant -/

/-- Invariant of the size-constrained first pass after `m` points have
been assigned. -/
def gb_inv (n k : ℕ) (targets : List ℕ) (m : ℕ) (σ : List ℤ × List ℕ) : Prop :=
  σ.1.length = n ∧ σ.2.length = k ∧
  (∀ j, σ.2.getD j 0 ≤ targets.getD j 0) ∧
  σ.2.sum = m ∧
  σ.1.count (-1) = n - m ∧
  (∀ j, j < k → σ.2.getD j 0 = σ.1.count ((j : ℕ) : ℤ)) ∧
  (∀ v ∈ σ.1, v = -1 ∨ ∃ j, j < k ∧ v = ((j : ℕ) : ℤ))

theorem pick_centroid_some {targets sizes prefs : List ℕ} {c : ℕ}
    (h : pick_centroid targets sizes prefs = some c) :
    c ∈ prefs ∧ sizes.getD c 0 < targets.getD c 0 := by
  unfold pick_centroid at h
  refine ⟨List.mem_of_find?_eq_some h, ?_⟩
  have := List.find?_some h
  exact of_decide_eq_true this

theorem pick_centroid_isSome {targets sizes : List ℕ} {k : ℕ}
    (prefs : List ℕ) (hperm : ∀ j, j < k → j ∈ prefs)
    (hlen : sizes.length = k) (hlent : targets.length = k)
    (hsum : sizes.sum < targets.sum) :
    (pick_centroid targets sizes prefs).isSome = true := by
  obtain ⟨j, hj, hroom⟩ := exists_room_of_sum_lt (by omega) hsum
  rw [hlent] at hj
  unfold pick_centroid
  rw [List.find?_isSome]
  exact ⟨j, hperm j hj, decide_eq_true hroom⟩

theorem gb_step_inv {n k m : ℕ} {targets : List ℕ} (cdist : ℕ → ℕ → ℚ)
    {σ : List ℤ × List ℕ} {idx : ℕ}
    (hlent : targets.length = k) (hsumt : targets.sum = n)
    (hidx : idx < n) (hold : σ.1.getD idx 0 = -1) (hm : m < n)
    (hinv : gb_inv n k targets m σ) :
    gb_inv n k targets (m + 1) (gb_step targets cdist k σ idx) ∧
    (∀ i, i ≠ idx →
      (gb_step targets cdist k σ idx).1.getD i 0 = σ.1.getD i 0) := by
  obtain ⟨hl1, hl2, hle, hsum, hneg, hcnt, hmem⟩ := hinv
  have hperm : ∀ j, j < k → j ∈ argsort_by (fun j => cdist idx j) (List.range k) := by
    intro j hj
    exact ((argsort_by_perm (fun j => cdist idx j) (List.range k)).mem_iff).mpr
      (List.mem_range.mpr hj)
  have hpick := pick_centroid_isSome (k := k)
    (argsort_by (fun j => cdist idx j) (List.range k)) hperm hl2 hlent
    (by omega)
  unfold gb_step
  cases hc : pick_centroid targets σ.2 (argsort_by (fun j => cdist idx j) (List.range k)) with
  | none => rw [hc] at hpick; simp at hpick
  | some c =>
    obtain ⟨hcmem, hcroom⟩ := pick_centroid_some hc
    have hck : c < k := by
      have := ((argsort_by_perm (fun j => cdist idx j) (List.range k)).mem_iff).mp hcmem
      exact List.mem_range.mp this
    have hck2 : c < σ.2.length := by omega
    have hidx2 : idx < σ.1.length := by omega
    constructor
    · refine ⟨by simpa using hl1, by simp [bump]; omega, ?_, ?_, ?_, ?_, ?_⟩
      · intro j
        unfold bump
        by_cases hjc : j = c
        · subst hjc
          rw [getD_set_self_nat hck2]
          omega
        · rw [getD_set_ne_nat (fun he => hjc he.symm)]
          exact hle j
      · have hs := sum_set_add hck2 (σ.2.getD c 0 + 1)
        unfold bump
        dsimp only
        omega
      · have hcs := count_set_add hidx2 ((c : ℕ) : ℤ) (-1)
        rw [hold] at hcs
        dsimp only
        split_ifs at hcs
        all_goals first | (exfalso; assumption) | omega
      · intro j hj
        have hcs := count_set_add hidx2 ((c : ℕ) : ℤ) ((j : ℕ) : ℤ)
        rw [hold] at hcs
        have hcj := hcnt j hj
        dsimp only
        unfold bump
        by_cases hjc : j = c
        · subst hjc
          rw [getD_set_self_nat hck2]
          split_ifs at hcs
          all_goals first | (exfalso; assumption) | omega
        · rw [getD_set_ne_nat (fun he => hjc he.symm)]
          split_ifs at hcs
          all_goals first | (exfalso; assumption) | omega
      · intro v hv
        dsimp only at hv
        rcases List.mem_or_eq_of_mem_set hv with hv1 | hv2
        · exact hmem v hv1
        · right
          exact ⟨c, hck, hv2⟩
    · intro i hi
      dsimp only
      exact getD_set_ne (fun he => hi he.symm) _

theorem gb_fold_inv {n k : ℕ} {targets : List ℕ} (cdist : ℕ → ℕ → ℚ)
    (hlent : targets.length = k) (hsumt : targets.sum = n) :
    ∀ (order : List ℕ) (σ : List ℤ × List ℕ) (m : ℕ),
    order.Nodup → (∀ i ∈ order, i < n) →
    (∀ i ∈ order, σ.1.getD i 0 = -1) →
    m + order.length ≤ n →
    gb_inv n k targets m σ →
    gb_inv n k targets (m + order.length)
      (order.foldl (gb_step targets cdist k) σ) := by
  intro order
  induction order with
  | nil => intro σ m _ _ _ _ h; simpa using h
  | cons idx rest ih =>
    intro σ m hnd hlt huntouched hlen hinv
    have hm : m < n := by
      simp only [List.length_cons] at hlen
      omega
    obtain ⟨hstep, hpreserve⟩ := gb_step_inv cdist hlent hsumt
      (hlt idx (List.mem_cons_self _ _))
      (huntouched idx (List.mem_cons_self _ _)) hm hinv
    simp only [List.foldl_cons, List.length_cons]
    have hres : gb_inv n k targets (m + 1 + rest.length)
        (rest.foldl (gb_step targets cdist k) (gb_step targets cdist k σ idx)) := by
      apply ih
      · exact List.Nodup.of_cons hnd
      · exact fun i hi => hlt i (List.mem_cons_of_mem _ hi)
      · intro i hi
        rw [hpreserve i (fun he => (List.nodup_cons.mp hnd).1 (he ▸ hi))]
        exact huntouched i (List.mem_cons_of_mem _ hi)
      · simp only [List.length_cons] at hlen
        omega
      · exact hstep
    have heq : m + (rest.length + 1) = m + 1 + rest.length := by omega
    rw [heq]
    exact hres

theorem getD_replicate_nat {k j : ℕ} (a : ℕ) :
    (List.replicate k a).getD j 0 = if j < k then a else 0 := by
  rw [List.getD_eq_getElem?_getD, List.getElem?_replicate]
  split <;> rfl

theorem getD_replicate_int {n j : ℕ} (a : ℤ) :
    (List.replicate n a).getD j 0 = if j < n then a else 0 := by
  rw [List.getD_eq_getElem?_getD, List.getElem?_replicate]
  split <;> rfl

theorem gb_inv_init {n k : ℕ} (targets : List ℕ) :
    gb_inv n k targets 0 (List.replicate n (-1), List.replicate k 0) := by
  refine ⟨by simp, by simp, ?_, by simp, by simp, ?_, ?_⟩
  · intro j
    rw [getD_replicate_nat]
    split <;> omega
  · intro j hj
    rw [getD_replicate_nat, List.count_replicate]
    have hne : ¬ (((j : ℕ) : ℤ) = -1) := by omega
    simp [hne, hj]
  · intro v hv
    left
    exact List.eq_of_mem_replicate hv

theorem fill_pass_id {targets : List ℕ} {k : ℕ} {σ : List ℤ × List ℕ}
    (h : ∀ idx, σ.1.getD idx 0 ≠ -1) : fill_pass targets k σ = σ := by
  unfold fill_pass
  generalize List.range σ.1.length = l
  induction l with
  | nil => rfl
  | cons idx rest ih =>
    simp only [List.foldl_cons, if_neg (h idx)]
    exact ih

theorem ceil_div_split {n k j : ℕ} (hk : 0 < k) (hj : j < k) :
    (if j < n % k then n / k + 1 else n / k) = n / k ∨
    (if j < n % k then n / k + 1 else n / k) = (n + k - 1) / k := by
  by_cases hmod : j < n % k
  · right
    rw [if_pos hmod]
    have hr : n % k < k := Nat.mod_lt _ hk
    have hd := Nat.div_add_mod n k
    have h1 : n + k - 1 = k * (n / k) + (n % k + k - 1) := by omega
    rw [h1, Nat.mul_add_div hk]
    have h2 : (n % k + k - 1) / k = 1 :=
      Nat.div_eq_of_lt_le (by omega) (by omega)
    omega
  · left
    rw [if_neg hmod]

/-- C3 (amended): on the constrained path — at least 20 points and at
least 2 requested clusters — `guaranteed_balanced_clustering` always
returns a labeling of all `n` points in which every cluster's size is
`⌊n/k⌋` or `⌈n/k⌉`, for every KMeans oracle and every distance function. -/
theorem c3_balanced (kmeans_oracle : ℕ → ℕ → List ℕ) (cdist : ℕ → ℕ → ℚ)
    (n k : ℕ) (hn : 20 ≤ n) (hk : 2 ≤ k) :
    ∃ labels,
      guaranteed_balanced_clustering kmeans_oracle cdist n k = some labels ∧
      labels.length = n ∧ cluster_sizes_balanced labels n k := by
  have hk0 : 0 < k := by omega
  have hkn : ¬ (n < 20 ∨ k ≤ 1) := by omega
  simp only [guaranteed_balanced_clustering]
  rw [if_neg hkn]
  set ord := argsort_by
    (fun i => q_min_list ((List.range k).map (fun j => cdist i j)))
    (List.range n) with hord
  set fp := ord.foldl (gb_step (gb_targets n k) cdist k)
    (List.replicate n (-1), List.replicate k 0) with hfp
  have hperm : List.Perm ord (List.range n) := argsort_by_perm _ _
  have hnd : ord.Nodup := hperm.nodup_iff.mpr (List.nodup_range n)
  have hmemo : ∀ i ∈ ord, i < n := fun i hi =>
    List.mem_range.mp (hperm.mem_iff.mp hi)
  have hlen : ord.length = n := by rw [hperm.length_eq, List.length_range]
  have huntouched : ∀ i ∈ ord,
      ((List.replicate n (-1 : ℤ), List.replicate k (0 : ℕ))).1.getD i 0 = -1 := by
    intro i hi
    show (List.replicate n (-1 : ℤ)).getD i 0 = -1
    rw [getD_replicate_int, if_pos (hmemo i hi)]
  have hinv := gb_fold_inv cdist gb_targets_length (gb_targets_sum hk0)
    ord (List.replicate n (-1), List.replicate k 0) 0 hnd hmemo huntouched
    (by omega) (gb_inv_init (gb_targets n k))
  rw [hlen] at hinv
  rw [← hfp] at hinv
  obtain ⟨hl1, hl2, hle, hsum, hneg, hcnt, hmem⟩ := hinv
  have hnotmem : (-1 : ℤ) ∉ fp.1 := by
    rw [← List.count_eq_zero]
    omega
  have hno : ∀ idx, fp.1.getD idx 0 ≠ -1 := by
    intro idx
    by_cases hidx : idx < fp.1.length
    · rw [List.getD_eq_getElem _ _ hidx]
      intro hcontra
      exact hnotmem (hcontra ▸ List.getElem_mem hidx)
    · rw [List.getD_eq_default _ _ (by omega)]
      omega
  have hpe := pointwise_eq_of_sum_eq
    (hl2.trans gb_targets_length.symm) hle
    (by rw [hsum, gb_targets_sum hk0]; omega)
  refine ⟨fp.1, ?_, by omega, ?_⟩
  · rw [fill_pass_id hno]
  · intro v hv
    rcases hmem v hv with hveq | ⟨j, hj, hveq⟩
    · exact absurd (hveq ▸ hv) hnotmem
    · subst hveq
      have h1 : fp.1.count ((j : ℕ) : ℤ) = (gb_targets n k).getD j 0 := by
        rw [← hcnt j hj]
        exact hpe j
      rw [List.count_eq_countP, ← List.count_eq_countP] at h1
      rw [h1, gb_targets_getD hj]
      exact ceil_div_split hk0 hj

set_option maxRecDepth 4096 in
/-- C3 counterexample to the unqualified claim: with fewer than 20 points
(here n = 5, k = 2) the function takes the small-input branch, which
returns the best of ten unconstrained KMeans fits unchanged.  The oracle
`fun _ _ => [0, 0, 0, 0, 1]` is exactly what
`KMeans(n_clusters=2).fit_predict` returns (up to label order) on the
1-D points [0], [0], [0], [0], [100]: four near-identical points share
one centroid and the outlier gets the other.  The returned sizes are
{4, 1}, but ⌊5/2⌋ = 2 and ⌈5/2⌉ = 3, so the balance property fails. -/
theorem c3_small_branch_unbalanced :
    guaranteed_balanced_clustering (fun _ _ => [0, 0, 0, 0, 1]) (fun _ _ => 0) 5 2
      = some [0, 0, 0, 0, 1] ∧
    ¬ cluster_sizes_balanced [0, 0, 0, 0, 1] 5 2 := by
  constructor
  · with_unfolding_all decide
  · unfold cluster_sizes_balanced
    decide

/-- C3 witness: the amended theorem applied at n = 20, k = 2. -/
theorem c3_balanced_witness :
    20 ≤ 20 ∧ 2 ≤ 2 ∧
    ∃ labels,
      guaranteed_balanced_clustering (fun _ _ => []) (fun _ _ => 0) 20 2
        = some labels ∧
      labels.length = 20 ∧ cluster_sizes_balanced labels 20 2 :=
  ⟨by decide, by decide,
    c3_balanced (fun _ _ => []) (fun _ _ => 0) 20 2 (by decide) (by decide)⟩

/-! ## C4 and C9: label remap, cluster selection, and the density-based dispatch -/

/-! ### np.unique and the label remap (advanced_clustering.py 558-561) -/

/-- Sorted-insert with deduplication; `np_unique` below folds it to model
`np.unique` (sorted distinct values). -/
def z_unique_insert (x : ℤ) : List ℤ → List ℤ
  | [] => [x]
  | y :: ys =>
    if x < y then x :: y :: ys
    else if x = y then y :: ys
    else y :: z_unique_insert x ys

/-- `np.unique`: the distinct values of a list in increasing order. -/
def np_unique (l : List ℤ) : List ℤ := l.foldr z_unique_insert []

/-- The remap step of `perform_hdbscan_clustering` (lines 558-561):
`mapping = {old: new for new, old in enumerate(np.unique(labels))}`
followed by `[mapping[label] for label in labels]`. -/
def remap_labels (l : List ℤ) : List ℤ :=
  l.map (fun v => ((np_unique l).indexOf v : ℤ))

theorem mem_z_unique_insert {a x : ℤ} {l : List ℤ} :
    a ∈ z_unique_insert x l ↔ a = x ∨ a ∈ l := by
  induction l with
  | nil => simp [z_unique_insert]
  | cons y ys ih =>
    unfold z_unique_insert
    split_ifs with h1 h2
    · simp
    · subst h2
      simp only [List.mem_cons]
      tauto
    · simp only [List.mem_cons, ih]
      tauto

theorem mem_np_unique {a : ℤ} {l : List ℤ} : a ∈ np_unique l ↔ a ∈ l := by
  induction l with
  | nil => simp [np_unique]
  | cons x xs ih =>
    unfold np_unique at ih ⊢
    simp only [List.foldr_cons, mem_z_unique_insert, ih, List.mem_cons]

theorem z_unique_insert_sorted {x : ℤ} {l : List ℤ}
    (h : List.Pairwise (· < ·) l) :
    List.Pairwise (· < ·) (z_unique_insert x l) := by
  induction l with
  | nil => simp [z_unique_insert]
  | cons y ys ih =>
    rw [List.pairwise_cons] at h
    obtain ⟨hy, hys⟩ := h
    unfold z_unique_insert
    split_ifs with h1 h2
    · rw [List.pairwise_cons]
      refine ⟨?_, List.pairwise_cons.mpr ⟨hy, hys⟩⟩
      intro b hb
      rcases List.mem_cons.mp hb with hb1 | hb2
      · omega
      · have := hy b hb2
        omega
    · exact List.pairwise_cons.mpr ⟨hy, hys⟩
    · rw [List.pairwise_cons]
      refine ⟨?_, ih hys⟩
      intro b hb
      rcases mem_z_unique_insert.mp hb with hb1 | hb2
      · omega
      · exact hy b hb2

theorem np_unique_sorted (l : List ℤ) :
    List.Pairwise (· < ·) (np_unique l) := by
  induction l with
  | nil => simp [np_unique]
  | cons x xs ih =>
    unfold np_unique at ih ⊢
    simp only [List.foldr_cons]
    exact z_unique_insert_sorted ih

theorem np_unique_nodup (l : List ℤ) : (np_unique l).Nodup :=
  (np_unique_sorted l).imp (fun h => ne_of_lt h)

theorem nodup_indexOf_getElem {u : List ℤ} (hnd : u.Nodup)
    {j : ℕ} (hj : j < u.length) : u.indexOf u[j] = j := by
  induction u generalizing j with
  | nil => simp at hj
  | cons a tl ih =>
    rw [List.nodup_cons] at hnd
    cases j with
    | zero => simp [List.indexOf_cons]
    | succ i =>
      have hi : i < tl.length := by simpa using hj
      have hne : ¬ (tl[i] = a) := by
        intro he
        exact hnd.1 (he ▸ List.getElem_mem hi)
      simp only [List.getElem_cons_succ, List.indexOf_cons]
      have hne2 : ¬ (a = tl[i]) := fun he => hne he.symm
      have hbeq : (a == tl[i]) = false := beq_false_of_ne hne2
      rw [hbeq]
      simp only [cond_false]
      rw [ih hnd.2 hi]

/-- The remap step always produces one label per input position, each
label in `[0, u)` where `u` is the number of distinct input labels, and
every value of `0, …, u-1` occurs. -/
theorem remap_dense (l : List ℤ) :
    (remap_labels l).length = l.length ∧
    (∀ x ∈ remap_labels l, 0 ≤ x ∧ x < ((np_unique l).length : ℤ)) ∧
    (∀ j : ℕ, j < (np_unique l).length → ((j : ℕ) : ℤ) ∈ remap_labels l) := by
  refine ⟨by simp [remap_labels], ?_, ?_⟩
  · intro x hx
    obtain ⟨v, hv, hvx⟩ := List.mem_map.mp hx
    have hmem : v ∈ np_unique l := mem_np_unique.mpr hv
    have hlt := List.indexOf_lt_length.mpr hmem
    omega
  · intro j hj
    refine List.mem_map.mpr ⟨(np_unique l)[j], ?_, ?_⟩
    · exact mem_np_unique.mp (List.getElem_mem hj)
    · rw [nodup_indexOf_getElem (np_unique_nodup l) hj]

/-! ### enhanced_clustering.perform_clustering (355-448) -/

/-- Number of distinct label values (`len(set(labels))`). -/
def distinct_count (l : List ℤ) : ℕ := (np_unique l).length

/-- Python `max` over a nonempty list of ints. -/
def z_max_list (l : List ℤ) : ℤ :=
  match l with
  | [] => 0
  | x :: xs => xs.foldl max x

/-- `noise_free_labels`: copy of the labels with every -1 replaced by
`max(unique_labels) + 1` (lines 426-427). -/
def noise_free (l : List ℤ) : List ℤ :=
  l.map (fun v => if v = -1 then z_max_list l + 1 else v)

/-- The `clustering_results` / `silhouette_values` insertion-ordered
candidate list of `perform_clustering`.  Each oracle is the label list
returned by the corresponding library fit on the scaled matrix (`none`
models the `except` path); `sil` is `silhouette_score` on the scaled
matrix as a function of the submitted labels. -/
def candidate_list (kmeansRes aggRes dbscanRes : Option (List ℤ))
    (sil : List ℤ → ℚ) : List (List ℤ × ℚ) :=
  (match kmeansRes with
   | some kl => if 1 < distinct_count kl then [(kl, sil kl)] else []
   | none => []) ++
  (match aggRes with
   | some al => if 1 < distinct_count al then [(al, sil al)] else []
   | none => []) ++
  (match dbscanRes with
   | some dl =>
     if 1 < distinct_count dl then
       if (-1 : ℤ) ∈ dl then
         (if 1 < distinct_count (noise_free dl) then [(dl, sil (noise_free dl))]
          else [])
       else [(dl, sil dl)]
     else []
   | none => [])

/-- `max(silhouette_values, key=silhouette_values.get)` keeps the first
candidate with the maximal score (Python `max` breaks ties by first
occurrence in dict insertion order). -/
def best_by_sil (cands : List (List ℤ × ℚ)) : Option (List ℤ) :=
  match cands with
  | [] => none
  | c :: rest => some ((rest.foldl (fun best p =>
      if best.2 < p.2 then p else best) c).1)

/-- `EnhancedPlaylistAnalysis.perform_clustering`: run the three library
fits, score each usable result, and return the labels with the best
silhouette score; `fallback` is the plain-KMeans result used when no
method yields a scored candidate. -/
def enh_perform_clustering (kmeansRes aggRes dbscanRes : Option (List ℤ))
    (sil : List ℤ → ℚ) (fallback : List ℤ) : List ℤ :=
  match best_by_sil (candidate_list kmeansRes aggRes dbscanRes sil) with
  | some l => l
  | none => fallback

/-- C4 counterexample: `perform_clustering` can return a labeling that
contains the DBSCAN noise label -1, because line 432 stores the
*original* labels (`dbscan_labels`, noise included) while scoring the
converted copy.  Here KMeans and Agglomerative both return [0,0,0,1,1,1]
with silhouette 1/10, DBSCAN returns [0,0,1,1,-1,-1] whose converted
copy [0,0,1,1,2,2] scores 9/10, so the DBSCAN labels win and the output
contains -1 — refuting "no negative noise label" for the Cluster
Selector's outputs. -/
theorem c4_enhanced_keeps_noise :
    enh_perform_clustering (some [0, 0, 0, 1, 1, 1]) (some [0, 0, 0, 1, 1, 1])
      (some [0, 0, 1, 1, -1, -1])
      (fun l => if l = [0, 0, 1, 1, 2, 2] then 9/10 else 1/10)
      [0, 0, 0, 1, 1, 1]
      = [0, 0, 1, 1, -1, -1] ∧
    (-1 : ℤ) ∈ ([0, 0, 1, 1, -1, -1] : List ℤ) := by
  constructor
  · with_unfolding_all decide
  · decide

/-! ### advanced_clustering.perform_hdbscan_clustering (411-573) -/

/-- First index of the maximum (`np.argmax`). -/
def q_argmax (l : List ℚ) : ℕ :=
  (l.foldl (fun (st : ℕ × ℚ × ℕ) v =>
    if st.2.1 < v then (st.2.2, v, st.2.2 + 1) else (st.1, st.2.1, st.2.2 + 1))
    (0, l.getD 0 0, 0)).1

/-- Squared Euclidean distance between two ℚ-vectors.  The code compares
`np.linalg.norm` values; squaring is strictly monotone on nonnegative
reals, so comparisons and minima are unchanged. -/
def sq_dist (a b : List ℚ) : ℚ :=
  (List.zipWith (fun x y => (x - y) ^ 2) a b).sum

def vec_add (a b : List ℚ) : List ℚ := List.zipWith (· + ·) a b

/-- `np.mean(rows, axis=0)`: componentwise mean of a nonempty row list. -/
def vec_mean (rows : List (List ℚ)) : List ℚ :=
  match rows with
  | [] => []
  | r :: _ =>
    (rows.foldl vec_add (List.replicate r.length 0)).map
      (fun x => x / (rows.length : ℚ))

/-- Embedding rows whose current label equals `v`. -/
def rows_with_label (labels : List ℤ) (emb : ℕ → List ℚ) (v : ℤ) :
    List (List ℚ) :=
  ((List.range labels.length).filter (fun i => labels.getD i 0 == v)).map emb

/-- `cluster_centers`: mean embedding point of every non-noise label, in
increasing label order (iteration over `np.unique`). -/
def cluster_centers (labels : List ℤ) (emb : ℕ → List ℚ) :
    List (ℤ × List ℚ) :=
  ((np_unique labels).filter (fun v => !(v == -1))).map
    (fun v => (v, vec_mean (rows_with_label labels emb v)))

/-- `min(distances.items(), key=lambda x: x[1])[0]`: label of the first
closest center. -/
def closest_center (point : List ℚ) : List (ℤ × List ℚ) → Option ℤ
  | [] => none
  | (v, c) :: rest => some ((rest.foldl (fun best p =>
      if sq_dist point p.2 < best.2 then (p.1, sq_dist point p.2) else best)
      (v, sq_dist point c)).1)

/-- Soft-membership reassignment of noise points (lines 523-534): a noise
point whose best membership probability exceeds 0.1 moves to the argmax
cluster. -/
def soft_assign (labels : List ℤ) (soft : ℕ → List ℚ) : List ℤ :=
  (List.range labels.length).map (fun idx =>
    let v := labels.getD idx 0
    if v = -1 ∧ 1/10 < q_max_list (soft idx) then ((q_argmax (soft idx) : ℕ) : ℤ)
    else v)

/-- Distance-based reassignment of remaining noise points (lines 536-556):
each is moved to the nearest cluster center, or to cluster 0 when there
are no centers. -/
def dist_assign (labels : List ℤ) (emb : ℕ → List ℚ) : List ℤ :=
  (List.range labels.length).map (fun idx =>
    let v := labels.getD idx 0
    if v = -1 then
      match closest_center (emb idx) (cluster_centers labels emb) with
      | some c => c
      | none => 0
    else v)

/-- Noise cleanup and final remap (lines 514-565).  `n_noise` is the noise
count of the *primary* labels (computed at line 486 and never updated);
`softOk` is false when the soft-membership call is unavailable or throws. -/
def hdb_finish (labels : List ℤ) (n_noise : ℕ) (softOk : Bool)
    (soft : ℕ → List ℚ) (emb : ℕ → List ℚ) : List ℤ :=
  if 0 < n_noise then
    let l1 := if softOk then soft_assign labels soft else labels
    let l2 := if 0 < l1.count (-1) then dist_assign l1 emb else l1
    remap_labels l2
  else remap_labels labels

/-- `AdvancedPlaylistAnalysis.perform_hdbscan_clustering`.

Oracles: `primary` is the adaptive-parameter HDBSCAN fit on the UMAP
embedding, `retry` the relaxed fit (min_cluster_size=2, min_samples=1,
epsilon=0.5), `soft idx` the soft-membership vector of point `idx`,
`softOk` whether the soft-membership call succeeds, `gmm m` the result of
`perform_gmm_clustering m`, `emb idx` the embedding row of point `idx`,
and `n` the number of embedding rows.  The size/density parameter tuning
(lines 427-464) only changes the fit baked into `primary`. -/
def perform_hdbscan_clustering (primary retry : List ℤ) (softOk : Bool)
    (soft : ℕ → List ℚ) (gmm : ℕ → List ℤ) (emb : ℕ → List ℚ)
    (n : ℕ) : List ℤ :=
  if n < 5 then List.replicate n 0
  else
    let max_clusters := Nat.max 2 (Nat.min (n / 5) 10)
    let n_noise := primary.count (-1)
    if (2 : ℚ) / 5 < (n_noise : ℚ) / (n : ℚ) ∨
        max_clusters < (np_unique primary).length then
      gmm max_clusters
    else if primary.all (fun v => v == -1) then
      if retry.all (fun v => v == -1) then gmm max_clusters
      else hdb_finish retry n_noise false soft emb
    else hdb_finish primary n_noise softOk soft emb

theorem soft_assign_length (labels : List ℤ) (soft : ℕ → List ℚ) :
    (soft_assign labels soft).length = labels.length := by
  simp [soft_assign]

theorem dist_assign_length (labels : List ℤ) (emb : ℕ → List ℚ) :
    (dist_assign labels emb).length = labels.length := by
  simp [dist_assign]

/-- Every branch of the noise cleanup ends in the `np.unique` remap of a
list of the same length as the input labels. -/
theorem hdb_finish_eq_remap (labels : List ℤ) (m : ℕ) (softOk : Bool)
    (soft : ℕ → List ℚ) (emb : ℕ → List ℚ) :
    ∃ L : List ℤ, hdb_finish labels m softOk soft emb = remap_labels L ∧
      L.length = labels.length := by
  simp only [hdb_finish]
  split_ifs
  all_goals
    exact ⟨_, rfl, by simp [dist_assign, soft_assign]⟩

theorem np_unique_length_pos {l : List ℤ} (h : l ≠ []) :
    0 < (np_unique l).length := by
  cases l with
  | nil => exact absurd rfl h
  | cons x xs =>
    exact List.length_pos_of_mem (mem_np_unique.mpr (List.mem_cons_self x xs))

/-- C4 (amended): whenever the density-based step accepts the primary
HDBSCAN fit — noise ratio at most 0.4 and no more distinct label values
than the size-derived maximum — the labeling it returns assigns exactly
one label to every input index (length `n`) and its label values are the
dense range `0, …, u-1` of consecutive integers starting at 0 for some
`u > 0` (so no noise label `-1` and no gaps): the final `np.unique` remap
of lines 558-565 guarantees this on every exit of the noise cleanup. -/
theorem c4_hdbscan_success_dense (primary retry : List ℤ) (softOk : Bool)
    (soft : ℕ → List ℚ) (gmm : ℕ → List ℤ) (emb : ℕ → List ℚ) (n : ℕ)
    (hn : 5 ≤ n) (hlen : primary.length = n)
    (hr : ((primary.count (-1) : ℕ) : ℚ) / (n : ℚ) ≤ 2 / 5)
    (hc : (np_unique primary).length ≤ Nat.max 2 (Nat.min (n / 5) 10)) :
    ∃ u : ℕ, 0 < u ∧
      (perform_hdbscan_clustering primary retry softOk soft gmm emb n).length
        = n ∧
      (∀ x ∈ perform_hdbscan_clustering primary retry softOk soft gmm emb n,
        0 ≤ x ∧ x < (u : ℤ)) ∧
      (∀ j : ℕ, j < u →
        ((j : ℕ) : ℤ)
          ∈ perform_hdbscan_clustering primary retry softOk soft gmm emb n) := by
  have hnq : (0 : ℚ) < (n : ℚ) := by
    have h0 : 0 < n := by omega
    exact_mod_cast h0
  simp only [perform_hdbscan_clustering]
  rw [if_neg (by omega)]
  rw [if_neg (by rw [not_or]; exact ⟨not_lt.mpr hr, not_lt.mpr hc⟩)]
  have hnall : ¬ (primary.all (fun v => v == -1) = true) := by
    intro hall
    have hcnt : primary.count (-1) = n := by
      rw [← hlen]
      apply List.count_eq_length.mpr
      intro b hb
      have hb1 : (b == (-1 : ℤ)) = true := List.all_eq_true.mp hall b hb
      have hb2 : b = -1 := by simpa using hb1
      exact hb2.symm
    rw [hcnt, div_self (ne_of_gt hnq)] at hr
    norm_num at hr
  rw [if_neg hnall]
  obtain ⟨L, hL, hLlen⟩ := hdb_finish_eq_remap primary (primary.count (-1))
    softOk soft emb
  rw [hL]
  have hLne : L ≠ [] := by
    intro he
    rw [he] at hLlen
    simp at hLlen
    omega
  refine ⟨(np_unique L).length, np_unique_length_pos hLne, ?_, ?_, ?_⟩
  · simp [remap_labels, hLlen, hlen]
  · exact (remap_dense L).2.1
  · exact (remap_dense L).2.2

/-- C4 witness: the theorem applied to the accepted HDBSCAN labeling
[0, 0, 0, 1, 1] on five points (no noise, two distinct labels, size
bound 2). -/
theorem c4_hdbscan_success_dense_witness :
    5 ≤ 5 ∧ ([0, 0, 0, 1, 1] : List ℤ).length = 5 ∧
    ((([0, 0, 0, 1, 1] : List ℤ).count (-1) : ℕ) : ℚ) / (5 : ℚ) ≤ 2 / 5 ∧
    (np_unique [0, 0, 0, 1, 1]).length ≤ Nat.max 2 (Nat.min (5 / 5) 10) ∧
    (∃ u : ℕ, 0 < u ∧
      (perform_hdbscan_clustering [0, 0, 0, 1, 1] [0, 1, 2, 3, 4] true
        (fun _ => []) (fun _ => [9, 9, 9, 9, 9]) (fun _ => [0, 0]) 5).length
        = 5 ∧
      (∀ x ∈ perform_hdbscan_clustering [0, 0, 0, 1, 1] [0, 1, 2, 3, 4] true
        (fun _ => []) (fun _ => [9, 9, 9, 9, 9]) (fun _ => [0, 0]) 5,
        0 ≤ x ∧ x < (u : ℤ)) ∧
      (∀ j : ℕ, j < u →
        ((j : ℕ) : ℤ)
          ∈ perform_hdbscan_clustering [0, 0, 0, 1, 1] [0, 1, 2, 3, 4] true
            (fun _ => []) (fun _ => [9, 9, 9, 9, 9]) (fun _ => [0, 0]) 5)) :=
  ⟨by decide, by decide, by norm_num, by decide,
    c4_hdbscan_success_dense [0, 0, 0, 1, 1] [0, 1, 2, 3, 4] true
      (fun _ => []) (fun _ => [9, 9, 9, 9, 9]) (fun _ => [0, 0]) 5
      (by decide) (by decide) (by norm_num) (by decide)⟩

/-- C9 (amended): whenever the primary HDBSCAN labels have noise ratio
above 0.4 or more distinct values than the size-derived maximum, the
method returns the GMM fallback.  In particular, when *every* point is
noise the ratio is 1 > 0.4, so the method returns the GMM fallback
immediately, for every retry oracle: the relaxed retry of lines 497-512
is unreachable and no retry is ever performed. -/
theorem c9_all_noise_goes_to_gmm (primary retry : List ℤ) (softOk : Bool)
    (soft : ℕ → List ℚ) (gmm : ℕ → List ℤ) (emb : ℕ → List ℚ) (n : ℕ)
    (hn : 5 ≤ n) (hlen : primary.length = n)
    (hall : ∀ v ∈ primary, v = -1) :
    perform_hdbscan_clustering primary retry softOk soft gmm emb n
      = gmm (Nat.max 2 (Nat.min (n / 5) 10)) := by
  simp only [perform_hdbscan_clustering]
  rw [if_neg (by omega)]
  have hcount : primary.count (-1) = n := by
    rw [← hlen]
    exact List.count_eq_length.mpr (fun b hb => (hall b hb).symm)
  have hratio : (2 : ℚ) / 5 < (primary.count (-1) : ℚ) / (n : ℚ) := by
    rw [hcount]
    rw [div_self (by positivity : ((n : ℚ)) ≠ 0)]
    norm_num
  rw [if_pos (Or.inl hratio)]

/-- C9 witness: five all-noise points. -/
theorem c9_all_noise_goes_to_gmm_witness :
    5 ≤ 5 ∧ ([-1, -1, -1, -1, -1] : List ℤ).length = 5 ∧
    perform_hdbscan_clustering [-1, -1, -1, -1, -1] [0, 0, 1, 1, 2] false
      (fun _ => []) (fun _ => [0, 0, 0, 1, 1]) (fun _ => [0, 0]) 5
      = (fun _ : ℕ => ([0, 0, 0, 1, 1] : List ℤ)) (Nat.max 2 (Nat.min (5 / 5) 10)) :=
  ⟨by decide, by decide,
    c9_all_noise_goes_to_gmm [-1, -1, -1, -1, -1] [0, 0, 1, 1, 2] false
      (fun _ => []) (fun _ => [0, 0, 0, 1, 1]) (fun _ => [0, 0]) 5
      (by decide) (by decide) (by decide)⟩

/-- C9 counterexample to the original claim: the primary fit labels all
five points noise and the relaxed retry would return the perfectly good
labeling [0, 0, 1, 1, 2] (which the remaining pipeline would pass through
unchanged), yet the method returns the GMM fallback [0, 0, 0, 1, 1]: the
retry result is never consulted. -/
theorem c9_retry_never_runs :
    perform_hdbscan_clustering [-1, -1, -1, -1, -1] [0, 0, 1, 1, 2] false
      (fun _ => []) (fun _ => [0, 0, 0, 1, 1]) (fun _ => [0, 0]) 5
      = [0, 0, 0, 1, 1] ∧
    hdb_finish [0, 0, 1, 1, 2] 5 false (fun _ => []) (fun _ => [0, 0])
      = [0, 0, 1, 1, 2] ∧
    ([0, 0, 0, 1, 1] : List ℤ) ≠ [0, 0, 1, 1, 2] := by
  refine ⟨?_, ?_, by decide⟩
  · with_unfolding_all decide
  · with_unfolding_all decide

/-! ## C5 and C7: enhanced profile synthesis, cluster naming, and the analyze dispatcher -/

/-! ### Decimal rendering of naturals (Python f-string `{idx + 1}`) -/

def digit_char (d : ℕ) : Char := Char.ofNat (48 + d)

def nat_chars_aux : ℕ → ℕ → List Char
  | 0, _ => []
  | fuel + 1, n =>
    if n = 0 then []
    else nat_chars_aux fuel (n / 10) ++ [digit_char (n % 10)]

/-- Decimal digit string of a natural number. -/
def nat_chars (n : ℕ) : List Char :=
  if n = 0 then ['0'] else nat_chars_aux n n

def nat_str (n : ℕ) : String := ⟨nat_chars n⟩

/-- Decimal rendering of an integer (Python `str` on an int). -/
def int_chars (i : ℤ) : List Char :=
  if i < 0 then '-' :: nat_chars (-i).toNat else nat_chars i.toNat

def int_str (i : ℤ) : String := ⟨int_chars i⟩

def chars_val (cs : List Char) : ℕ :=
  cs.foldl (fun a c => 10 * a + (c.toNat - 48)) 0

theorem chars_val_foldl (cs : List Char) (a : ℕ) :
    cs.foldl (fun a c => 10 * a + (c.toNat - 48)) a
      = a * 10 ^ cs.length + chars_val cs := by
  induction cs generalizing a with
  | nil => simp [chars_val]
  | cons c tl ih =>
    unfold chars_val
    simp only [List.foldl_cons, List.length_cons]
    rw [ih, ih]
    ring

theorem chars_val_append (a b : List Char) :
    chars_val (a ++ b) = chars_val a * 10 ^ b.length + chars_val b := by
  unfold chars_val
  rw [List.foldl_append]
  rw [chars_val_foldl]
  rfl

theorem digit_char_toNat {d : ℕ} (h : d < 10) :
    (digit_char d).toNat = 48 + d := by
  unfold digit_char
  interval_cases d <;> decide

theorem chars_val_aux_eq {fuel n : ℕ} (h : n ≤ fuel) :
    chars_val (nat_chars_aux fuel n) = n := by
  induction fuel generalizing n with
  | zero =>
    have : n = 0 := by omega
    subst this
    simp [nat_chars_aux, chars_val]
  | succ f ih =>
    unfold nat_chars_aux
    by_cases h0 : n = 0
    · subst h0; simp [chars_val]
    · rw [if_neg h0]
      rw [chars_val_append]
      rw [ih (by omega)]
      simp only [List.length_cons, List.length_nil, pow_one]
      have hv : chars_val [digit_char (n % 10)] = n % 10 := by
        unfold chars_val
        simp only [List.foldl_cons, List.foldl_nil]
        rw [digit_char_toNat (Nat.mod_lt _ (by omega))]
        omega
      rw [hv]
      omega

theorem chars_val_nat_chars (n : ℕ) : chars_val (nat_chars n) = n := by
  unfold nat_chars
  by_cases h : n = 0
  · subst h; simp [chars_val]
  · rw [if_neg h]
    exact chars_val_aux_eq le_rfl

theorem nat_chars_inj {m n : ℕ} (h : nat_chars m = nat_chars n) : m = n := by
  have hm := chars_val_nat_chars m
  have hn := chars_val_nat_chars n
  rw [h] at hm
  omega

theorem digit_char_isDigit {d : ℕ} (h : d < 10) : (digit_char d).isDigit := by
  unfold digit_char
  interval_cases d <;> decide

theorem nat_chars_aux_digits {fuel n : ℕ} :
    ∀ c ∈ nat_chars_aux fuel n, c.isDigit := by
  induction fuel generalizing n with
  | zero => intro c hc; simp [nat_chars_aux] at hc
  | succ f ih =>
    intro c hc
    unfold nat_chars_aux at hc
    by_cases h0 : n = 0
    · rw [if_pos h0] at hc; simp at hc
    · rw [if_neg h0] at hc
      rcases List.mem_append.mp hc with h1 | h2
      · exact ih _ h1
      · have hce : c = digit_char (n % 10) := by simpa using h2
        subst hce
        exact digit_char_isDigit (Nat.mod_lt _ (by omega))

theorem nat_chars_digits (n : ℕ) : ∀ c ∈ nat_chars n, c.isDigit := by
  unfold nat_chars
  by_cases h : n = 0
  · rw [if_pos h]; intro c hc; simp at hc; subst hc; decide
  · rw [if_neg h]; exact nat_chars_aux_digits

/-- Cancellation: if two digit blocks followed by non-digit-or-empty
tails agree as lists, the blocks agree (and hence the tails). -/
theorem digits_prefix_cancel {d1 d2 r1 r2 : List Char}
    (hd1 : ∀ c ∈ d1, c.isDigit) (hd2 : ∀ c ∈ d2, c.isDigit)
    (hr1 : ∀ c, r1.head? = some c → ¬ c.isDigit)
    (hr2 : ∀ c, r2.head? = some c → ¬ c.isDigit)
    (h : d1 ++ r1 = d2 ++ r2) : d1 = d2 ∧ r1 = r2 := by
  induction d1 generalizing d2 with
  | nil =>
    cases d2 with
    | nil => simpa using h
    | cons b bs =>
      simp only [List.nil_append, List.cons_append] at h
      have hb : b.isDigit := hd2 b (List.mem_cons_self _ _)
      have : r1.head? = some b := by rw [h]; rfl
      exact absurd hb (hr1 b this)
  | cons a as ih =>
    cases d2 with
    | nil =>
      simp only [List.cons_append, List.nil_append] at h
      have ha : a.isDigit := hd1 a (List.mem_cons_self _ _)
      have : r2.head? = some a := by rw [← h]; rfl
      exact absurd ha (hr2 a this)
    | cons b bs =>
      simp only [List.cons_append, List.cons.injEq] at h
      obtain ⟨hab, htl⟩ := h
      have := ih (fun c hc => hd1 c (List.mem_cons_of_mem _ hc))
        (fun c hc => hd2 c (List.mem_cons_of_mem _ hc)) htl
      exact ⟨by rw [hab, this.1], this.2⟩

/-! ### enhanced_clustering._get_base_audio_profile (623-936) -/

def enh_base_profiles : List (String × AudioProfile) :=
  [("artist", ⟨65/100, 70/100, 40/100, 10/100, 60/100, 15/100, 20/100, 120⟩),
   ("album", ⟨60/100, 65/100, 45/100, 12/100, 55/100, 18/100, 22/100, 118⟩),
   ("chill", ⟨45/100, 30/100, 70/100, 25/100, 50/100, 5/100, 8/100, 90⟩),
   ("focus", ⟨40/100, 35/100, 60/100, 40/100, 52/100, 4/100, 5/100, 100⟩),
   ("party", ⟨85/100, 90/100, 15/100, 5/100, 80/100, 12/100, 30/100, 125⟩),
   ("dance", ⟨90/100, 85/100, 10/100, 8/100, 75/100, 10/100, 25/100, 128⟩),
   ("workout", ⟨80/100, 95/100, 10/100, 5/100, 85/100, 15/100, 20/100, 135⟩),
   ("sleep", ⟨25/100, 15/100, 90/100, 60/100, 40/100, 3/100, 5/100, 75⟩),
   ("mood", ⟨60/100, 55/100, 50/100, 20/100, 70/100, 10/100, 15/100, 110⟩),
   ("upbeat", ⟨75/100, 80/100, 30/100, 10/100, 90/100, 12/100, 20/100, 122⟩),
   ("melancholic", ⟨35/100, 40/100, 65/100, 20/100, 25/100, 8/100, 10/100, 85⟩),
   ("rock", ⟨55/100, 85/100, 30/100, 15/100, 65/100, 8/100, 30/100, 130⟩),
   ("pop", ⟨70/100, 75/100, 25/100, 5/100, 70/100, 10/100, 15/100, 118⟩),
   ("hiphop", ⟨80/100, 70/100, 15/100, 5/100, 65/100, 25/100, 15/100, 95⟩),
   ("country", ⟨60/100, 65/100, 60/100, 10/100, 60/100, 7/100, 25/100, 115⟩),
   ("folk", ⟨45/100, 50/100, 80/100, 20/100, 55/100, 6/100, 20/100, 105⟩),
   ("indie", ⟨55/100, 60/100, 55/100, 25/100, 60/100, 5/100, 18/100, 112⟩),
   ("popular", ⟨75/100, 75/100, 30/100, 5/100, 70/100, 10/100, 15/100, 120⟩),
   ("recent", ⟨70/100, 72/100, 35/100, 8/100, 65/100, 12/100, 18/100, 115⟩),
   ("explicit", ⟨78/100, 75/100, 20/100, 6/100, 62/100, 30/100, 15/100, 98⟩),
   ("decade1950", ⟨50/100, 55/100, 70/100, 30/100, 65/100, 5/100, 25/100, 105⟩),
   ("decade1960", ⟨55/100, 60/100, 65/100, 25/100, 70/100, 6/100, 30/100, 110⟩),
   ("decade1970", ⟨65/100, 70/100, 50/100, 20/100, 65/100, 7/100, 35/100, 115⟩),
   ("decade1980", ⟨75/100, 75/100, 35/100, 15/100, 75/100, 8/100, 25/100, 120⟩),
   ("decade1990", ⟨70/100, 80/100, 30/100, 10/100, 70/100, 10/100, 20/100, 125⟩),
   ("decade2000", ⟨75/100, 75/100, 25/100, 8/100, 65/100, 12/100, 18/100, 118⟩),
   ("decade2010", ⟨78/100, 72/100, 30/100, 5/100, 60/100, 15/100, 15/100, 115⟩),
   ("decade2020", ⟨80/100, 70/100, 35/100, 4/100, 58/100, 18/100, 12/100, 110⟩),
   ("diverse", ⟨60/100, 60/100, 40/100, 15/100, 55/100, 10/100, 18/100, 115⟩),
   ("default", ⟨65/100, 65/100, 45/100, 15/100, 60/100, 12/100, 20/100, 118⟩)]

/-- `profiles.get(style, profiles["default"]).copy()` (field order of each
dict literal: danceability, energy, acousticness, instrumentalness,
valence, speechiness, liveness, tempo). -/
def enh_get_base_audio_profile (style : String) : AudioProfile :=
  match enh_base_profiles.find? (fun p => p.1 == style) with
  | some p => p.2
  | none => ⟨65/100, 65/100, 45/100, 15/100, 60/100, 12/100, 20/100, 118⟩

/-! ### enhanced_clustering.generate_enhanced_audio_profile (450-564) -/

/-- Genre counting loop of the enhanced module (same pattern as the
advanced `_extract_genre_distribution`): primary-artist lookup, skipping
falsy ids and missing entries. -/
def enh_genre_counts (d : ArtistData) (tracks : List TrackInfo) :
    List (String × ℕ) :=
  tracks.foldl (fun acc t =>
    match t.artist_id with
    | none => acc
    | some aid =>
      if aid == "" then acc
      else
        match artist_lookup d aid with
        | none => acc
        | some a => a.genres.foldl counter_add acc) []

/-- Stable descending insertion for `Counter.most_common` (Python `sorted`
is stable, so ties keep first-seen order). -/
def mc_insert (x : String × ℕ) : List (String × ℕ) → List (String × ℕ)
  | [] => [x]
  | y :: ys => if y.2 < x.2 then x :: y :: ys else y :: mc_insert x ys

/-- `Counter.most_common(5)`. -/
def most_common5 (l : List (String × ℕ)) : List (String × ℕ) :=
  (l.foldl (fun acc x => mc_insert x acc) []).take 5

/-- One step of the genre-prevalence loop (lines 492-524); `n` is the
cluster size. -/
def enh_genre_step (n : ℕ) (p : AudioProfile) (gc : String × ℕ) :
    AudioProfile :=
  let gl := py_lower gc.1
  let w : ℚ := (gc.2 : ℚ) / (n : ℚ)
  if str_in gl "rock" || str_in gl "metal" then
    let p1 := { p with energy := pymin 1 (p.energy + 15/100 * w) }
    { p1 with acousticness := pymax 0 (p1.acousticness - 15/100 * w) }
  else if any_in gl ["classical", "piano", "orchestra"] then
    let p1 := { p with acousticness := pymin 1 (p.acousticness + 20/100 * w) }
    let p2 := { p1 with energy := pymax 0 (p1.energy - 10/100 * w) }
    { p2 with instrumentalness := pymin 1 (p2.instrumentalness + 30/100 * w) }
  else if any_in gl ["electronic", "techno", "house", "edm"] then
    let p1 := { p with danceability := pymin 1 (p.danceability + 15/100 * w) }
    let p2 := { p1 with energy := pymin 1 (p1.energy + 10/100 * w) }
    { p2 with acousticness := pymax 0 (p2.acousticness - 20/100 * w) }
  else if any_in gl ["hip hop", "rap", "trap"] then
    let p1 := { p with speechiness := pymin 1 (p.speechiness + 20/100 * w) }
    { p1 with danceability := pymin 1 (p1.danceability + 10/100 * w) }
  else if str_in gl "jazz" then
    let p1 := { p with instrumentalness := pymin 1 (p.instrumentalness + 15/100 * w) }
    { p1 with acousticness := pymin 1 (p1.acousticness + 10/100 * w) }
  else if any_in gl ["folk", "acoustic", "singer-songwriter"] then
    let p1 := { p with acousticness := pymin 1 (p.acousticness + 25/100 * w) }
    { p1 with energy := pymax 0 (p1.energy - 10/100 * w) }
  else if str_in gl "pop" then
    let p1 := { p with danceability := pymin 1 (p.danceability + 10/100 * w) }
    { p1 with valence := pymin 1 (p1.valence + 10/100 * w) }
  else p

/-- Popularity adjustment (lines 527-534). -/
def enh_adjust_by_popularity (p : AudioProfile) (pops : List ℚ) :
    AudioProfile :=
  if pops.isEmpty then p
  else
    let pf := q_mean pops / 100
    let p1 := { p with danceability := 6/10 * p.danceability + 4/10 * (1/2 + 3/10 * pf) }
    let p2 := { p1 with energy := 6/10 * p1.energy + 4/10 * (1/2 + 3/10 * pf) }
    { p2 with valence := 6/10 * p2.valence + 4/10 * (1/2 + 2/10 * pf) }

/-- Era adjustment (lines 537-549): one `np.random.random()` draw sets
the tempo when any year parsed. -/
def enh_adjust_by_years (p : AudioProfile) (years : List ℚ) (r : Rng) :
    AudioProfile × Rng :=
  if years.isEmpty then (p, r)
  else
    let avg := q_mean years
    let d := np_random r
    if avg < 1970 then
      ({ p with tempo := 85 + 10 * d.1,
                energy := pymax (1/10) (pymin (8/10) (p.energy - 1/10)) }, d.2)
    else if avg < 1990 then ({ p with tempo := 95 + 15 * d.1 }, d.2)
    else if avg < 2010 then ({ p with tempo := 105 + 15 * d.1 }, d.2)
    else ({ p with tempo := 115 + 15 * d.1 }, d.2)

/-- Explicit-content adjustment (lines 552-555). -/
def enh_adjust_by_explicit (p : AudioProfile) (explicit_count total : ℕ) :
    AudioProfile :=
  if 3/10 < (explicit_count : ℚ) / (total : ℚ) then
    { p with speechiness := pymin 1 (p.speechiness + 15/100) }
  else p

/-- One mood step of `_adjust_profile_by_context` (572-591). -/
def enh_ctx_mood_step (p : AudioProfile) (mood : String) : AudioProfile :=
  if mem_str mood ["chill", "relax"] then
    let p1 := { p with energy := pymax (1/10) (p.energy - 15/100) }
    { p1 with tempo := pymax 70 (p1.tempo - 15) }
  else if mem_str mood ["energetic", "party", "upbeat"] then
    let p1 := { p with energy := pymin 1 (p.energy + 15/100) }
    let p2 := { p1 with tempo := pymin 180 (p1.tempo + 15) }
    { p2 with danceability := pymin 1 (p2.danceability + 10/100) }
  else if mem_str mood ["focus", "study", "concentration"] then
    let p1 := { p with instrumentalness := pymin 1 (p.instrumentalness + 20/100) }
    { p1 with energy := pymax (2/10) (pymin (7/10) p1.energy) }
  else if mem_str mood ["sad", "melancholy"] then
    let p1 := { p with valence := pymax (1/10) (p.valence - 20/100) }
    { p1 with tempo := pymax 65 (p1.tempo - 20) }
  else if mem_str mood ["happy", "joy"] then
    { p with valence := pymin 1 (p.valence + 20/100) }
  else p

/-- One activity step of `_adjust_profile_by_context` (594-603). -/
def enh_ctx_activity_step (p : AudioProfile) (activity : String) :
    AudioProfile :=
  if mem_str activity ["workout", "run", "gym"] then
    let p1 := { p with energy := pymin 1 (p.energy + 20/100) }
    let p2 := { p1 with tempo := pymin 180 (p1.tempo + 20) }
    { p2 with valence := pymin 1 (p2.valence + 10/100) }
  else if mem_str activity ["sleep", "relaxation"] then
    let p1 := { p with energy := pymax (5/100) (p.energy - 30/100) }
    let p2 := { p1 with tempo := pymax 60 (p1.tempo - 25) }
    { p2 with acousticness := pymin 1 (p2.acousticness + 20/100) }
  else p

/-- `_adjust_profile_by_context` (566-605). -/
def enh_adjust_profile_by_context (p : AudioProfile) (ctx : ContextThemes) :
    AudioProfile :=
  (ctx.activity.foldl enh_ctx_activity_step
    (ctx.mood.foldl enh_ctx_mood_step p))

/-- One non-tempo field of `_add_profile_variations`: multiplicative
`uniform(-0.05, 0.05)` variation, clamped to `[0.01, 0.99]`. -/
def enh_var_field (x : ℚ) (r : Rng) : ℚ × Rng :=
  let d := np_uniform (-5/100) (5/100) r
  (pymax (1/100) (pymin (99/100) (x + x * d.1)), d.2)

/-- `_add_profile_variations` (607-621): seven field draws in dict order,
then one `uniform(-5, 5)` tempo draw (tempo is the last key). -/
def enh_add_profile_variations (p : AudioProfile) (r : Rng) :
    AudioProfile × Rng :=
  let f1 := enh_var_field p.danceability r
  let f2 := enh_var_field p.energy f1.2
  let f3 := enh_var_field p.acousticness f2.2
  let f4 := enh_var_field p.instrumentalness f3.2
  let f5 := enh_var_field p.valence f4.2
  let f6 := enh_var_field p.speechiness f5.2
  let f7 := enh_var_field p.liveness f6.2
  let d8 := np_uniform (-5) 5 f7.2
  ({ danceability := f1.1, energy := f2.1, acousticness := f3.1,
     instrumentalness := f4.1, valence := f5.1, speechiness := f6.1,
     liveness := f7.1, tempo := p.tempo + d8.1 }, d8.2)

/-- `EnhancedPlaylistAnalysis.generate_enhanced_audio_profile` (450-564).
`ctx` is the (always-extracted) `self.context_themes`; the
`if self.context_themes is None` refill at 459-460 and the truthiness
test at 558 both pass because the extractor always returns a non-empty
dict. -/
def enh_generate_audio_profile (d : ArtistData) (ctx : ContextThemes)
    (tracks : List TrackInfo) (style : String) (r : Rng) :
    AudioProfile × Rng :=
  if tracks.isEmpty then (enh_get_base_audio_profile style, r)
  else
    let p0 := enh_get_base_audio_profile style
    let years := collect_years tracks
    let pops := tracks.map (fun t => t.popularity)
    let ec := (tracks.filter (fun t => t.explicit)).length
    let p1 := (most_common5 (enh_genre_counts d tracks)).foldl
      (enh_genre_step tracks.length) p0
    let p2 := enh_adjust_by_popularity p1 pops
    let pr := enh_adjust_by_years p2 years r
    let p4 := enh_adjust_by_explicit pr.1 ec tracks.length
    let p5 := enh_adjust_profile_by_context p4 ctx
    enh_add_profile_variations p5 pr.2

/-! ### enhanced_clustering.create_cluster_name (938-1057) -/

/-- Python `str.title()`: uppercase a letter that follows a non-letter,
lowercase all other letters. -/
def py_title_aux : List Char → Bool → List Char
  | [], _ => []
  | c :: tl, prevCased =>
    (if c.isAlpha then (if prevCased then c.toLower else c.toUpper) else c)
      :: py_title_aux tl c.isAlpha

def py_title (s : String) : String := ⟨py_title_aux s.data false⟩

/-- Descending-stable accumulation for `Counter.most_common`. -/
def most_common_all (l : List (String × ℕ)) : List (String × ℕ) :=
  l.foldl (fun acc x => mc_insert x acc) []

/-- The `similar_pairs` test of lines 987-997. -/
def is_similar_genres (gl pl : List Char) : Bool :=
  [("rap", "hip hop"), ("electronic", "edm"), ("rock", "metal"),
   ("pop", "dance pop"), ("r&b", "soul"), ("country", "folk")].any
    (fun p => (str_in gl p.1 && str_in pl p.2) || (str_in gl p.2 && str_in pl p.1))

/-- The second-genre search of lines 981-1001 over `top_genres[1:]`. -/
def find_second_genre (primary : String) : List (String × ℕ) → Option String
  | [] => none
  | (g, _) :: tl =>
    let gl := py_lower g
    let pl := py_lower primary
    if chars_infix gl pl || chars_infix pl gl then find_second_genre primary tl
    else if is_similar_genres gl pl then find_second_genre primary tl
    else some g

/-- The audio-characteristic adjective chain of lines 1007-1023 (genre
flavour) — `none` means the final `else` (primary genre alone). -/
def genre_adjective (p : AudioProfile) : Option String :=
  if 7/10 < p.energy then some "Energetic"
  else if p.energy < 3/10 then some "Chill"
  else if 7/10 < p.acousticness then some "Acoustic"
  else if 7/10 < p.danceability then some "Danceable"
  else if 6/10 < p.instrumentalness then some "Instrumental"
  else if 7/10 < p.valence then some "Upbeat"
  else if p.valence < 3/10 then some "Melancholic"
  else none

/-- The audio-characteristic adjective chain of lines 1041-1054 (`Tracks`
flavour) — `none` means fall through to the default name. -/
def track_adjective (p : AudioProfile) : Option String :=
  if 7/10 < p.energy then some "Energetic"
  else if p.energy < 3/10 then some "Calm"
  else if 7/10 < p.acousticness then some "Acoustic"
  else if 7/10 < p.danceability then some "Danceable"
  else if 6/10 < p.instrumentalness then some "Instrumental"
  else if 7/10 < p.valence then some "Upbeat"
  else if p.valence < 3/10 then some "Melancholic"
  else none

/-- Decade/audio fallback chain of `create_cluster_name` (1031-1057). -/
def name_by_year_or_audio (d : ArtistData) (ctx : ContextThemes) (idx : ℤ)
    (tracks : List TrackInfo) (years : List ℚ) (r : Rng) : String × Rng :=
  if !years.isEmpty ∧ (3/10 : ℚ) * (tracks.length : ℚ) < (years.length : ℚ) then
    let decade := ((Rat.floor (q_mean years)).toNat / 10) * 10
    ("Cluster " ++ int_str (idx + 1) ++ (": " ++ nat_str decade ++ "s Music"), r)
  else if 2 ≤ tracks.length then
    let pr := enh_generate_audio_profile d ctx tracks "default" r
    match track_adjective pr.1 with
    | some adj =>
      ("Cluster " ++ int_str (idx + 1) ++ (": " ++ adj ++ " Tracks"), pr.2)
    | none =>
      ("Cluster " ++ int_str (idx + 1) ++ (": Music Group " ++ int_str (idx + 1)),
       pr.2)
  else
    ("Cluster " ++ int_str (idx + 1) ++ (": Music Group " ++ int_str (idx + 1)), r)

/-- Artist/decade/audio fallback chain of `create_cluster_name`
(1025-1057). -/
def name_by_artist_or_rest (d : ArtistData) (ctx : ContextThemes) (idx : ℤ)
    (tracks : List TrackInfo) (acounts : List (String × ℕ)) (years : List ℚ)
    (r : Rng) : String × Rng :=
  match (most_common_all acounts).head? with
  | some ta =>
    if 1 < ta.2 ∧ (3/10 : ℚ) * (tracks.length : ℚ) < (ta.2 : ℚ) then
      ("Cluster " ++ int_str (idx + 1) ++ (": " ++ ta.1 ++ "'s Sound"), r)
    else name_by_year_or_audio d ctx idx tracks years r
  | none => name_by_year_or_audio d ctx idx tracks years r

/-- `EnhancedPlaylistAnalysis.create_cluster_name` (938-1057).  Takes and
returns the global random state because two branches synthesize an audio
profile. -/
def create_cluster_name (d : ArtistData) (ctx : ContextThemes) (idx : ℤ)
    (tracks : List TrackInfo) (r : Rng) : String × Rng :=
  if tracks.isEmpty then ("Cluster " ++ int_str (idx + 1), r)
  else
    let gcounts := enh_genre_counts d tracks
    let acounts := tracks.foldl (fun acc t =>
      if t.primary_artist == "" then acc
      else counter_add acc t.primary_artist) []
    let years := collect_years tracks
    if !gcounts.isEmpty then
      match (most_common5 gcounts).head? with
      | some tg =>
        let primary := py_title tg.1
        if most_common5 gcounts = [tg] ∨
            (7/10 : ℚ) * (tracks.length : ℚ) < (tg.2 : ℚ) then
          ("Cluster " ++ int_str (idx + 1) ++ (": " ++ primary), r)
        else
          match find_second_genre primary (most_common5 gcounts).tail with
          | some g =>
            ("Cluster " ++ int_str (idx + 1) ++ (": " ++ primary ++ " & " ++
              py_title g), r)
          | none =>
            let pr := enh_generate_audio_profile d ctx tracks "default" r
            match genre_adjective pr.1 with
            | some adj =>
              ("Cluster " ++ int_str (idx + 1) ++ (": " ++ adj ++ " " ++ primary),
               pr.2)
            | none =>
              ("Cluster " ++ int_str (idx + 1) ++ (": " ++ primary), pr.2)
      | none => name_by_artist_or_rest d ctx idx tracks acounts years r
    else name_by_artist_or_rest d ctx idx tracks acounts years r

/-! ### enhanced_clustering.create_unique_cluster_names (1307-1369) and
its differentiators (1371-1537) -/

/-- The `while name in used_names` freshness loop (suffix pattern
`f"{original} {counter}"`, counter starting at 2 on the first clash).
The search range `used.length + 2` always suffices: the candidate names
are pairwise distinct, so at most `used.length` of them can clash. -/
def fresh_suffixed (orig : String) (used : List String) : String :=
  if !(mem_str orig used) then orig
  else
    match (List.range (used.length + 2)).find?
        (fun k => !(mem_str (orig ++ " " ++ nat_str (k + 2)) used)) with
    | some k => orig ++ " " ++ nat_str (k + 2)
    | none => orig

/-- The final-fallback freshness loop of lines 1359-1364 (candidate names
`f"{base_name} Group {c}"`). -/
def fresh_group_name (base : String) (used : List String) (i : ℕ) : String :=
  let fb := base ++ " Group " ++ nat_str (i + 1)
  if !(mem_str fb used) then fb
  else
    match (List.range (used.length + 2)).find?
        (fun k => !(mem_str (base ++ " Group " ++ nat_str (k + 2)) used)) with
    | some k => base ++ " Group " ++ nat_str (k + 2)
    | none => fb

/-- Per-cluster average years for `_differentiate_by_era` (1377-1389). -/
def era_years (cs : List (ℤ × List TrackInfo)) : List (ℤ × ℚ) :=
  cs.filterMap (fun c =>
    let ys := collect_years c.2
    if ys.isEmpty then none else some (c.1, q_mean ys))

/-- Stable ascending insertion by average year (`sorted(..., key=x[1])`). -/
def era_sort_insert (x : ℤ × ℚ) : List (ℤ × ℚ) → List (ℤ × ℚ)
  | [] => [x]
  | y :: ys => if x.2 < y.2 then x :: y :: ys else y :: era_sort_insert x ys

def era_sort (l : List (ℤ × ℚ)) : List (ℤ × ℚ) :=
  l.foldr era_sort_insert []

/-- `_differentiate_by_era` (1371-1436), acting on the shared
final-names/used-names state. -/
def diff_by_era (cs : List (ℤ × List TrackInfo)) (base : String)
    (st : List (ℤ × String) × List String) :
    List (ℤ × String) × List String :=
  if cs.length ≤ 1 then st
  else
    let ys := era_sort (era_years cs)
    if ys.length ≤ 1 then st
    else if ys.length = 2 then
      let oldest := (ys.headD (0, 0)).1
      let newest := (ys.getD 1 (0, 0)).1
      let onm := base ++ " (Classic)"
      let nnm := base ++ " (Modern)"
      let st1 := if !(mem_str onm st.2)
        then (st.1 ++ [(oldest, onm)], st.2 ++ [onm]) else st
      if !(mem_str nnm st1.2)
        then (st1.1 ++ [(newest, nnm)], st1.2 ++ [nnm]) else st1
    else
      (List.range ys.length).foldl (fun st2 i =>
        let p := ys.getD i (0, 0)
        let decade := ((Rat.floor p.2).toNat / 10) * 10
        let dn := base ++ " (" ++ nat_str decade ++ "s)"
        let dn2 := if mem_str dn st2.2 then
            (if i = 0 then base ++ " (Early)"
             else if i = ys.length - 1 then base ++ " (Recent)"
             else base ++ " (Mid-Era)")
          else dn
        let final := fresh_suffixed dn2 st2.2
        (st2.1 ++ [(p.1, final)], st2.2 ++ [final])) st

/-- Stable descending insertion by cluster size (`sorted(..., key=len,
reverse=True)`). -/
def size_sort_insert (x : ℤ × List TrackInfo) :
    List (ℤ × List TrackInfo) → List (ℤ × List TrackInfo)
  | [] => [x]
  | y :: ys =>
    if y.2.length < x.2.length then x :: y :: ys else y :: size_sort_insert x ys

def size_sort (l : List (ℤ × List TrackInfo)) : List (ℤ × List TrackInfo) :=
  l.foldr size_sort_insert []

/-- `_differentiate_by_size` (1438-1480). -/
def diff_by_size (cs : List (ℤ × List TrackInfo)) (base : String)
    (st : List (ℤ × String) × List String) :
    List (ℤ × String) × List String :=
  if cs.length ≤ 1 then st
  else
    let sc := size_sort cs
    if sc.length = 2 then
      let largest := (sc.headD (0, [])).1
      let smallest := (sc.getD 1 (0, [])).1
      let mnm := base ++ " (Main)"
      let anm := base ++ " (Alternative)"
      let st1 := if !(mem_str mnm st.2)
        then (st.1 ++ [(largest, mnm)], st.2 ++ [mnm]) else st
      if !(mem_str anm st1.2)
        then (st1.1 ++ [(smallest, anm)], st1.2 ++ [anm]) else st1
    else
      (List.range sc.length).foldl (fun st2 i =>
        let p := sc.getD i (0, [])
        let nm0 := if i = 0 then base ++ " (Primary)"
          else if i = 1 then base ++ " (Secondary)"
          else base ++ " (" ++ nat_str p.2.length ++ " tracks)"
        let final := fresh_suffixed nm0 st2.2
        (st2.1 ++ [(p.1, final)], st2.2 ++ [final])) st

/-- Audio descriptor chain of `_differentiate_by_audio_profile`
(1499-1524). -/
def diff_audio_desc (p : AudioProfile) : String :=
  if 7/10 < p.energy then "Energetic"
  else if p.energy < 4/10 then "Calm"
  else if 6/10 < p.acousticness then "Acoustic"
  else if p.acousticness < 3/10 then "Electronic"
  else if 7/10 < p.valence then "Upbeat"
  else if p.valence < 3/10 then "Melancholic"
  else if 7/10 < p.danceability then "Danceable"
  else if 5/10 < p.instrumentalness then "Instrumental"
  else if 120 < p.tempo then "Uptempo"
  else "Downtempo"

/-- Whether a cluster key already has a final name. -/
def is_named (final : List (ℤ × String)) (i : ℤ) : Bool :=
  (final.find? (fun p => p.1 == i)).isSome

/-- `_differentiate_by_audio_profile` (1482-1537); threads the random
state through the per-cluster profile synthesis. -/
def diff_by_audio (d : ArtistData) (ctx : ContextThemes)
    (cs : List (ℤ × List TrackInfo)) (base : String)
    (st : (List (ℤ × String) × List String) × Rng) :
    (List (ℤ × String) × List String) × Rng :=
  if cs.length ≤ 1 then st
  else cs.foldl (fun st2 c =>
    if is_named st2.1.1 c.1 then st2
    else
      let pr := enh_generate_audio_profile d ctx c.2 "default" st2.2
      let nm := base ++ " (" ++ diff_audio_desc pr.1 ++ ")"
      let final := fresh_suffixed nm st2.1.2
      ((st2.1.1 ++ [(c.1, final)], st2.1.2 ++ [final]), pr.2)) st

/-- `clusters[idx]` on the label→tracks dict. -/
def clusters_get (clusters : List (ℤ × List TrackInfo)) (i : ℤ) :
    List TrackInfo :=
  match clusters.find? (fun c => c.1 == i) with
  | some c => c.2
  | none => []

/-- One `name_groups` entry update (dict-of-lists insertion). -/
def group_insert (groups : List (String × List ℤ)) (nm : String) (idx : ℤ) :
    List (String × List ℤ) :=
  match groups with
  | [] => [(nm, [idx])]
  | g :: tl =>
    if g.1 == nm then (g.1, g.2 ++ [idx]) :: tl
    else g :: group_insert tl nm idx

/-- Grouping of cluster keys by base name (lines 1325-1329), in
insertion order. -/
def name_groups (bn : List (ℤ × String)) : List (String × List ℤ) :=
  bn.foldl (fun acc p => group_insert acc p.2 p.1) []

/-- The body of the per-group loop of `create_unique_cluster_names`
(1332-1367). -/
def process_group (d : ArtistData) (ctx : ContextThemes)
    (clusters : List (ℤ × List TrackInfo))
    (st : (List (ℤ × String) × List String) × Rng) (g : String × List ℤ) :
    (List (ℤ × String) × List String) × Rng :=
  match g.2 with
  | [idx] => ((st.1.1 ++ [(idx, g.1)], st.1.2 ++ [g.1]), st.2)
  | indices =>
    let ctn := indices.map (fun i => (i, clusters_get clusters i))
    let st1 := (diff_by_era ctn g.1 st.1, st.2)
    let rem1 := indices.filter (fun i => !(is_named st1.1.1 i))
    let st2 := if !rem1.isEmpty then
        (diff_by_size (rem1.map (fun i => (i, clusters_get clusters i))) g.1 st1.1,
         st1.2)
      else st1
    let rem2 := indices.filter (fun i => !(is_named st2.1.1 i))
    let st3 := if !rem2.isEmpty then
        diff_by_audio d ctx (rem2.map (fun i => (i, clusters_get clusters i)))
          g.1 st2
      else st2
    let rem3 := indices.filter (fun i => !(is_named st3.1.1 i))
    ((List.range rem3.length).foldl (fun st4 i =>
        let idx := rem3.getD i 0
        let final := fresh_group_name g.1 st4.2 i
        (st4.1 ++ [(idx, final)], st4.2 ++ [final])) st3.1,
     st3.2)

/-- Base names for every cluster key (lines 1316-1318), threading the
random state. -/
def base_names_list (d : ArtistData) (ctx : ContextThemes)
    (clusters : List (ℤ × List TrackInfo)) (r : Rng) :
    List (ℤ × String) × Rng :=
  clusters.foldl (fun st c =>
    let nm := create_cluster_name d ctx c.1 c.2 st.2
    (st.1 ++ [(c.1, nm.1)], nm.2)) ([], r)

/-- `EnhancedPlaylistAnalysis.create_unique_cluster_names` (1307-1369):
the final key→name assignment. -/
def create_unique_cluster_names (d : ArtistData) (ctx : ContextThemes)
    (clusters : List (ℤ × List TrackInfo)) (r : Rng) :
    List (ℤ × String) × Rng :=
  let bn := base_names_list d ctx clusters r
  let res := (name_groups bn.1).foldl (process_group d ctx clusters)
    (([], []), bn.2)
  (res.1.1, res.2)

/-! ### C5: shape and uniqueness of the final names -/

/-- Shape of every `create_cluster_name` result: the fixed prefix
`"Cluster {idx+1}"` followed by an empty tail or a tail starting with
`':'`. -/
def name_shape (k : ℤ) (s : String) : Prop :=
  ∃ rest, s = "Cluster " ++ int_str (k + 1) ++ rest ∧
    (rest = "" ∨ rest.data.head? = some ':')

theorem name_by_year_or_audio_shape (d : ArtistData) (ctx : ContextThemes)
    (idx : ℤ) (tracks : List TrackInfo) (years : List ℚ) (r : Rng) :
    name_shape idx (name_by_year_or_audio d ctx idx tracks years r).1 := by
  unfold name_by_year_or_audio
  split_ifs
  · exact ⟨_, rfl, Or.inr rfl⟩
  · dsimp only
    cases track_adjective (enh_generate_audio_profile d ctx tracks
        "default" r).1 with
    | none => exact ⟨_, rfl, Or.inr rfl⟩
    | some adj => exact ⟨_, rfl, Or.inr rfl⟩
  · exact ⟨_, rfl, Or.inr rfl⟩

theorem name_by_artist_or_rest_shape (d : ArtistData) (ctx : ContextThemes)
    (idx : ℤ) (tracks : List TrackInfo) (acounts : List (String × ℕ))
    (years : List ℚ) (r : Rng) :
    name_shape idx (name_by_artist_or_rest d ctx idx tracks acounts years r).1 := by
  unfold name_by_artist_or_rest
  cases (most_common_all acounts).head? with
  | none => exact name_by_year_or_audio_shape d ctx idx tracks years r
  | some ta =>
    dsimp only
    split_ifs
    · exact ⟨_, rfl, Or.inr rfl⟩
    · exact name_by_year_or_audio_shape d ctx idx tracks years r

theorem create_cluster_name_shape (d : ArtistData) (ctx : ContextThemes)
    (idx : ℤ) (tracks : List TrackInfo) (r : Rng) :
    name_shape idx (create_cluster_name d ctx idx tracks r).1 := by
  unfold create_cluster_name
  by_cases h1 : tracks.isEmpty
  · rw [if_pos h1]
    exact ⟨"", by simp, Or.inl rfl⟩
  · rw [if_neg h1]
    dsimp only
    by_cases h2 : (!(enh_genre_counts d tracks).isEmpty) = true
    · rw [if_pos h2]
      cases (most_common5 (enh_genre_counts d tracks)).head? with
      | none => exact name_by_artist_or_rest_shape d ctx idx tracks _ _ r
      | some tg =>
        dsimp only
        split_ifs
        · exact ⟨_, rfl, Or.inr rfl⟩
        · cases find_second_genre (py_title tg.1)
              (most_common5 (enh_genre_counts d tracks)).tail with
          | some g => exact ⟨_, rfl, Or.inr rfl⟩
          | none =>
            cases genre_adjective (enh_generate_audio_profile d ctx tracks
                "default" r).1 with
            | some adj => exact ⟨_, rfl, Or.inr rfl⟩
            | none => exact ⟨_, rfl, Or.inr rfl⟩
    · rw [if_neg h2]
      exact name_by_artist_or_rest_shape d ctx idx tracks _ _ r

theorem str_data_append (a b : String) : (a ++ b).data = a.data ++ b.data := rfl

theorem nat_chars_ne_nil (n : ℕ) : nat_chars n ≠ [] := by
  unfold nat_chars
  by_cases h : n = 0
  · rw [if_pos h]; simp
  · rw [if_neg h]
    cases n with
    | zero => omega
    | succ m =>
      show nat_chars_aux (m + 1) (m + 1) ≠ []
      unfold nat_chars_aux
      rw [if_neg h]
      simp

/-- Cancellation for signed decimal blocks followed by non-digit,
non-minus tails. -/
theorem int_chars_cancel {i j : ℤ} {r1 r2 : List Char}
    (hr1 : ∀ c, r1.head? = some c → ¬ c.isDigit ∧ ¬ c = '-')
    (hr2 : ∀ c, r2.head? = some c → ¬ c.isDigit ∧ ¬ c = '-')
    (h : int_chars i ++ r1 = int_chars j ++ r2) : i = j := by
  unfold int_chars at h
  by_cases hi : i < 0 <;> by_cases hj : j < 0
  · rw [if_pos hi, if_pos hj] at h
    simp only [List.cons_append, List.cons.injEq] at h
    have hcancel := digits_prefix_cancel (nat_chars_digits (-i).toNat)
      (nat_chars_digits (-j).toNat)
      (fun c hc => (hr1 c hc).1) (fun c hc => (hr2 c hc).1) h.2
    have := nat_chars_inj hcancel.1
    omega
  · rw [if_pos hi, if_neg hj] at h
    exfalso
    obtain ⟨c, cs, hcs⟩ : ∃ c cs, nat_chars j.toNat = c :: cs := by
      cases hnc : nat_chars j.toNat with
      | nil => exact absurd hnc (nat_chars_ne_nil _)
      | cons c cs => exact ⟨c, cs, rfl⟩
    rw [hcs] at h
    simp only [List.cons_append, List.cons.injEq] at h
    have hdig : c.isDigit := nat_chars_digits j.toNat c (by rw [hcs]; simp)
    rw [← h.1] at hdig
    exact absurd hdig (by decide)
  · rw [if_neg hi, if_pos hj] at h
    exfalso
    obtain ⟨c, cs, hcs⟩ : ∃ c cs, nat_chars i.toNat = c :: cs := by
      cases hnc : nat_chars i.toNat with
      | nil => exact absurd hnc (nat_chars_ne_nil _)
      | cons c cs => exact ⟨c, cs, rfl⟩
    rw [hcs] at h
    simp only [List.cons_append, List.cons.injEq] at h
    have hdig : c.isDigit := nat_chars_digits i.toNat c (by rw [hcs]; simp)
    rw [h.1] at hdig
    exact absurd hdig (by decide)
  · rw [if_neg hi, if_neg hj] at h
    have hcancel := digits_prefix_cancel (nat_chars_digits i.toNat)
      (nat_chars_digits j.toNat)
      (fun c hc => (hr1 c hc).1) (fun c hc => (hr2 c hc).1) h
    have := nat_chars_inj hcancel.1
    omega

/-- Two shaped names are equal only if their cluster indices are equal. -/
theorem name_shape_inj {i j : ℤ} {s : String}
    (hi : name_shape i s) (hj : name_shape j s) : i = j := by
  obtain ⟨r1, he1, hh1⟩ := hi
  obtain ⟨r2, he2, hh2⟩ := hj
  have hd : ("Cluster ").data ++ (int_chars (i + 1) ++ r1.data)
      = ("Cluster ").data ++ (int_chars (j + 1) ++ r2.data) := by
    have := congrArg String.data (he1.symm.trans he2)
    simpa [str_data_append, int_str, List.append_assoc] using this
  have hd2 : int_chars (i + 1) ++ r1.data = int_chars (j + 1) ++ r2.data :=
    List.append_cancel_left hd
  have htail : ∀ (r : String), (r = "" ∨ r.data.head? = some ':') →
      ∀ c, r.data.head? = some c → ¬ c.isDigit ∧ ¬ c = '-' := by
    intro r hr c hc
    rcases hr with he | hh
    · rw [he] at hc
      simp at hc
    · rw [hh] at hc
      have hce : c = ':' := by injection hc with h0; exact h0.symm
      subst hce
      exact ⟨by decide, by decide⟩
  have := int_chars_cancel (htail r1 hh1) (htail r2 hh2) hd2
  omega

/-- Spec of the base-name fold: keys in order, every name shaped. -/
theorem base_names_fold_spec (d : ArtistData) (ctx : ContextThemes) :
    ∀ (clusters : List (ℤ × List TrackInfo)) (acc : List (ℤ × String)) (r : Rng),
    ∃ tl, (clusters.foldl (fun st c =>
        let nm := create_cluster_name d ctx c.1 c.2 st.2
        (st.1 ++ [(c.1, nm.1)], nm.2)) (acc, r)).1 = acc ++ tl ∧
      tl.map Prod.fst = clusters.map Prod.fst ∧
      ∀ p ∈ tl, name_shape p.1 p.2 := by
  intro clusters
  induction clusters with
  | nil => intro acc r; exact ⟨[], by simp, by simp, by simp⟩
  | cons c cs ih =>
    intro acc r
    simp only [List.foldl_cons]
    obtain ⟨tl, h1, h2, h3⟩ := ih (acc ++ [(c.1, (create_cluster_name d ctx c.1 c.2 r).1)])
      (create_cluster_name d ctx c.1 c.2 r).2
    refine ⟨(c.1, (create_cluster_name d ctx c.1 c.2 r).1) :: tl, ?_, ?_, ?_⟩
    · rw [h1, List.append_assoc]
      rfl
    · simp only [List.map_cons, h2]
    · intro p hp
      rcases List.mem_cons.mp hp with hp1 | hp2
      · subst hp1
        exact create_cluster_name_shape d ctx c.1 c.2 r
      · exact h3 p hp2

theorem base_names_list_spec (d : ArtistData) (ctx : ContextThemes)
    (clusters : List (ℤ × List TrackInfo)) (r : Rng) :
    (base_names_list d ctx clusters r).1.map Prod.fst
      = clusters.map Prod.fst ∧
    ∀ p ∈ (base_names_list d ctx clusters r).1, name_shape p.1 p.2 := by
  obtain ⟨tl, h1, h2, h3⟩ := base_names_fold_spec d ctx clusters [] r
  unfold base_names_list
  rw [h1]
  refine ⟨by simpa using h2, ?_⟩
  intro p hp
  exact h3 p (by simpa using hp)

/-- With distinct keys the base names are pairwise distinct. -/
theorem base_names_nodup (d : ArtistData) (ctx : ContextThemes)
    (clusters : List (ℤ × List TrackInfo)) (r : Rng)
    (hnd : (clusters.map Prod.fst).Nodup) :
    ((base_names_list d ctx clusters r).1.map Prod.snd).Nodup := by
  obtain ⟨hkeys, hshape⟩ := base_names_list_spec d ctx clusters r
  have hknd : ((base_names_list d ctx clusters r).1.map Prod.fst).Nodup := by
    rw [hkeys]; exact hnd
  rw [List.Nodup, List.pairwise_map] at hknd ⊢
  refine hknd.imp_of_mem ?_
  intro a b ha hb hne heq
  exact hne (name_shape_inj (heq ▸ hshape a ha) (hshape b hb) ▸ rfl)

theorem group_insert_fresh {acc : List (String × List ℤ)} {nm : String}
    {idx : ℤ} (h : ∀ g ∈ acc, g.1 ≠ nm) :
    group_insert acc nm idx = acc ++ [(nm, [idx])] := by
  induction acc with
  | nil => rfl
  | cons g tl ih =>
    unfold group_insert
    have hg : ¬ (g.1 == nm) = true := by
      simp only [beq_iff_eq]
      exact h g (List.mem_cons_self _ _)
    rw [if_neg hg]
    rw [ih (fun g hg2 => h g (List.mem_cons_of_mem _ hg2))]
    rfl

/-- With pairwise-distinct names, name grouping yields one singleton
group per entry, in order. -/
theorem name_groups_singletons :
    ∀ (bn : List (ℤ × String)) (acc : List (String × List ℤ)),
    (bn.map Prod.snd).Nodup →
    (∀ g ∈ acc, ∀ p ∈ bn, g.1 ≠ p.2) →
    bn.foldl (fun a p => group_insert a p.2 p.1) acc
      = acc ++ bn.map (fun p => (p.2, [p.1])) := by
  intro bn
  induction bn with
  | nil => intro acc _ _; simp
  | cons p ps ih =>
    intro acc hnd hfresh
    simp only [List.foldl_cons]
    rw [group_insert_fresh (fun g hg => hfresh g hg p (List.mem_cons_self _ _))]
    simp only [List.map_cons] at hnd
    rw [List.nodup_cons] at hnd
    rw [ih (acc ++ [(p.2, [p.1])]) hnd.2 ?_]
    · rw [List.append_assoc]
      rfl
    · intro g hg q hq
      rcases List.mem_append.mp hg with hg1 | hg2
      · exact hfresh g hg1 q (List.mem_cons_of_mem _ hq)
      · have hge : g = (p.2, [p.1]) := by simpa using hg2
        subst hge
        intro he
        apply hnd.1
        have hpq : p.2 = q.2 := he
        rw [hpq]
        exact List.mem_map_of_mem Prod.snd hq

/-- Folding `process_group` over singleton groups just copies them into
the final assignment. -/
theorem process_singletons (d : ArtistData) (ctx : ContextThemes)
    (clusters : List (ℤ × List TrackInfo)) :
    ∀ (gs : List (String × List ℤ))
      (st : (List (ℤ × String) × List String) × Rng),
    (∀ g ∈ gs, ∃ k, g.2 = [k]) →
    gs.foldl (process_group d ctx clusters) st
      = ((st.1.1 ++ gs.map (fun g => (g.2.headD 0, g.1)),
          st.1.2 ++ gs.map Prod.fst), st.2) := by
  intro gs
  induction gs with
  | nil => intro st _; simp
  | cons g tl ih =>
    intro st hs
    obtain ⟨k, hk⟩ := hs g (List.mem_cons_self _ _)
    simp only [List.foldl_cons]
    have hstep : process_group d ctx clusters st g
        = ((st.1.1 ++ [(k, g.1)], st.1.2 ++ [g.1]), st.2) := by
      unfold process_group
      rw [hk]
    rw [hstep, ih _ (fun g hg => hs g (List.mem_cons_of_mem _ hg))]
    simp only [List.map_cons, hk]
    rw [List.append_assoc, List.append_assoc]
    rfl

/-- C5: with pairwise-distinct cluster keys, `create_unique_cluster_names`
assigns every cluster key a name (in key order) and no two clusters
receive the same name. -/
theorem c5_unique_final_names (d : ArtistData) (ctx : ContextThemes)
    (clusters : List (ℤ × List TrackInfo)) (r : Rng)
    (hnd : (clusters.map Prod.fst).Nodup) :
    ((create_unique_cluster_names d ctx clusters r).1.map Prod.fst
        = clusters.map Prod.fst) ∧
    ((create_unique_cluster_names d ctx clusters r).1.map Prod.snd).Nodup := by
  obtain ⟨hkeys, hshape⟩ := base_names_list_spec d ctx clusters r
  have hnames := base_names_nodup d ctx clusters r hnd
  simp only [create_unique_cluster_names, name_groups]
  rw [name_groups_singletons (base_names_list d ctx clusters r).1 [] hnames
    (by simp)]
  rw [List.nil_append]
  rw [process_singletons d ctx clusters _ (([], []), _) ?_]
  · simp only [List.map_map]
    constructor
    · dsimp only
      rw [show ((fun g : String × List ℤ => (g.2.headD 0, g.1)) ∘
          (fun p : ℤ × String => (p.2, [p.1])))
            = (fun p : ℤ × String => (p.1, p.2)) from rfl]
      simp only [List.nil_append]
      rw [show (fun p : ℤ × String => (p.1, p.2)) = id from by
        funext p; rfl]
      rw [List.map_id]
      exact hkeys
    · dsimp only
      simp only [List.nil_append]
      rw [show ((fun g : String × List ℤ => (g.2.headD 0, g.1)) ∘
          (fun p : ℤ × String => (p.2, [p.1])))
            = (fun p : ℤ × String => (p.1, p.2)) from rfl]
      rw [List.map_map]
      rw [show (Prod.snd ∘ fun p : ℤ × String => (p.1, p.2))
            = (Prod.snd : ℤ × String → String) from rfl]
      exact hnames
  · intro g hg
    obtain ⟨p, _, hp⟩ := List.mem_map.mp hg
    exact ⟨p.1, by rw [← hp]⟩

/-! ### Raw Spotify item model and the enhanced feature builder (96-243) -/

structure RawArtistRef where
  name : String
  id : String
deriving DecidableEq

structure RawAlbum where
  name : Option String
  release_date : Option String
  images : List (Option String)
  total_tracks : ℕ
deriving DecidableEq

structure RawTrack where
  id : String
  name : String
  artists : List RawArtistRef
  album : Option RawAlbum
  popularity : Option ℚ
  explicit : Bool
  track_number : ℕ
  duration_ms : ℚ
deriving DecidableEq

structure RawItem where
  track : Option RawTrack
  added_at : Option String
deriving DecidableEq

/-- `track.get('album', {}).get('release_date', '')`. -/
def raw_release_date (t : RawTrack) : String :=
  match t.album with
  | some a => match a.release_date with
    | some rd => rd
    | none => ""
  | none => ""

/-- The `track_info` dict of the enhanced builder (126-139); the enhanced
dict has no `duration_ms` key, so that field is fixed at 0 (no enhanced
code reads it). -/
def enh_track_info (item : RawItem) (t : RawTrack) : TrackInfo :=
  { id := t.id
    name := t.name
    artists := t.artists.map (fun a => a.name)
    primary_artist := match t.artists.head? with
      | some a => a.name
      | none => "Unknown"
    artist_id := match t.artists.head? with
      | some a => some a.id
      | none => none
    album := match t.album with
      | some a => match a.name with
        | some n => n
        | none => "Unknown"
      | none => "Unknown"
    popularity := match t.popularity with
      | some p => p
      | none => 50
    added_at := item.added_at
    release_date := raw_release_date t
    image_url := match t.album with
      | some a => if a.images.isEmpty then none else (a.images.headD none)
      | none => none
    explicit := t.explicit
    duration_ms := 0 }

/-- The per-genre-family counting loop shared by both builders
(enhanced 195-212, advanced 263-280). -/
def genre_family_counts (genres : List String) : List ℕ :=
  genres.foldl (fun acc g =>
    let gl := py_lower g
    [acc.getD 0 0 + (if str_in gl "rock" then 1 else 0),
     acc.getD 1 0 + (if str_in gl "pop" then 1 else 0),
     acc.getD 2 0 + (if any_in gl ["electronic", "techno", "house", "edm"] then 1 else 0),
     acc.getD 3 0 + (if any_in gl ["hip hop", "rap", "trap"] then 1 else 0),
     acc.getD 4 0 + (if str_in gl "jazz" then 1 else 0),
     acc.getD 5 0 + (if any_in gl ["classical", "orchestra", "piano"] then 1 else 0),
     acc.getD 6 0 + (if any_in gl ["folk", "indie", "acoustic"] then 1 else 0),
     acc.getD 7 0 + (if str_in gl "country" then 1 else 0)])
    [0, 0, 0, 0, 0, 0, 0, 0]

/-- One feature vector of the enhanced builder (144-231).  `daysAgo`
models `(datetime.utcnow() - parsed(added_at)).days` and is `none` when
the date parse throws. -/
def enh_feature_vector (d : ArtistData) (daysAgo : String → Option ℚ)
    (item : RawItem) (t : RawTrack) : List ℚ :=
  let popularity : ℚ := (match t.popularity with
    | some p => p
    | none => 50) / 100
  let year_value : ℚ := match parse_year (raw_release_date t) with
    | some y => pymin 1 (pymax 0 ((y - 1950) / 70))
    | none => 1/2
  let explicit_value : ℚ := if t.explicit then 1 else 0
  let position_value : ℚ := match t.album with
    | some a =>
      if t.track_number ≠ 0 ∧ 0 < a.total_tracks then
        pymin 1 (pymax 0 ((t.track_number : ℚ) / (a.total_tracks : ℚ)))
      else 1/2
    | none => 1/2
  let aid := match t.artists.head? with
    | some a => a.id
    | none => ""
  let artist_popularity : ℚ := if aid == "" then 1/2
    else match artist_lookup d aid with
      | some a => (match a.popularity with
        | some p => p
        | none => 50) / 100
      | none => 1/2
  let gcounts : List ℕ := if aid == "" then [0, 0, 0, 0, 0, 0, 0, 0]
    else match artist_lookup d aid with
      | some a => genre_family_counts a.genres
      | none => [0, 0, 0, 0, 0, 0, 0, 0]
  let added_value : ℚ := match item.added_at with
    | some s => match daysAgo s with
      | some days => pymin 1 (pymax 0 (1 - days / 180))
      | none => 1/2
    | none => 1/2
  ([popularity, year_value, explicit_value, position_value, artist_popularity]
    : List ℚ) ++ gcounts.map (fun c => pymin 1 ((c : ℚ) / 3)) ++ [added_value]

/-- `EnhancedPlaylistAnalysis.create_enhanced_feature_vectors` (96-243):
validity filter, per-track vectors, and the two `ValueError` raises. -/
def enh_create_feature_vectors (d : ArtistData) (daysAgo : String → Option ℚ)
    (raw : List RawItem) :
    Except String (List (List ℚ) × List TrackInfo × List TrackInfo) :=
  if raw.isEmpty then Except.error "No tracks available for analysis"
  else
    let valid := raw.filterMap (fun item =>
      match item.track with
      | none => none
      | some t =>
        if t.id == "" || t.artists.isEmpty || t.name == "" then none
        else some (item, t))
    let vectors := valid.map (fun p => enh_feature_vector d daysAgo p.1 p.2)
    let processed := valid.map (fun p => enh_track_info p.1 p.2)
    if vectors.isEmpty then Except.error "No valid tracks for feature extraction"
    else Except.ok (vectors, processed, processed)

/-! ### Simplified analysis and the enhanced analyze dispatcher
(1060-1188, 1539-1645) -/

/-- Python `round` (banker's rounding) to the nearest integer. -/
def py_round0 (q : ℚ) : ℤ :=
  let f := ⌊q⌋
  let r := q - (f : ℚ)
  if r < 1/2 then f
  else if 1/2 < r then f + 1
  else if f % 2 = 0 then f else f + 1

/-- `round(x, 1)`. -/
def py_round1 (q : ℚ) : ℚ := ((py_round0 (q * 10) : ℤ) : ℚ) / 10

/-- `_get_year_span` (1190-1207): earliest, latest and span. -/
def get_year_span (tracks : List TrackInfo) : Option (ℚ × ℚ × ℚ) :=
  let years := collect_years tracks
  if years.isEmpty then none
  else some (q_min_list years, q_max_list years,
    q_max_list years - q_min_list years)

/-- One output cluster record. -/
structure ClusterOut where
  cid : ℕ
  name : String
  count : ℕ
  percentage : ℚ
  tracks : List TrackInfo
  total_tracks : ℕ
  audio_profile : AudioProfile
deriving DecidableEq

/-- The analysis result dict; `Option` fields model keys some code paths
leave out. -/
structure EnhResult where
  clusters : List ClusterOut
  total_tracks : ℕ
  analyzed_tracks : ℕ
  optimal_clusters : ℕ
  silhouette : Option ℚ
  method : String
  context_themes : Option ContextThemes
  year_span : Option (ℚ × ℚ × ℚ)
deriving DecidableEq

/-- `(track, year)` pairs of the 4+-track split (1573-1582). -/
def date_pair (t : TrackInfo) : TrackInfo × ℚ :=
  match parse_year t.release_date with
  | some y => (t, y)
  | none => (t, 0)

/-- Stable descending insertion by year (`sort(key=x[1], reverse=True)`). -/
def date_sort_insert (x : TrackInfo × ℚ) :
    List (TrackInfo × ℚ) → List (TrackInfo × ℚ)
  | [] => [x]
  | y :: ys => if y.2 < x.2 then x :: y :: ys else y :: date_sort_insert x ys

def date_sort (l : List (TrackInfo × ℚ)) : List (TrackInfo × ℚ) :=
  l.foldl (fun acc x => date_sort_insert x acc) []

/-- `_create_simplified_analysis` (1539-1645). -/
def create_simplified_analysis (d : ArtistData) (ctx : ContextThemes)
    (processed : List TrackInfo) (r : Rng) : EnhResult × Rng :=
  if processed.length = 0 then
    ({ clusters := [], total_tracks := 0, analyzed_tracks := 0,
       optimal_clusters := 0, silhouette := none, method := "minimal-analysis",
       context_themes := none, year_span := none }, r)
  else if processed.length ≤ 3 then
    let pr := enh_generate_audio_profile d ctx processed "default" r
    let cl : ClusterOut :=
      { cid := 1, name := "All Tracks",
        count := processed.length, percentage := 100, tracks := processed,
        total_tracks := processed.length, audio_profile := pr.1 }
    ({ clusters := [cl], total_tracks := processed.length,
       analyzed_tracks := processed.length, optimal_clusters := 1,
       silhouette := some (1/2), method := "simplified-analysis",
       context_themes := some ctx, year_span := get_year_span processed }, pr.2)
  else
    let twd := processed.map date_pair
    if twd.any (fun p => 0 < p.2) then
      let sorted := date_sort twd
      let mid := sorted.length / 2
      let recent := (sorted.take mid).map Prod.fst
      let older := (sorted.drop mid).map Prod.fst
      let pr1 := enh_generate_audio_profile d ctx recent "default" r
      let pr2 := enh_generate_audio_profile d ctx older "default" pr1.2
      let c1 : ClusterOut :=
        { cid := 1, name := "Recent Tracks",
          count := recent.length,
          percentage := py_round1 ((recent.length : ℚ) / (processed.length : ℚ) * 100),
          tracks := recent, total_tracks := recent.length,
          audio_profile := pr1.1 }
      let c2 : ClusterOut :=
        { cid := 2, name := "Older Tracks",
          count := older.length,
          percentage := py_round1 ((older.length : ℚ) / (processed.length : ℚ) * 100),
          tracks := older, total_tracks := older.length,
          audio_profile := pr2.1 }
      ({ clusters := [c1, c2], total_tracks := processed.length,
         analyzed_tracks := processed.length, optimal_clusters := 2,
         silhouette := some (1/2), method := "simplified-analysis",
         context_themes := some ctx, year_span := get_year_span processed },
       pr2.2)
    else
      let pr := enh_generate_audio_profile d ctx processed "default" r
      let cl : ClusterOut :=
        { cid := 1, name := "All Tracks",
          count := processed.length, percentage := 100, tracks := processed,
          total_tracks := processed.length, audio_profile := pr.1 }
      ({ clusters := [cl], total_tracks := processed.length,
         analyzed_tracks := processed.length, optimal_clusters := 1,
         silhouette := some (1/2), method := "simplified-analysis",
         context_themes := some ctx, year_span := get_year_span processed },
       pr.2)
/-- `np.unique(labels, return_counts=True)`: counts in sorted-unique
order. -/
def unique_counts (labels : List ℤ) : List ℕ :=
  (np_unique labels).map (fun v => labels.count v)

/-- Label→tracks dict of the per-cluster grouping loop (1122-1126), in
first-occurrence order of the labels. -/
def group_by_label (labels : List ℤ) (processed : List TrackInfo) :
    List (ℤ × List TrackInfo) :=
  (labels.zip processed).foldl (fun acc p =>
    match acc.find? (fun c => c.1 == p.1) with
    | some _ => acc.map (fun c => if c.1 == p.1 then (c.1, c.2 ++ [p.2]) else c)
    | none => acc ++ [(p.1, [p.2])]) []

/-- `ns.get(label, dflt)` on the final name assignment. -/
def names_get (ns : List (ℤ × String)) (label : ℤ) (dflt : String) : String :=
  match ns.find? (fun p => p.1 == label) with
  | some p => p.2
  | none => dflt

/-- Stable descending insertion by popularity
(`sorted(tracks, key=popularity, reverse=True)`). -/
def pop_sort_insert (x : TrackInfo) : List TrackInfo → List TrackInfo
  | [] => [x]
  | y :: ys =>
    if y.popularity < x.popularity then x :: y :: ys else y :: pop_sort_insert x ys

def pop_sort (l : List TrackInfo) : List TrackInfo :=
  l.foldl (fun acc x => pop_sort_insert x acc) []

/-- `EnhancedPlaylistAnalysis.analyze_playlist` (1060-1188).

Oracles as in `enh_perform_clustering` and
`guaranteed_balanced_clustering`; `optimal_clusters` is the attribute
value at call time (the constructor sets 4, so the size-based table at
1080-1092 is dead unless the caller zeroed it — the `if not
self.optimal_clusters` test is reproduced).  A `none` from the balanced
clusterer propagates as the `TypeError` its `None` produces at the
`enumerate` of line 1123.  The per-cluster genre-distribution insight
loop (1174-1186) writes only the `additional_insights` dict and is not
modelled. -/
def enh_analyze_playlist (d : ArtistData) (raw : List RawItem)
    (playlist_name playlist_description : String)
    (daysAgo : String → Option ℚ)
    (kmeansRes aggRes dbscanRes : Option (List ℤ)) (sil : List ℤ → ℚ)
    (pc_fallback : List ℤ) (kmeans_oracle : ℕ → ℕ → List ℕ)
    (cdist : ℕ → ℕ → ℚ) (optimal_clusters max_clusters : ℕ) (r : Rng) :
    Except String (EnhResult × Rng) :=
  match enh_create_feature_vectors d daysAgo raw with
  | Except.error e => Except.error e
  | Except.ok res =>
    let processed := res.2.1
    let ctx := enh_extract_playlist_context playlist_name playlist_description
    if processed.length < 4 then
      Except.ok (create_simplified_analysis d ctx processed r)
    else
      let oc := if optimal_clusters = 0 then
          (if processed.length < 15 then
             (if 1 < processed.length then Nat.min 2 (processed.length - 1)
              else 1)
           else if processed.length < 30 then 3
           else if processed.length < 60 then 4
           else if processed.length < 100 then 5
           else Nat.min 6 max_clusters)
        else optimal_clusters
      let n_clusters := Nat.min oc processed.length
      let labels0 := enh_perform_clustering kmeansRes aggRes dbscanRes sil
        pc_fallback
      let maxc := (unique_counts labels0).foldl Nat.max 0
      let labelsOpt := if (2 : ℚ) / 5 < (maxc : ℚ) / (labels0.length : ℚ) then
          guaranteed_balanced_clustering kmeans_oracle cdist processed.length
            n_clusters
        else some labels0
      match labelsOpt with
      | none => Except.error "TypeError: argument of type NoneType is not iterable"
      | some labels =>
        let clusters := group_by_label labels processed
        let ucn := create_unique_cluster_names d ctx clusters r
        let built := clusters.enum.foldl
          (fun (st : List ClusterOut × Rng) p =>
            let pr := enh_generate_audio_profile d ctx p.2.2 "default" st.2
            let cl : ClusterOut :=
              { cid := p.1 + 1,
                name := names_get ucn.1 p.2.1 ("Cluster " ++ nat_str (p.1 + 1)),
                count := p.2.2.length,
                percentage := py_round1
                  ((p.2.2.length : ℚ) / (processed.length : ℚ) * 100),
                tracks := (pop_sort p.2.2).take 10,
                total_tracks := p.2.2.length,
                audio_profile := pr.1 }
            (st.1 ++ [cl], pr.2)) ([], ucn.2)
        Except.ok
          ({ clusters := built.1, total_tracks := processed.length,
             analyzed_tracks := processed.length,
             optimal_clusters := clusters.length,
             silhouette := some (1/2),
             method := "enhanced-balanced-clustering",
             context_themes := some ctx,
             year_span := get_year_span processed }, built.2)

/-! ### C7: three valid tracks, no dates, no genres -/


/-- The single-cluster record of the 3-track outcome. -/
def c7_cluster (processed : List TrackInfo) (p : AudioProfile) : ClusterOut :=
  { cid := 1, name := "All Tracks", count := 3, percentage := 100,
    tracks := processed, total_tracks := 3, audio_profile := p }

/-- The full result record of the 3-track outcome. -/
def c7_result (ctx : ContextThemes) (processed : List TrackInfo)
    (p : AudioProfile) : EnhResult :=
  { clusters := [c7_cluster processed p], total_tracks := 3,
    analyzed_tracks := 3, optimal_clusters := 1, silhouette := some (1/2),
    method := "simplified-analysis", context_themes := some ctx,
    year_span := none }

theorem create_simplified_analysis_three (d : ArtistData)
    (ctx : ContextThemes) (processed : List TrackInfo) (r : Rng)
    (h3 : processed.length = 3)
    (hyears : ∀ t ∈ processed, parse_year t.release_date = none) :
    create_simplified_analysis d ctx processed r
      = (c7_result ctx processed
           (enh_generate_audio_profile d ctx processed "default" r).1,
         (enh_generate_audio_profile d ctx processed "default" r).2) := by
  unfold create_simplified_analysis
  rw [if_neg (by omega), if_pos (by omega)]
  have hy : collect_years processed = [] := by
    unfold collect_years
    exact List.filterMap_eq_nil_iff.mpr hyears
  have hspan : get_year_span processed = none := by
    unfold get_year_span
    rw [hy]
    rfl
  rw [hspan, h3]
  rfl

/-- With no genre data and no parseable years, the synthesized profile is
derived from the default base template by the popularity, explicit,
context and variation stages only (no genre and no era adjustment, and no
random draw before the variation stage). -/
theorem enh_profile_default_derived (d : ArtistData) (ctx : ContextThemes)
    (processed : List TrackInfo) (r : Rng)
    (hne : processed ≠ [])
    (hyears : ∀ t ∈ processed, parse_year t.release_date = none)
    (hgen : enh_genre_counts d processed = []) :
    enh_generate_audio_profile d ctx processed "default" r
      = enh_add_profile_variations
          (enh_adjust_profile_by_context
            (enh_adjust_by_explicit
              (enh_adjust_by_popularity (enh_get_base_audio_profile "default")
                (processed.map (fun t => t.popularity)))
              ((processed.filter (fun t => t.explicit)).length)
              processed.length)
            ctx) r := by
  unfold enh_generate_audio_profile
  rw [if_neg (by simpa using hne)]
  have hy : collect_years processed = [] := by
    unfold collect_years
    exact List.filterMap_eq_nil_iff.mpr hyears
  rw [hgen, hy]
  rfl

/-- C7: given exactly 3 valid tracks with no parseable release dates and
no artist genre data, the enhanced pipeline returns one cluster named
"All Tracks" holding all 3 tracks at percentage 100.0 with a
default-template-derived profile — not an error — for every oracle
configuration. -/
theorem c7_three_tracks_one_cluster (d : ArtistData) (raw : List RawItem)
    (pn pd : String) (daysAgo : String → Option ℚ)
    (kmeansRes aggRes dbscanRes : Option (List ℤ)) (sil : List ℤ → ℚ)
    (pc_fallback : List ℤ) (kmeans_oracle : ℕ → ℕ → List ℕ)
    (cdist : ℕ → ℕ → ℚ) (oc mc : ℕ) (r : Rng)
    (vectors : List (List ℚ)) (processed tdata : List TrackInfo)
    (hb : enh_create_feature_vectors d daysAgo raw
      = Except.ok (vectors, processed, tdata))
    (h3 : processed.length = 3)
    (hyears : ∀ t ∈ processed, parse_year t.release_date = none)
    (hgen : enh_genre_counts d processed = []) :
    enh_analyze_playlist d raw pn pd daysAgo kmeansRes aggRes dbscanRes sil
      pc_fallback kmeans_oracle cdist oc mc r
      = Except.ok
        (c7_result (enh_extract_playlist_context pn pd) processed
           (enh_generate_audio_profile d (enh_extract_playlist_context pn pd)
             processed "default" r).1,
         (enh_generate_audio_profile d (enh_extract_playlist_context pn pd)
           processed "default" r).2) ∧
    enh_generate_audio_profile d (enh_extract_playlist_context pn pd)
        processed "default" r
      = enh_add_profile_variations
          (enh_adjust_profile_by_context
            (enh_adjust_by_explicit
              (enh_adjust_by_popularity (enh_get_base_audio_profile "default")
                (processed.map (fun t => t.popularity)))
              ((processed.filter (fun t => t.explicit)).length)
              processed.length)
            (enh_extract_playlist_context pn pd)) r := by
  constructor
  · unfold enh_analyze_playlist
    rw [hb]
    dsimp only
    rw [if_pos (by omega)]
    rw [create_simplified_analysis_three d _ processed r h3 hyears]
  · exact enh_profile_default_derived d _ processed r
      (by intro he; rw [he] at h3; simp at h3) hyears hgen

/-- C5 witness input: two clusters with empty track lists. -/
def c5_clusters : List (ℤ × List TrackInfo) := [(0, []), (1, [])]

def zero_rng : Rng := ⟨fun _ => 0, 0⟩

def empty_themes : ContextThemes := ⟨[], [], [], [], []⟩

/-- C5 witness: the theorem at a concrete two-cluster input. -/
theorem c5_unique_final_names_witness :
    (c5_clusters.map Prod.fst).Nodup ∧
    (((create_unique_cluster_names [] empty_themes c5_clusters zero_rng).1.map
        Prod.fst = c5_clusters.map Prod.fst) ∧
    ((create_unique_cluster_names [] empty_themes c5_clusters
        zero_rng).1.map Prod.snd).Nodup) :=
  ⟨by decide,
   c5_unique_final_names [] empty_themes c5_clusters zero_rng (by decide)⟩

/-- One C7 witness raw track (valid, no album, no artist entry). -/
def c7_rawtrack (i : String) : RawTrack :=
  { id := i, name := "t", artists := [⟨"A", "aid"⟩], album := none,
    popularity := none, explicit := false, track_number := 0,
    duration_ms := 0 }

def c7_item (i : String) : RawItem :=
  { track := some (c7_rawtrack i), added_at := none }

def c7_raw : List RawItem := [c7_item "a", c7_item "b", c7_item "c"]

/-- The track record the builder produces for `c7_item i`. -/
def c7_track (i : String) : TrackInfo :=
  { id := i, name := "t", artists := ["A"], primary_artist := "A",
    artist_id := some "aid", album := "Unknown", popularity := 50,
    added_at := none, release_date := "", image_url := none,
    explicit := false, duration_ms := 0 }

def c7_processed : List TrackInfo := [c7_track "a", c7_track "b", c7_track "c"]

def c7_vec : List ℚ :=
  [1/2, 1/2, 0, 1/2, 1/2, 0, 0, 0, 0, 0, 0, 0, 0, 1/2]

/-- C7 witness: the theorem applied to three concrete tracks with empty
release dates and an empty artist lookup. -/
theorem c7_three_tracks_one_cluster_witness :
    enh_analyze_playlist [] c7_raw "" "" (fun _ => none) none none none
      (fun _ => 0) [] (fun _ _ => []) (fun _ _ => 0) 4 8 zero_rng
      = Except.ok
        (c7_result (enh_extract_playlist_context "" "") c7_processed
           (enh_generate_audio_profile [] (enh_extract_playlist_context "" "")
             c7_processed "default" zero_rng).1,
         (enh_generate_audio_profile [] (enh_extract_playlist_context "" "")
           c7_processed "default" zero_rng).2) ∧
    enh_generate_audio_profile [] (enh_extract_playlist_context "" "")
        c7_processed "default" zero_rng
      = enh_add_profile_variations
          (enh_adjust_profile_by_context
            (enh_adjust_by_explicit
              (enh_adjust_by_popularity (enh_get_base_audio_profile "default")
                (c7_processed.map (fun t => t.popularity)))
              ((c7_processed.filter (fun t => t.explicit)).length)
              c7_processed.length)
            (enh_extract_playlist_context "" "")) zero_rng :=
  c7_three_tracks_one_cluster [] c7_raw "" "" (fun _ => none) none none none
    (fun _ => 0) [] (fun _ _ => []) (fun _ _ => 0) 4 8 zero_rng
    [c7_vec, c7_vec, c7_vec] c7_processed c7_processed
    (by with_unfolding_all rfl) (by decide) (by decide) (by decide)

/-! ## C2 and C10: the advanced feature builder and analyze pipeline -/

/-! ### advanced_clustering.create_enhanced_feature_vectors (133-354) -/

/-- `pandas.Series.median()` over the non-null values: `none` when there
are none. -/
def q_median (l : List ℚ) : Option ℚ :=
  match l with
  | [] => none
  | _ =>
    let s := q_sort l
    let n := s.length
    if n % 2 = 1 then some (s.getD (n / 2) 0)
    else some ((s.getD (n / 2 - 1) 0 + s.getD (n / 2) 0) / 2)

/-- `df[col].fillna(df[col].median())` for a nullable column (`none`
models NaN; a column that is entirely NaN stays NaN, as in pandas). -/
def fill_median (col : List (Option ℚ)) : List (Option ℚ) :=
  if col.any (fun x => x.isNone) then
    match q_median (col.filterMap id) with
    | some m => col.map (fun x => match x with
        | some v => some v
        | none => some m)
    | none => col
  else col

/-- The z-score normalization of lines 344-348.  `sq` models `sqrt`, so
`sq var` is the sample standard deviation; the positivity test is made on
the variance, which is positive exactly when the standard deviation is.
A still-NaN column (every entry missing) fails `std > 0` and is set to 0,
as in pandas. -/
def norm_col (sq : ℚ → ℚ) (col : List (Option ℚ)) : List ℚ :=
  if col.all (fun x => x.isSome) then
    let vals := col.filterMap id
    let m := q_mean vals
    let var := (vals.map (fun x => (x - m) ^ 2)).sum / ((vals.length : ℚ) - 1)
    if 0 < var then vals.map (fun x => (x - m) / sq var)
    else vals.map (fun _ => 0)
  else col.map (fun _ => 0)

/-- The advanced `track_info` record (186-200): the enhanced record plus
`duration_ms`. -/
def adv_track_info (item : RawItem) (t : RawTrack) : TrackInfo :=
  { id := t.id
    name := t.name
    artists := t.artists.map (fun a => a.name)
    primary_artist := match t.artists.head? with
      | some a => a.name
      | none => "Unknown"
    artist_id := match t.artists.head? with
      | some a => some a.id
      | none => none
    album := match t.album with
      | some a => match a.name with
        | some n => n
        | none => "Unknown"
      | none => "Unknown"
    popularity := match t.popularity with
      | some p => p
      | none => 50
    added_at := item.added_at
    release_date := match t.album with
      | some a => match a.release_date with
        | some rd => rd
        | none => ""
      | none => ""
    image_url := match t.album with
      | some a => if a.images.isEmpty then none else (a.images.headD none)
      | none => none
    explicit := t.explicit
    duration_ms := t.duration_ms }

/-- The raw per-track feature values of the 17 advanced columns
(dict-literal order; `Option` = a NaN placeholder). -/
structure AdvFeatRow where
  popularity : ℚ
  release_year : Option ℚ
  explicit : ℚ
  track_position : ℚ
  artist_popularity : ℚ
  genre : List ℚ
  added_recency : Option ℚ
  album_popularity : ℚ
  artist_followers : ℚ
  track_duration : ℚ
deriving DecidableEq

/-- The validity filter shared by both builders (175-183). -/
def adv_valid (raw : List RawItem) : List (RawItem × RawTrack) :=
  raw.filterMap (fun item =>
    match item.track with
    | none => none
    | some t =>
      if t.id == "" || t.artists.isEmpty || t.name == "" then none
      else some (item, t))

/-- First-artist id with `""` for a missing artists list. -/
def adv_aid (t : RawTrack) : String :=
  match t.artists.head? with
  | some a => a.id
  | none => ""

/-- `album_popularity` approximation (302-316): mean popularity of all
raw tracks sharing the album name, over `len * 100`. -/
def adv_album_popularity (raw : List RawItem) (t : RawTrack) : ℚ :=
  let album_name := match t.album with
    | some a => match a.name with
      | some n => n
      | none => ""
    | none => ""
  let pops := raw.filterMap (fun other =>
    match other.track with
    | none => none
    | some ot =>
      let oname := match ot.album with
        | some a => match a.name with
          | some n => n
          | none => ""
        | none => ""
      if oname == album_name then
        some (match ot.popularity with
          | some p => p
          | none => 50)
      else none)
  if pops.isEmpty then 1/2
  else pops.sum / ((pops.length : ℚ) * 100)

/-- One row of raw features (205-320); `daysAgo` models
`(utcnow() - parsed(added_at)).days`, `none` for a parse exception. -/
def adv_feat_row (d : ArtistData) (daysAgo : String → Option ℚ)
    (raw : List RawItem) (item : RawItem) (t : RawTrack) : AdvFeatRow :=
  let aid := adv_aid t
  let looked := if aid == "" then none else artist_lookup d aid
  { popularity := (match t.popularity with
      | some p => p
      | none => 50) / 100
    release_year := parse_year (raw_release_date t)
    explicit := if t.explicit then 1 else 0
    track_position := match t.album with
      | some a =>
        if t.track_number ≠ 0 ∧ 0 < a.total_tracks then
          (t.track_number : ℚ) / (a.total_tracks : ℚ)
        else 1/2
      | none => 1/2
    artist_popularity := match looked with
      | some a => (match a.popularity with
        | some p => p
        | none => 50) / 100
      | none => 1/2
    genre := (match looked with
      | some a => genre_family_counts a.genres
      | none => [0, 0, 0, 0, 0, 0, 0, 0]).map (fun c => pymin 1 ((c : ℚ) / 3))
    added_recency := match item.added_at with
      | some s => daysAgo s
      | none => none
    album_popularity := adv_album_popularity raw t
    artist_followers := match looked with
      | some a => match a.followers with
        | some f => f
        | none => 0
      | none => 0
    track_duration := t.duration_ms }

/-- `AdvancedPlaylistAnalysis.create_enhanced_feature_vectors` (133-354):
validity filter, raw columns, median imputation of the nullable columns,
z-score normalization of the four designated columns, and the matrix in
DataFrame column order. -/
def adv_create_feature_vectors (d : ArtistData) (daysAgo : String → Option ℚ)
    (sq : ℚ → ℚ) (raw : List RawItem) :
    Except String (List (List ℚ) × List TrackInfo × List TrackInfo) :=
  if raw.isEmpty then Except.error "No tracks available for analysis"
  else
    let valid := adv_valid raw
    let feats := valid.map (fun p => adv_feat_row d daysAgo raw p.1 p.2)
    let processed := valid.map (fun p => adv_track_info p.1 p.2)
    if processed.isEmpty then Except.error "No valid tracks for feature extraction"
    else
      let ry := norm_col sq (fill_median (feats.map (fun f => f.release_year)))
      let ar := norm_col sq (fill_median (feats.map (fun f => f.added_recency)))
      let af := norm_col sq (feats.map (fun f => some f.artist_followers))
      let td := norm_col sq (feats.map (fun f => some f.track_duration))
      let rows := (List.range feats.length).map (fun i =>
        let f := feats.getD i
          ⟨0, none, 0, 0, 0, [], none, 0, 0, 0⟩
        [f.popularity, ry.getD i 0, f.explicit, f.track_position,
         f.artist_popularity]
        ++ f.genre
        ++ [ar.getD i 0, f.album_popularity, af.getD i 0, td.getD i 0])
      Except.ok (rows, processed, processed)

/-! ### C10: missing artist entry degrades to defaults -/

def c10_dummy : RawItem × RawTrack :=
  (⟨none, none⟩, ⟨"", "", [], none, none, false, 0, 0⟩)

theorem getD_range_map {α : Type} (f : ℕ → α) (n i : ℕ) (dflt : α)
    (h : i < n) : ((List.range n).map f).getD i dflt = f i := by
  rw [List.getD_eq_getElem _ _ (by simpa using h), List.getElem_map]
  congr 1
  apply List.getElem_range

theorem getD_map_of_lt {α β : Type} (f : α → β) (l : List α) (i : ℕ)
    (da : α) (db : β) (h : i < l.length) :
    (l.map f).getD i db = f (l.getD i da) := by
  rw [List.getD_eq_getElem _ _ (by simpa using h), List.getElem_map,
    List.getD_eq_getElem _ _ h]

/-- C10: a valid track whose primary-artist id has no lookup entry gets
artist-popularity 1/2 (50/100) and all eight genre-family features 0 in
its final feature row, and the builder still succeeds. -/
theorem c10_missing_artist_defaults (d : ArtistData)
    (daysAgo : String → Option ℚ) (sq : ℚ → ℚ) (raw : List RawItem) (i : ℕ)
    (hi : i < (adv_valid raw).length)
    (hlook : artist_lookup d (adv_aid ((adv_valid raw).getD i c10_dummy).2)
      = none) :
    ∃ rows processed,
      adv_create_feature_vectors d daysAgo sq raw
        = Except.ok (rows, processed, processed) ∧
      (rows.getD i []).getD 4 0 = 1/2 ∧
      (∀ j, 5 ≤ j → j ≤ 12 → (rows.getD i []).getD j 0 = 0) ∧
      processed.length = (adv_valid raw).length := by
  have hraw : ¬ raw.isEmpty = true := by
    intro he
    have hre : raw = [] := by simpa using he
    subst hre
    simp [adv_valid] at hi
  have hproc : ¬ ((adv_valid raw).map
      (fun p => adv_track_info p.1 p.2)).isEmpty = true := by
    intro he
    rw [List.isEmpty_iff, List.map_eq_nil_iff] at he
    rw [he] at hi
    simp at hi
  have hfl : i < ((adv_valid raw).map
      (fun p => adv_feat_row d daysAgo raw p.1 p.2)).length := by
    simpa using hi
  have hfeat : ((adv_valid raw).map
        (fun p => adv_feat_row d daysAgo raw p.1 p.2)).getD i
        ⟨0, none, 0, 0, 0, [], none, 0, 0, 0⟩
      = adv_feat_row d daysAgo raw ((adv_valid raw).getD i c10_dummy).1
          ((adv_valid raw).getD i c10_dummy).2 := by
    rw [getD_map_of_lt _ _ _ c10_dummy _ hi]
  have hlooked : (if adv_aid ((adv_valid raw).getD i c10_dummy).2 == ""
      then none
      else artist_lookup d (adv_aid ((adv_valid raw).getD i c10_dummy).2))
      = none := by
    by_cases h : adv_aid ((adv_valid raw).getD i c10_dummy).2 == ""
    · rw [if_pos h]
    · rw [if_neg h]
      exact hlook
  have hpop : (adv_feat_row d daysAgo raw ((adv_valid raw).getD i c10_dummy).1
      ((adv_valid raw).getD i c10_dummy).2).artist_popularity = 1/2 := by
    unfold adv_feat_row
    dsimp only
    rw [hlooked]
  have hgen : (adv_feat_row d daysAgo raw ((adv_valid raw).getD i c10_dummy).1
      ((adv_valid raw).getD i c10_dummy).2).genre
      = [0, 0, 0, 0, 0, 0, 0, 0] := by
    unfold adv_feat_row
    dsimp only
    rw [hlooked]
    norm_num [pymin]
  unfold adv_create_feature_vectors
  rw [if_neg hraw]
  dsimp only
  rw [if_neg hproc]
  refine ⟨_, _, rfl, ?_, ?_, by simp⟩
  · rw [getD_range_map _ _ _ _ hfl, hfeat]
    simp only [List.cons_append, List.nil_append, List.getD_cons_succ,
      List.getD_cons_zero]
    exact hpop
  · intro j h5 h12
    rw [getD_range_map _ _ _ _ hfl, hfeat, hgen]
    interval_cases j <;>
      simp only [List.cons_append, List.nil_append, List.getD_cons_succ,
        List.getD_cons_zero]

/-! ### advanced_clustering.analyze_playlist (1197-1289) -/

/-- The advanced result dict (only the parts the error-free path can
reach; the per-cluster loop raises before ever adding a cluster). -/
structure AdvResult where
  clusters_count : ℕ
  total_tracks : ℕ
  analyzed_tracks : ℕ
  optimal_clusters : ℕ
  method : String
  coordinates : List (ℚ × ℚ × String × ℤ)
  context_themes : ContextThemes
  year_span : Option (ℚ × ℚ × ℚ)
deriving DecidableEq

/-- `AdvancedPlaylistAnalysis.analyze_playlist` (1197-1289).

`umap_rows` is the UMAP embedding (`perform_umap_reduction`), the
`primary/retry/softOk/soft/gmm` oracles parameterize
`perform_hdbscan_clustering` as in its own embedding.  The per-cluster
loop of Step 8 computes a genre distribution and an audio profile and
then calls the missing method `self._create_descriptive_cluster_name`
(line 1248): on the first iteration Python raises `AttributeError`, so
any run with at least one cluster returns that error.  When the cluster
dict is empty the loop is skipped and Step 9 indexes
`processed_tracks[i]` and `cluster_labels[i]` for every embedding row,
raising `IndexError` unless the embedding is no longer than both. -/
def adv_analyze_playlist (d : ArtistData) (raw : List RawItem)
    (playlist_name playlist_description : String)
    (daysAgo : String → Option ℚ) (sq : ℚ → ℚ)
    (umap_rows : List (List ℚ) → List (List ℚ))
    (primary retry : List ℤ) (softOk : Bool) (soft : ℕ → List ℚ)
    (gmm : ℕ → List ℤ) : Except String AdvResult :=
  match adv_create_feature_vectors d daysAgo sq raw with
  | Except.error e => Except.error e
  | Except.ok res =>
    let processed := res.2.1
    let ctx := adv_extract_playlist_context playlist_name playlist_description
    let emb := umap_rows res.1
    let labels := perform_hdbscan_clustering primary retry softOk soft gmm
      (fun i => emb.getD i []) emb.length
    let clusters := group_by_label labels processed
    if clusters.isEmpty then
      if processed.length < emb.length ∨ labels.length < emb.length then
        Except.error "IndexError: list index out of range"
      else
        Except.ok
          { clusters_count := 0, total_tracks := processed.length,
            analyzed_tracks := processed.length, optimal_clusters := 0,
            method := "hdbscan-umap",
            coordinates := (List.range emb.length).map (fun i =>
              ((emb.getD i []).getD 0 0, (emb.getD i []).getD 1 0,
               (processed.getD i ⟨"", "", [], "", none, "", 0, none, "",
                 none, false, 0⟩).id,
               labels.getD i 0 + 1)),
            context_themes := ctx, year_span := get_year_span processed }
    else
      Except.error
        "AttributeError: 'AdvancedPlaylistAnalysis' object has no attribute '_create_descriptive_cluster_name'"

/-! ### C2: the advanced pipeline always raises at the naming step -/

theorem group_by_label_step_ne_nil :
    ∀ (l : List (ℤ × TrackInfo)) (acc : List (ℤ × List TrackInfo)),
    acc ≠ [] →
    l.foldl (fun acc p =>
      match acc.find? (fun c => c.1 == p.1) with
      | some _ => acc.map (fun c => if c.1 == p.1 then (c.1, c.2 ++ [p.2]) else c)
      | none => acc ++ [(p.1, [p.2])]) acc ≠ [] := by
  intro l
  induction l with
  | nil => intro acc h; simpa using h
  | cons p tl ih =>
    intro acc h
    simp only [List.foldl_cons]
    apply ih
    cases hf : acc.find? (fun c => c.1 == p.1) with
    | some c =>
      simp only [hf]
      intro he
      exact h (by simpa using he)
    | none => simp [hf]

theorem group_by_label_ne_nil {labels : List ℤ} {processed : List TrackInfo}
    (hl : labels ≠ []) (hp : processed ≠ []) :
    group_by_label labels processed ≠ [] := by
  unfold group_by_label
  cases labels with
  | nil => exact absurd rfl hl
  | cons a as =>
    cases processed with
    | nil => exact absurd rfl hp
    | cons b bs =>
      simp only [List.zip_cons_cons, List.foldl_cons, List.find?_nil]
      apply group_by_label_step_ne_nil
      simp

/-- C2: whenever the advanced feature builder succeeds with at least one
processed track and the clustering step labels at least one point, the
advanced `analyze_playlist` fails with the `AttributeError` caused by the
call to the missing method `_create_descriptive_cluster_name` — for every
UMAP and clustering oracle. -/
theorem c2_advanced_analyze_raises (d : ArtistData) (raw : List RawItem)
    (pn pdesc : String) (daysAgo : String → Option ℚ) (sq : ℚ → ℚ)
    (umap_rows : List (List ℚ) → List (List ℚ))
    (primary retry : List ℤ) (softOk : Bool) (soft : ℕ → List ℚ)
    (gmm : ℕ → List ℤ)
    (vectors : List (List ℚ)) (processed tdata : List TrackInfo)
    (hb : adv_create_feature_vectors d daysAgo sq raw
      = Except.ok (vectors, processed, tdata))
    (hp : processed ≠ [])
    (hl : perform_hdbscan_clustering primary retry softOk soft gmm
      (fun i => (umap_rows vectors).getD i []) (umap_rows vectors).length
      ≠ []) :
    adv_analyze_playlist d raw pn pdesc daysAgo sq umap_rows primary retry
      softOk soft gmm
      = Except.error
        "AttributeError: 'AdvancedPlaylistAnalysis' object has no attribute '_create_descriptive_cluster_name'" := by
  unfold adv_analyze_playlist
  rw [hb]
  dsimp only
  rw [if_neg ?_]
  rw [List.isEmpty_iff]
  exact group_by_label_ne_nil hl hp

def c2_rawtrack : RawTrack :=
  { id := "a", name := "t", artists := [⟨"A", "aid"⟩], album := none,
    popularity := none, explicit := false, track_number := 0,
    duration_ms := 0 }

def c2_item : RawItem := { track := some c2_rawtrack, added_at := none }

def c2_raw : List RawItem := [c2_item]

def c2_track : TrackInfo :=
  { id := "a", name := "t", artists := ["A"], primary_artist := "A",
    artist_id := some "aid", album := "Unknown", popularity := 50,
    added_at := none, release_date := "", image_url := none,
    explicit := false, duration_ms := 0 }

def c2_vec : List ℚ :=
  [1/2, 0, 0, 1/2, 1/2, 0, 0, 0, 0, 0, 0, 0, 0, 0, 1/2, 0, 0]

set_option maxRecDepth 10000 in
/-- C2 witness: one valid track, one-point UMAP embedding (so the tiny
branch labels it cluster 0), concrete AttributeError. -/
theorem c2_advanced_analyze_raises_witness :
    adv_analyze_playlist [] c2_raw "" "" (fun _ => none) (fun _ => 0)
      (fun _ => [[0, 0]]) [] [] false (fun _ => []) (fun _ => [0])
      = Except.error
        "AttributeError: 'AdvancedPlaylistAnalysis' object has no attribute '_create_descriptive_cluster_name'" :=
  c2_advanced_analyze_raises [] c2_raw "" "" (fun _ => none) (fun _ => 0)
    (fun _ => [[0, 0]]) [] [] false (fun _ => []) (fun _ => [0])
    [c2_vec] [c2_track] [c2_track]
    (by with_unfolding_all rfl) (by decide) (by with_unfolding_all decide)

def c10_rawtrack : RawTrack :=
  { id := "b", name := "u", artists := [⟨"B", "bid"⟩], album := none,
    popularity := none, explicit := false, track_number := 0,
    duration_ms := 0 }

def c10_item : RawItem := { track := some c10_rawtrack, added_at := none }

def c10_raw : List RawItem := [c10_item]

set_option maxRecDepth 10000 in
/-- C10 witness: a single valid track whose artist id has no entry in an
empty lookup. -/
theorem c10_missing_artist_defaults_witness :
    0 < (adv_valid c10_raw).length ∧
    (∃ rows processed,
      adv_create_feature_vectors [] (fun _ => none) (fun _ => 0) c10_raw
        = Except.ok (rows, processed, processed) ∧
      (rows.getD 0 []).getD 4 0 = 1/2 ∧
      (∀ j, 5 ≤ j → j ≤ 12 → (rows.getD 0 []).getD j 0 = 0) ∧
      processed.length = (adv_valid c10_raw).length) :=
  ⟨by decide,
   c10_missing_artist_defaults [] (fun _ => none) (fun _ => 0) c10_raw 0
     (by decide) (by rfl)⟩
